import Mathlib

/-!
# Identifo: login flow, two-factor gate, one-time codes, storage composers and storages

A shallow embedding of `web/api/login.go`, of the uniform and partial storage composers
(`server/boltdb/composer.go`, `server/fake/composer.go`), of the MongoDB user and invite
storages (`mongo/user_storage.go`, `storage/mongo/invite_storage.go`, `model/invite.go`) and
of the JSON form of session durations (`model/session.go`).

Go functions returning `(value, error)` are embedded as functions returning a pair whose
second component is an `Option Error` (`none` is Go's `nil` error).  Collaborators reached
through interfaces (user storage, token service, SMS and email senders, authorizer,
payload provider) are fields of the `Router` record, exactly as in the Go `Router`
struct; each of them is a state transformer over an arbitrary collaborator state `σ`,
and every call is appended to a call log kept next to that state.  Go's `int` is the
64-bit signed integer: a value of that type is an `Int` in the 64-bit range, and the result
of Go's arithmetic on such values is wrapped into that range (`wrapInt64`).
-/

namespace Identifo

/-! ## Data model -/

/-- Modelled from the spec: `model.TFAStatus` is declared outside the embedded files; the
data model gives the closed set `Disabled|Optional|Mandatory`. -/
inductive TFAStatus where
  | Disabled
  | Optional
  | Mandatory
deriving DecidableEq, Repr

/-- Modelled from the spec: `model.TFAType` is declared outside the embedded files.  The
three delivery types named by the spec are `App` (TOTP), `SMS` and `Email`; `Other` stands
for any further value of the type, which `sendOTPCode` treats through the missing
`default` of its `switch`. -/
inductive TFAType where
  | App
  | SMS
  | Email
  | Other
deriving DecidableEq, Repr

/-- Instants and durations are counted in nanoseconds, as `time.Duration` does. -/
abbrev Time := Int

/-- The duration `time.Hour`. -/
def Hour : Int := 3600 * 1000000000

/-- One time code expiration in hours (12 hours for HOTP). -/
def hotpLifespanHours : Int := 12

/-- The value lies in the range of a 64-bit signed integer: Go's `int64`, and `int` on the
64-bit platforms this embedding assumes. -/
abbrev inInt64 (x : Int) : Prop := -9223372036854775808 ≤ x ∧ x < 9223372036854775808

/-- The 64-bit signed integer that an arithmetic result wraps to. -/
def wrapInt64 (x : Int) : Int :=
  (x + 9223372036854775808) % 18446744073709551616 - 9223372036854775808

/-- The format `smsTFACode` applied to a code: `"%v is your one-time password!"`. -/
def smsTFACode (otp : String) : String := otp ++ " is your one-time password!"

/-- Modelled from the spec: `model.TFAInfo` is declared outside the embedded files; the data
model lists a secret, an enabled flag, a HOTP counter and the expiry of the HOTP code.  The
counter is a Go `int`, the type of the argument of gotp's `At` that `sendOTPCode` passes it
to: an integer in the 64-bit range, on which Go's `+` and `++` wrap. -/
structure TFAInfo where
  IsEnabled : Bool
  HOTPCounter : Int
  HOTPExpiredAt : Time
  Secret : String
deriving DecidableEq, Repr

/-- Modelled from the spec: `model.User` is declared outside the embedded files; these are
the fields `login.go` reads, plus the password hash that sanitising strips. -/
structure User where
  ID : String
  Email : String
  Phone : String
  Pswd : String
  AccessRole : String
  TFAInfo : TFAInfo
deriving DecidableEq, Repr

/-- The zero value of `model.TFAInfo`. -/
def TFAInfo.zero : TFAInfo := ⟨false, 0, 0, ""⟩

/-- The zero value of `model.User`. -/
def User.zero : User := ⟨"", "", "", "", "", TFAInfo.zero⟩

/-- Modelled from the spec: `User.Sanitized` is declared outside the embedded files; the
spec says the password hash and the raw TFA secret are stripped. -/
def User.Sanitized (u : User) : User :=
  { u with Pswd := "", TFAInfo := { u.TFAInfo with Secret := "" } }

/-- The settings of the HTTP token payload service of an application. -/
structure TokenPayloadServiceHttpSettings where
  Secret : String
  URL : String
deriving DecidableEq, Repr

/-- Modelled from the spec: `model.AppData` is declared outside the embedded files; these
are the fields `login.go` reads.  `TokenPayloadServiceIsHttp` is the outcome of the test
`app.TokenPayloadService == model.TokenPayloadServiceHttp`. -/
structure AppData where
  ID : String
  Name : String
  TFAStatus : TFAStatus
  TokenPayloadServiceIsHttp : Bool
  TokenPayloadServiceHttpSettings : TokenPayloadServiceHttpSettings
deriving DecidableEq, Repr

/-- The extra token payload, a `map[string]interface{}`; `none` is the `nil` map. -/
abbrev TokenPayload := Option (List (String × String))

/-- Go `error` values.  The first four are the package-level variables of `login.go`; the
next two are built by `loginData.validate`, the following four by the two senders, and
`external` is any error handed back by a collaborator.  `ErrorNotFound`,
`ErrorWrongDataFormat` and `ErrorUserExists` are the variables of package `model` that the
storages return, and the last two are built by `Invite.Validate`. -/
inductive Error where
  | errPleaseEnableTFA
  | errPleaseSetPhoneTFA
  | errPleaseSetEmailTFA
  | errPleaseDisableTFA
  | incorrectUsernameLength (usernameLen : Nat)
  | incorrectPasswordLength (pswdLen : Nat)
  | noPhoneNumber
  | noEmail
  | unableToSendSMS (cause : Error)
  | unableToSendEmail (cause : Error)
  | external (msg : String)
  | ErrorNotFound
  | ErrorWrongDataFormat
  | ErrorUserExists
  | emailCannotBeEmpty
  | expiresAtCannotBeZero
deriving DecidableEq, Repr

/-- AuthResponse is a response with successful auth data. -/
structure AuthResponse where
  AccessToken : String
  RefreshToken : String
  User : User
  Require2FA : Bool
  Enabled2FA : Bool
deriving DecidableEq, Repr

/-- The zero value `AuthResponse{}`. -/
def AuthResponse.zero : AuthResponse := ⟨"", "", User.zero, false, false⟩

/-- The body of a login request. -/
structure loginData where
  Username : String
  Password : String
  DeviceToken : String
  Scopes : List String
deriving DecidableEq, Repr

/-! ## The two-factor decision -/

/-- The method `Router.check2FA`: it checks the correspondence between the app's TFA status
and the user's TFA info, and returns `(require2FA, enabled2FA, err)`. -/
def check2FA (appTFAStatus : TFAStatus) (serverTFAType : TFAType) (user : User) :
    Bool × Bool × Option Error :=
  if appTFAStatus = TFAStatus.Mandatory ∧ user.TFAInfo.IsEnabled = false then
    (true, false, some Error.errPleaseEnableTFA)
  else if appTFAStatus = TFAStatus.Disabled ∧ user.TFAInfo.IsEnabled = true then
    (false, true, some Error.errPleaseDisableTFA)
  else if user.TFAInfo.IsEnabled = true ∧ appTFAStatus ≠ TFAStatus.Disabled then
    if user.Phone = "" ∧ serverTFAType = TFAType.SMS then
      (true, false, some Error.errPleaseSetPhoneTFA)
    else if user.Email = "" ∧ serverTFAType = TFAType.Email then
      (true, false, some Error.errPleaseSetEmailTFA)
    else if user.TFAInfo.Secret = "" then
      (true, false, some Error.errPleaseEnableTFA)
    else
      (true, true, none)
  else
    (false, false, none)

/-! ## Collaborators, the router and the world it acts on -/

/-- The argument of the authorizer: `authorization.AuthzInfo`. -/
structure AuthzInfo where
  App : AppData
  UserRole : String
  ResourceURI : String
  Method : String
deriving DecidableEq, Repr

/-- One call made to a collaborator, with the arguments it was given. -/
inductive Call where
  | UserByNamePassword (name password : String)
  | Authorize (azi : AuthzInfo)
  | RequestScopes (userID : String) (scopes : List String)
  | NewTokenPayloadProvider (secret url : String)
  | TokenPayloadForApp (appID appName userID : String)
  | NewAccessToken (user : User) (scopes : List String) (app : AppData) (require2FA : Bool)
      (tokenPayload : TokenPayload)
  | NewRefreshToken (user : User) (scopes : List String) (app : AppData)
  | TokenString
  | UpdateUser (id : String) (user : User)
  | UpdateLoginMetadata (userID : String)
  | SendSMS (phone message : String)
  | SendTFAEmail (subject email otp : String)
deriving DecidableEq, Repr

/-- The part of `model.UserStorage` that `login.go` calls. -/
structure UserStorage (σ : Type) where
  UserByNamePassword : String → String → σ → (User × Option Error) × σ
  RequestScopes : String → List String → σ → (List String × Option Error) × σ
  UpdateUser : String → User → σ → (User × Option Error) × σ
  UpdateLoginMetadata : String → σ → σ

/-- The part of the token service that `login.go` calls; `TokenString` is its method
`String`, and `τ` is the type of tokens. -/
structure TokenService (σ τ : Type) where
  NewAccessToken : User → List String → AppData → Bool → TokenPayload → σ → (τ × Option Error) × σ
  NewRefreshToken : User → List String → AppData → σ → (τ × Option Error) × σ
  TokenString : τ → σ → (String × Option Error) × σ

/-- The SMS sender. -/
structure SMSService (σ : Type) where
  SendSMS : String → String → σ → Option Error × σ

/-- The email sender. -/
structure EmailService (σ : Type) where
  SendTFAEmail : String → String → String → σ → Option Error × σ

/-- The authorization collaborator. -/
structure Authorizer (σ : Type) where
  Authorize : AuthzInfo → σ → Option Error × σ

/-- The package `user_payload_provider/http`: the constructor of payload providers and the
method `TokenPayloadForApp` of a provider; `π` is the type of providers. -/
structure PayloadProviders (σ π : Type) where
  NewTokenPayloadProvider : String → String → σ → (π × Option Error) × σ
  TokenPayloadForApp : π → String → String → String → σ → (TokenPayload × Option Error) × σ

/-- One flag of `model.LoginWith`. -/
structure SupportedLoginWays where
  Username : Bool
deriving DecidableEq, Repr

/-- The fields of the `Router` that `login.go` reads, together with the libraries it calls:
`thp` is the payload provider package, `hotpAt secret count` is
`gotp.NewDefaultHOTP(secret).At(count)` and `now` is `time.Now()`. -/
structure Router (σ π τ : Type) where
  SupportedLoginWays : SupportedLoginWays
  tfaType : TFAType
  userStorage : UserStorage σ
  tokenService : TokenService σ τ
  smsService : SMSService σ
  emailService : EmailService σ
  Authorizer : Authorizer σ
  thp : PayloadProviders σ π
  hotpAt : String → Int → String
  now : σ → Time

/-- What the router acts on: the state of its collaborators, its own mutable map
`tokenPayloadServices` (application ID to provider) and the log of the calls made so far,
oldest first. -/
structure World (σ π : Type) where
  st : σ
  tokenPayloadServices : List (String × π)
  log : List Call

/-- A world in which no call has been made yet. -/
def World.fresh {σ π : Type} (st : σ) (tokenPayloadServices : List (String × π)) : World σ π :=
  ⟨st, tokenPayloadServices, []⟩

/-- Run one collaborator call: log it, and thread the collaborator state. -/
def World.call {σ π α : Type} (w : World σ π) (c : Call) (f : σ → α × σ) : α × World σ π :=
  ((f w.st).1, { w with st := (f w.st).2, log := w.log ++ [c] })

/-- Run one collaborator call that returns nothing. -/
def World.run {σ π : Type} (w : World σ π) (c : Call) (f : σ → σ) : World σ π :=
  { w with st := f w.st, log := w.log ++ [c] }

/-! ## One-time codes -/

/-- The method `Router.sendTFACodeInSMS`. -/
def sendTFACodeInSMS {σ π τ : Type} (ar : Router σ π τ) (phone otp : String) (w : World σ π) :
    Option Error × World σ π :=
  if phone = "" then
    (some Error.noPhoneNumber, w)
  else
    let r := w.call (Call.SendSMS phone (smsTFACode otp)) (ar.smsService.SendSMS phone (smsTFACode otp))
    match r.1 with
    | some err => (some (Error.unableToSendSMS err), r.2)
    | none => (none, r.2)

/-- The method `Router.sendTFACodeOnEmail`. -/
def sendTFACodeOnEmail {σ π τ : Type} (ar : Router σ π τ) (email otp : String) (w : World σ π) :
    Option Error × World σ π :=
  if email = "" then
    (some Error.noEmail, w)
  else
    let r := w.call (Call.SendTFAEmail "One-time password" email otp)
      (ar.emailService.SendTFAEmail "One-time password" email otp)
    match r.1 with
    | some err => (some (Error.unableToSendEmail err), r.2)
    | none => (none, r.2)

/-- The user record that `sendOTPCode` hands to `UpdateUser`: the counter incremented by
`tfa.HOTPCounter++`, which wraps as Go's `int` does, and the expiry set to `now` plus the
HOTP lifespan. -/
def bumpHOTP (user : User) (now : Time) : User :=
  { user with TFAInfo :=
      { user.TFAInfo with
        HOTPCounter := wrapInt64 (user.TFAInfo.HOTPCounter + 1)
        HOTPExpiredAt := now + Hour * hotpLifespanHours } }

/-- The method `Router.sendOTPCode`. -/
def sendOTPCode {σ π τ : Type} (ar : Router σ π τ) (user : User) (w : World σ π) :
    Option Error × World σ π :=
  if ar.tfaType ≠ TFAType.App then
    let otp := ar.hotpAt user.TFAInfo.Secret (wrapInt64 (user.TFAInfo.HOTPCounter + 1))
    let user := bumpHOTP user (ar.now w.st)
    let r := w.call (Call.UpdateUser user.ID user) (ar.userStorage.UpdateUser user.ID user)
    if r.1.2 ≠ none then
      (r.1.2, r.2)
    else
      match ar.tfaType with
      | TFAType.SMS => sendTFACodeInSMS ar user.Phone otp r.2
      | TFAType.Email => sendTFACodeOnEmail ar user.Email otp r.2
      | _ => (none, r.2)
  else
    (none, w)

/-! ## Token issuance -/

/-- The method `Router.getTokenPayloadForApp`: get additional token payload data. -/
def getTokenPayloadForApp {σ π τ : Type} (ar : Router σ π τ) (app : AppData) (user : User)
    (w : World σ π) : (TokenPayload × Option Error) × World σ π :=
  if app.TokenPayloadServiceIsHttp = true then
    match w.tokenPayloadServices.lookup app.ID with
    | some ps =>
      w.call (Call.TokenPayloadForApp app.ID app.Name user.ID)
        (ar.thp.TokenPayloadForApp ps app.ID app.Name user.ID)
    | none =>
      let r := w.call
        (Call.NewTokenPayloadProvider app.TokenPayloadServiceHttpSettings.Secret
          app.TokenPayloadServiceHttpSettings.URL)
        (ar.thp.NewTokenPayloadProvider app.TokenPayloadServiceHttpSettings.Secret
          app.TokenPayloadServiceHttpSettings.URL)
      if r.1.2 ≠ none then
        ((none, r.1.2), r.2)
      else
        World.call { r.2 with tokenPayloadServices := (app.ID, r.1.1) :: r.2.tokenPayloadServices }
          (Call.TokenPayloadForApp app.ID app.Name user.ID)
          (ar.thp.TokenPayloadForApp r.1.1 app.ID app.Name user.ID)
  else
    ((none, none), w)

/-- The method `Router.loginUser`: it creates and returns the access token for a user;
`createRefreshToken` tells if a refresh token should be issued as well.  The result is
`(accessTokenString, refreshTokenString, err)`. -/
def loginUser {σ π τ : Type} (ar : Router σ π τ) (user : User) (scopes : List String)
    (app : AppData) (createRefreshToken require2FA : Bool) (tokenPayload : TokenPayload)
    (w : World σ π) : (String × String × Option Error) × World σ π :=
  let token := w.call (Call.NewAccessToken user scopes app require2FA tokenPayload)
    (ar.tokenService.NewAccessToken user scopes app require2FA tokenPayload)
  if token.1.2 ≠ none then
    (("", "", token.1.2), token.2)
  else
    let access := token.2.call Call.TokenString (ar.tokenService.TokenString token.1.1)
    if access.1.2 ≠ none then
      ((access.1.1, "", access.1.2), access.2)
    else if createRefreshToken = false ∨ require2FA = true then
      ((access.1.1, "", none), access.2)
    else
      let refresh := access.2.call (Call.NewRefreshToken user scopes app)
        (ar.tokenService.NewRefreshToken user scopes app)
      if refresh.1.2 ≠ none then
        ((access.1.1, "", refresh.1.2), refresh.2)
      else
        let str := refresh.2.call Call.TokenString (ar.tokenService.TokenString refresh.1.1)
        ((access.1.1, str.1.1, str.1.2), str.2)

/-- Modelled from the spec: the helper `contains` is declared outside the embedded files;
the spec says the negotiated scopes "include" the offline-access scope. -/
def contains (s : List String) (e : String) : Bool := decide (e ∈ s)

/-- Modelled from the spec: the constant `jwtService.OfflineScope` is declared outside the
embedded files; it is the name of the offline-access scope. -/
def OfflineScope : String := "offline"

/-- The method `Router.loginFlow`. -/
def loginFlow {σ π τ : Type} (ar : Router σ π τ) (app : AppData) (user : User)
    (scopes : List String) (w : World σ π) : (AuthResponse × Option Error) × World σ π :=
  let rs := w.call (Call.RequestScopes user.ID scopes) (ar.userStorage.RequestScopes user.ID scopes)
  if rs.1.2 ≠ none then
    ((AuthResponse.zero, rs.1.2), rs.2)
  else
    let scopes := rs.1.1
    let chk := check2FA app.TFAStatus ar.tfaType user
    let require2FA := chk.1
    let enabled2FA := chk.2.1
    if require2FA = false ∧ enabled2FA = true ∧ chk.2.2 ≠ none then
      ((AuthResponse.zero, chk.2.2), rs.2)
    else
      let offline := contains scopes OfflineScope
      let tp := getTokenPayloadForApp ar app user rs.2
      if tp.1.2 ≠ none then
        ((AuthResponse.zero, tp.1.2), tp.2)
      else
        let lu := loginUser ar user scopes app offline require2FA tp.1.1 tp.2
        if lu.1.2.2 ≠ none then
          ((AuthResponse.zero, lu.1.2.2), lu.2)
        else
          let result : AuthResponse :=
            { AccessToken := lu.1.1
              RefreshToken := lu.1.2.1
              User := User.zero
              Require2FA := require2FA
              Enabled2FA := enabled2FA }
          if require2FA = true ∧ enabled2FA = true then
            let so := sendOTPCode ar user lu.2
            if so.1 ≠ none then
              ((AuthResponse.zero, so.1), so.2)
            else
              (({ result with User := user.Sanitized }, none), so.2)
          else
            (({ result with User := user.Sanitized }, none),
              lu.2.run (Call.UpdateLoginMetadata user.ID)
                (ar.userStorage.UpdateLoginMetadata user.ID))

/-- The scope set `userStorage.RequestScopes` answers with when `loginFlow` starts in `w`:
the negotiated scopes. -/
def negotiated {σ π τ : Type} (ar : Router σ π τ) (user : User) (scopes : List String)
    (w : World σ π) : List String :=
  (ar.userStorage.RequestScopes user.ID scopes w.st).1.1

/-! ## The login handler -/

/-- The method `loginData.validate`; `len` of a Go string is its length in bytes. -/
def loginData.validate (ld : loginData) : Option Error :=
  let usernameLen := ld.Username.utf8ByteSize
  if usernameLen < 6 ∨ usernameLen > 130 then
    some (Error.incorrectUsernameLength usernameLen)
  else
    let pswdLen := ld.Password.utf8ByteSize
    if pswdLen < 6 ∨ pswdLen > 130 then
      some (Error.incorrectPasswordLength pswdLen)
    else
      none

/-- What the handler reads from the HTTP request: `body` is what `MustParseJSON` decodes
(`none` when decoding fails), `app` is `middleware.AppFromContext(r.Context())`. -/
structure Request where
  body : Option loginData
  app : AppData
  RequestURI : String
  Method : String
deriving DecidableEq, Repr

/-- The API error codes used by `LoginWithPassword`. -/
inductive APIErrorCode where
  | ErrorAPIAppLoginWithUsernameNotSupported
  | ErrorAPIRequestBodyParamsInvalid
  | ErrorAPIRequestIncorrectEmailOrPassword
  | ErrorAPIRequestAppIDInvalid
  | ErrorAPIAppAccessDenied
  | ErrorAPIInternalServerError
deriving DecidableEq, Repr

/-- The message of an error response: a fixed text, or `err.Error()` of an error. -/
inductive Message where
  | text (s : String)
  | ofError (err : Error)
deriving DecidableEq, Repr

/-- What the handler writes: an error (`ar.Error`), a JSON body (`ar.ServeJSON`), or the
response `MustParseJSON` has written itself when decoding fails. -/
inductive Response where
  | Error (code : APIErrorCode) (status : Nat) (message : Message) (location : String)
  | ServeJSON (status : Nat) (body : AuthResponse)
  | parseFailure
deriving DecidableEq, Repr

/-- The status `http.StatusOK`. -/
def StatusOK : Nat := 200
/-- The status `http.StatusBadRequest`. -/
def StatusBadRequest : Nat := 400
/-- The status `http.StatusUnauthorized`. -/
def StatusUnauthorized : Nat := 401
/-- The status `http.StatusForbidden`. -/
def StatusForbidden : Nat := 403
/-- The status `http.StatusInternalServerError`. -/
def StatusInternalServerError : Nat := 500

/-- The handler returned by `Router.LoginWithPassword`: it logs a user in with username and
password. -/
def LoginWithPassword {σ π τ : Type} (ar : Router σ π τ) (r : Request) (w : World σ π) :
    Response × World σ π :=
  if ar.SupportedLoginWays.Username = false then
    (Response.Error APIErrorCode.ErrorAPIAppLoginWithUsernameNotSupported StatusBadRequest
      (Message.text "Application does not support login with username")
      "LoginWithPassword.supportedLoginWays", w)
  else
    match r.body with
    | none => (Response.parseFailure, w)
    | some ld =>
      match ld.validate with
      | some err =>
        (Response.Error APIErrorCode.ErrorAPIRequestBodyParamsInvalid StatusBadRequest
          (Message.ofError err) "LoginWithPassword.validate", w)
      | none =>
        let found := w.call (Call.UserByNamePassword ld.Username ld.Password)
          (ar.userStorage.UserByNamePassword ld.Username ld.Password)
        match found.1.2 with
        | some err =>
          (Response.Error APIErrorCode.ErrorAPIRequestIncorrectEmailOrPassword StatusUnauthorized
            (Message.ofError err) "LoginWithPassword.UserByNamePassword", found.2)
        | none =>
          let user := found.1.1
          let app := r.app
          if app.ID.utf8ByteSize = 0 then
            (Response.Error APIErrorCode.ErrorAPIRequestAppIDInvalid StatusBadRequest
              (Message.text "App is not in context.") "LoginWithPassword.AppFromContext", found.2)
          else
            let azi : AuthzInfo :=
              { App := app, UserRole := user.AccessRole, ResourceURI := r.RequestURI, Method := r.Method }
            let authz := found.2.call (Call.Authorize azi) (ar.Authorizer.Authorize azi)
            match authz.1 with
            | some err =>
              (Response.Error APIErrorCode.ErrorAPIAppAccessDenied StatusForbidden
                (Message.ofError err) "LoginWithPassword.Authorizer", authz.2)
            | none =>
              let flow := loginFlow ar app user ld.Scopes authz.2
              match flow.1.2 with
              | some err =>
                (Response.Error APIErrorCode.ErrorAPIInternalServerError StatusInternalServerError
                  (Message.ofError err) "LoginWithPassword.LoginFlowError", flow.2)
              | none => (Response.ServeJSON StatusOK flow.1.1, flow.2)

/-! ## Collaborators that succeed -/

/-- The collaborators of token issuance never fail: scope negotiation, the payload provider
and the token service answer with a nil error, and a serialised token is a non-empty string. -/
def Router.issuanceSucceeds {σ π τ : Type} (ar : Router σ π τ) : Prop :=
  (∀ id sc s, (ar.userStorage.RequestScopes id sc s).1.2 = none)
  ∧ (∀ a b s, (ar.thp.NewTokenPayloadProvider a b s).1.2 = none)
  ∧ (∀ ps a b c s, (ar.thp.TokenPayloadForApp ps a b c s).1.2 = none)
  ∧ (∀ u sc a r p s, (ar.tokenService.NewAccessToken u sc a r p s).1.2 = none)
  ∧ (∀ u sc a s, (ar.tokenService.NewRefreshToken u sc a s).1.2 = none)
  ∧ (∀ t s, (ar.tokenService.TokenString t s).1.2 = none
      ∧ (ar.tokenService.TokenString t s).1.1 ≠ "")

/-- The call is `tokenService.NewAccessToken`. -/
def Call.isNewAccessToken : Call → Bool
  | Call.NewAccessToken _ _ _ _ _ => true
  | _ => false

/-- The call is `tokenService.NewRefreshToken`. -/
def Call.isNewRefreshToken : Call → Bool
  | Call.NewRefreshToken _ _ _ => true
  | _ => false

/-- The call is `userStorage.UpdateLoginMetadata`. -/
def Call.isUpdateLoginMetadata : Call → Bool
  | Call.UpdateLoginMetadata _ => true
  | _ => false

/-- The call is `userStorage.UpdateUser`. -/
def Call.isUpdateUser : Call → Bool
  | Call.UpdateUser _ _ => true
  | _ => false

/-- The call is one to a notification collaborator: `SendSMS` or `SendTFAEmail`. -/
def Call.isSend : Call → Bool
  | Call.SendSMS _ _ => true
  | Call.SendTFAEmail _ _ _ => true
  | _ => false

/-- The call is one to the user storage. -/
def Call.isUserStorage : Call → Bool
  | Call.UserByNamePassword _ _ => true
  | Call.RequestScopes _ _ => true
  | Call.UpdateUser _ _ => true
  | Call.UpdateLoginMetadata _ => true
  | _ => false

/-- The call is one to the payload provider package. -/
def Call.isPayloadProvider : Call → Bool
  | Call.NewTokenPayloadProvider _ _ => true
  | Call.TokenPayloadForApp _ _ _ => true
  | _ => false

/-! ## A concrete router -/

/-- A router over the trivial collaborator state: scopes are granted as requested, the two
tokens serialise to `"access"` and `"refresh"`, the code at a counter `n` is `n` strokes
(none for a negative `n`), and the storage update and the two senders answer with the given
errors. -/
def stubRouter (tfaType : TFAType) (updateErr sendErr : Option Error) : Router Unit Unit Bool where
  SupportedLoginWays := ⟨true⟩
  tfaType := tfaType
  userStorage :=
    { UserByNamePassword := fun name _ st => ((⟨name, "", "", "", "", TFAInfo.zero⟩, none), st)
      RequestScopes := fun _ scopes st => ((scopes, none), st)
      UpdateUser := fun _ user st => ((user, updateErr), st)
      UpdateLoginMetadata := fun _ st => st }
  tokenService :=
    { NewAccessToken := fun _ _ _ _ _ st => ((true, none), st)
      NewRefreshToken := fun _ _ _ st => ((false, none), st)
      TokenString := fun token st => ((if token = true then "access" else "refresh", none), st) }
  smsService := { SendSMS := fun _ _ st => (sendErr, st) }
  emailService := { SendTFAEmail := fun _ _ _ st => (sendErr, st) }
  Authorizer := { Authorize := fun _ st => (none, st) }
  thp :=
    { NewTokenPayloadProvider := fun _ _ st => (((), none), st)
      TokenPayloadForApp := fun _ _ _ _ st => ((none, none), st) }
  hotpAt := fun _ count => String.mk (List.replicate count.toNat '|')
  now := fun _ => 1000

/-- An application with the given TFA status and no token payload service. -/
def stubApp (status : TFAStatus) : AppData := ⟨"app1", "App", status, false, ⟨"", ""⟩⟩

/-- The user `alice0001` with TFA off. -/
def alice : User := ⟨"alice0001", "alice@example.com", "+15550001", "hash", "user", ⟨false, 0, 0, ""⟩⟩

/-- The user `alice0001` with TFA on and a secret set. -/
def aliceTFA : User :=
  ⟨"alice0001", "alice@example.com", "+15550001", "hash", "user", ⟨true, 4, 0, "s3cr3t"⟩⟩

/-! ## The stored user records -/

/-- Modelled from the spec: the user storage behind `userStorage.UpdateUser` is outside the
embedded files.  `UserByID s id` reads the record stored under `id` in the collaborator
state `s`.  The contract: a user record is mutated only through storage update calls, so
an update that succeeds stores the record it was given, an update that fails stores nothing,
and the senders leave the records alone. -/
structure UserRecords {σ π τ : Type} (ar : Router σ π τ) (UserByID : σ → String → Option User) :
    Prop where
  update_ok : ∀ id u s, (ar.userStorage.UpdateUser id u s).1.2 = none →
    UserByID (ar.userStorage.UpdateUser id u s).2 id = some u
  update_failed : ∀ id u s, (ar.userStorage.UpdateUser id u s).1.2 ≠ none →
    UserByID (ar.userStorage.UpdateUser id u s).2 = UserByID s
  sms : ∀ p m s, UserByID (ar.smsService.SendSMS p m s).2 = UserByID s
  email : ∀ a b c s, UserByID (ar.emailService.SendTFAEmail a b c s).2 = UserByID s

/-- A router over an in-memory list of user records, newest first: `UpdateUser` puts the
record in front, everything else is as in `stubRouter`. -/
def memRouter (tfaType : TFAType) : Router (List (String × User)) Unit Bool where
  SupportedLoginWays := ⟨true⟩
  tfaType := tfaType
  userStorage :=
    { UserByNamePassword := fun name _ st => ((⟨name, "", "", "", "", TFAInfo.zero⟩, none), st)
      RequestScopes := fun _ scopes st => ((scopes, none), st)
      UpdateUser := fun id user st => ((user, none), (id, user) :: st)
      UpdateLoginMetadata := fun _ st => st }
  tokenService :=
    { NewAccessToken := fun _ _ _ _ _ st => ((true, none), st)
      NewRefreshToken := fun _ _ _ st => ((false, none), st)
      TokenString := fun token st => ((if token = true then "access" else "refresh", none), st) }
  smsService := { SendSMS := fun _ _ st => (none, st) }
  emailService := { SendTFAEmail := fun _ _ _ st => (none, st) }
  Authorizer := { Authorize := fun _ st => (none, st) }
  thp :=
    { NewTokenPayloadProvider := fun _ _ st => (((), none), st)
      TokenPayloadForApp := fun _ _ _ _ st => ((none, none), st) }
  hotpAt := fun _ count => String.mk (List.replicate count.toNat '|')
  now := fun _ => 1000

/-- Reading a record of the in-memory list. -/
def memUserByID (st : List (String × User)) (id : String) : Option User := st.lookup id

/-! ## The uniform storage composers -/

/-- What `Compose` returns: six storage handles (`none` is a `nil` interface value) and an
error. -/
structure Composed (A U T B V I : Type) where
  appStorage : Option A
  userStorage : Option U
  tokenStorage : Option T
  tokenBlacklist : Option B
  verificationCodeStorage : Option V
  inviteStorage : Option I
  err : Option Error

/-- The result `nil, nil, nil, nil, nil, nil, err`. -/
def Composed.failed {A U T B V I : Type} (err : Option Error) : Composed A U T B V I :=
  ⟨none, none, none, none, none, none, err⟩

namespace fake

/-- DatabaseComposer composes in-memory services: the six constructors, each returning a
handle and an error. -/
structure DatabaseComposer (A U T B V I : Type) where
  newAppStorage : Unit → Option A × Option Error
  newUserStorage : Unit → Option U × Option Error
  newTokenStorage : Unit → Option T × Option Error
  newTokenBlacklist : Unit → Option B × Option Error
  newVerificationCodeStorage : Unit → Option V × Option Error
  newInviteStorage : Unit → Option I × Option Error

/-- Compose composes all services with in-memory storage support. -/
def DatabaseComposer.Compose {A U T B V I : Type} (dc : DatabaseComposer A U T B V I) :
    Composed A U T B V I :=
  let appStorage := dc.newAppStorage ()
  if appStorage.2 ≠ none then Composed.failed appStorage.2 else
  let userStorage := dc.newUserStorage ()
  if userStorage.2 ≠ none then Composed.failed userStorage.2 else
  let tokenStorage := dc.newTokenStorage ()
  if tokenStorage.2 ≠ none then Composed.failed tokenStorage.2 else
  let tokenBlacklist := dc.newTokenBlacklist ()
  if tokenBlacklist.2 ≠ none then Composed.failed tokenBlacklist.2 else
  let verificationCodeStorage := dc.newVerificationCodeStorage ()
  if verificationCodeStorage.2 ≠ none then Composed.failed verificationCodeStorage.2 else
  let inviteStorage := dc.newInviteStorage ()
  if inviteStorage.2 ≠ none then Composed.failed inviteStorage.2 else
  ⟨appStorage.1, userStorage.1, tokenStorage.1, tokenBlacklist.1, verificationCodeStorage.1,
    inviteStorage.1, none⟩

end fake

namespace boltdb

/-- DatabaseComposer composes BoltDB services: the path `settings.Storage.AppStorage.Path`
and the six constructors, each taking the database (`none` is a `nil` pointer) and
returning a handle and an error. -/
structure DatabaseComposer (DB A U T B V I : Type) where
  path : String
  newAppStorage : Option DB → Option A × Option Error
  newUserStorage : Option DB → Option U × Option Error
  newTokenStorage : Option DB → Option T × Option Error
  newTokenBlacklist : Option DB → Option B × Option Error
  newVerificationCodeStorage : Option DB → Option V × Option Error
  newInviteStorage : Option DB → Option I × Option Error

/-- Compose composes all services with BoltDB support; `InitDB` is `boltdb.InitDB`. -/
def DatabaseComposer.Compose {DB A U T B V I : Type}
    (InitDB : String → Option DB × Option Error) (dc : DatabaseComposer DB A U T B V I) :
    Composed A U T B V I :=
  let db := InitDB dc.path
  if db.2 ≠ none then Composed.failed db.2 else
  let appStorage := dc.newAppStorage db.1
  if appStorage.2 ≠ none then Composed.failed appStorage.2 else
  let userStorage := dc.newUserStorage db.1
  if userStorage.2 ≠ none then Composed.failed userStorage.2 else
  let tokenStorage := dc.newTokenStorage db.1
  if tokenStorage.2 ≠ none then Composed.failed tokenStorage.2 else
  let tokenBlacklist := dc.newTokenBlacklist db.1
  if tokenBlacklist.2 ≠ none then Composed.failed tokenBlacklist.2 else
  let verificationCodeStorage := dc.newVerificationCodeStorage db.1
  if verificationCodeStorage.2 ≠ none then Composed.failed verificationCodeStorage.2 else
  let inviteStorage := dc.newInviteStorage db.1
  if inviteStorage.2 ≠ none then Composed.failed inviteStorage.2 else
  ⟨appStorage.1, userStorage.1, tokenStorage.1, tokenBlacklist.1, verificationCodeStorage.1,
    inviteStorage.1, none⟩

end boltdb

/-- The errors of the six constructors of an in-memory composer, in the order `Compose`
calls them. -/
def fakeErrors {A U T B V I : Type} (dc : fake.DatabaseComposer A U T B V I) :
    List (Option Error) :=
  [(dc.newAppStorage ()).2, (dc.newUserStorage ()).2, (dc.newTokenStorage ()).2,
    (dc.newTokenBlacklist ()).2, (dc.newVerificationCodeStorage ()).2,
    (dc.newInviteStorage ()).2]

/-- The error of the database initialisation and those of the six constructors of a BoltDB
composer, in the order `Compose` meets them. -/
def boltErrors {DB A U T B V I : Type} (InitDB : String → Option DB × Option Error)
    (dc : boltdb.DatabaseComposer DB A U T B V I) : List (Option Error) :=
  [(InitDB dc.path).2, (dc.newAppStorage (InitDB dc.path).1).2,
    (dc.newUserStorage (InitDB dc.path).1).2, (dc.newTokenStorage (InitDB dc.path).1).2,
    (dc.newTokenBlacklist (InitDB dc.path).1).2,
    (dc.newVerificationCodeStorage (InitDB dc.path).1).2,
    (dc.newInviteStorage (InitDB dc.path).1).2]

/-- The first error of a list of errors, `none` when all are `nil`. -/
def firstError : List (Option Error) → Option Error
  | [] => none
  | some e :: _ => some e
  | none :: rest => firstError rest

/-- An in-memory composer whose constructors all succeed, except the token blacklist's when
`blacklistErr` is an error. -/
def stubFake (blacklistErr : Option Error) : fake.DatabaseComposer Nat Nat Nat Nat Nat Nat where
  newAppStorage := fun _ => (some 1, none)
  newUserStorage := fun _ => (some 2, none)
  newTokenStorage := fun _ => (some 3, none)
  newTokenBlacklist := fun _ => (some 4, blacklistErr)
  newVerificationCodeStorage := fun _ => (some 5, none)
  newInviteStorage := fun _ => (some 6, none)

/-- A BoltDB composer whose constructors all succeed, except the token blacklist's when
`blacklistErr` is an error. -/
def stubBolt (blacklistErr : Option Error) :
    boltdb.DatabaseComposer Unit Nat Nat Nat Nat Nat Nat where
  path := "db.bolt"
  newAppStorage := fun _ => (some 1, none)
  newUserStorage := fun _ => (some 2, none)
  newTokenStorage := fun _ => (some 3, none)
  newTokenBlacklist := fun _ => (some 4, blacklistErr)
  newVerificationCodeStorage := fun _ => (some 5, none)
  newInviteStorage := fun _ => (some 6, none)

/-- A database initialisation that succeeds, or fails with `initErr`. -/
def stubInitDB (initErr : Option Error) (_ : String) : Option Unit × Option Error :=
  (if initErr = none then some () else none, initErr)

/-- A router as `stubRouter`, with SMS delivery, whose payload provider cannot be built. -/
def payloadFailRouter : Router Unit Unit Bool :=
  { stubRouter TFAType.SMS none none with
    thp :=
      { NewTokenPayloadProvider := fun _ _ st => (((), some (Error.external "no provider")), st)
        TokenPayloadForApp := fun _ _ _ _ st => ((none, none), st) } }

/-- An Optional application that uses the HTTP token payload service. -/
def httpApp : AppData := ⟨"app2", "App two", TFAStatus.Optional, true, ⟨"s3cr3t", "http://payload"⟩⟩

/-! ## The partial storage composers -/

/-- Modelled from the spec: `model.DatabaseType` is declared outside the embedded files; the
composers compare it with `DBTypeBoltDB` and `DBTypeFake`, and `DBTypeOther` stands for
every other backend type of the closed set. -/
inductive DatabaseType where
  | DBTypeBoltDB
  | DBTypeFake
  | DBTypeOther
deriving DecidableEq, Repr

/-- Modelled from the spec: `model.DatabaseSettings` is declared outside the embedded files;
the composers read the backend type (the Go field `Type`) and the file path. -/
structure DatabaseSettings where
  DBType : DatabaseType
  Path : String
deriving DecidableEq, Repr

/-- Modelled from the spec: `model.StorageSettings` is declared outside the embedded files; it
holds the settings of the six storage kinds. -/
structure StorageSettings where
  AppStorage : DatabaseSettings
  UserStorage : DatabaseSettings
  TokenStorage : DatabaseSettings
  TokenBlacklist : DatabaseSettings
  VerificationCodeStorage : DatabaseSettings
  InviteStorage : DatabaseSettings
deriving DecidableEq, Repr

/-- The loop `for _, option := range options` of both `NewPartialComposer` functions: an
option changes the composer it is given and returns an error; the first error ends the
loop with `nil, err`, and after the last option the composer is returned.  Next to that
result stands the record of the options the loop has invoked, each by its position in the
argument list, oldest first; `index` is the position of the option the loop is at. -/
def applyOptions {PC : Type} (pc : PC) (index : Nat) :
    List (PC → PC × Option Error) → (Option PC × Option Error) × List Nat
  | [] => ((some pc, none), [])
  | option :: rest =>
    if (option pc).2 ≠ none then
      ((none, (option pc).2), [index])
    else
      ((applyOptions (option pc).1 (index + 1) rest).1,
        index :: (applyOptions (option pc).1 (index + 1) rest).2)

/-- The options `opts`, applied in order from the composer `pc`, all return a nil error and
leave the composer `result`. -/
def optionsSucceed {PC : Type} : PC → List (PC → PC × Option Error) → PC → Prop
  | pc, [], result => result = pc
  | pc, option :: rest, result => (option pc).2 = none ∧ optionsSucceed (option pc).1 rest result

namespace fake

/-- PartialDatabaseComposer composes only those services that support in-memory storage; a
constructor that is not set is `none`. -/
structure PartialDatabaseComposer (A U T B V I : Type) where
  newAppStorage : Option (Unit → Option A × Option Error)
  newUserStorage : Option (Unit → Option U × Option Error)
  newTokenStorage : Option (Unit → Option T × Option Error)
  newTokenBlacklist : Option (Unit → Option B × Option Error)
  newVerificationCodeStorage : Option (Unit → Option V × Option Error)
  newInviteStorage : Option (Unit → Option I × Option Error)

/-- A run of `NewPartialComposer` for the in-memory storage: what it returns, and the record
of the options it has invoked; `mem` holds the six constructors of the in-memory storage
package. -/
def NewPartialComposerRun {A U T B V I : Type} (mem : DatabaseComposer A U T B V I)
    (settings : StorageSettings)
    (options : List (PartialDatabaseComposer A U T B V I →
      PartialDatabaseComposer A U T B V I × Option Error)) :
    (Option (PartialDatabaseComposer A U T B V I) × Option Error) × List Nat :=
  let pc : PartialDatabaseComposer A U T B V I := ⟨none, none, none, none, none, none⟩
  let pc := if settings.AppStorage.DBType = DatabaseType.DBTypeFake then
    { pc with newAppStorage := some mem.newAppStorage } else pc
  let pc := if settings.UserStorage.DBType = DatabaseType.DBTypeFake then
    { pc with newUserStorage := some mem.newUserStorage } else pc
  let pc := if settings.TokenStorage.DBType = DatabaseType.DBTypeFake then
    { pc with newTokenStorage := some mem.newTokenStorage } else pc
  let pc := if settings.TokenBlacklist.DBType = DatabaseType.DBTypeFake then
    { pc with newTokenBlacklist := some mem.newTokenBlacklist } else pc
  let pc := if settings.VerificationCodeStorage.DBType = DatabaseType.DBTypeFake then
    { pc with newVerificationCodeStorage := some mem.newVerificationCodeStorage } else pc
  let pc := if settings.InviteStorage.DBType = DatabaseType.DBTypeFake then
    { pc with newInviteStorage := some mem.newInviteStorage } else pc
  applyOptions pc 0 options

/-- NewPartialComposer returns new partial composer with in-memory storage support: the
composer and the error its run ends with. -/
def NewPartialComposer {A U T B V I : Type} (mem : DatabaseComposer A U T B V I)
    (settings : StorageSettings)
    (options : List (PartialDatabaseComposer A U T B V I →
      PartialDatabaseComposer A U T B V I × Option Error)) :
    Option (PartialDatabaseComposer A U T B V I) × Option Error :=
  (NewPartialComposerRun mem settings options).1

/-- AppStorageComposer returns app storage composer. -/
def PartialDatabaseComposer.AppStorageComposer {A U T B V I : Type}
    (pc : PartialDatabaseComposer A U T B V I) : Option (Unit → Option A × Option Error) :=
  match pc.newAppStorage with
  | some newAppStorage => some (fun _ => newAppStorage ())
  | none => none

/-- UserStorageComposer returns user storage composer. -/
def PartialDatabaseComposer.UserStorageComposer {A U T B V I : Type}
    (pc : PartialDatabaseComposer A U T B V I) : Option (Unit → Option U × Option Error) :=
  match pc.newUserStorage with
  | some newUserStorage => some (fun _ => newUserStorage ())
  | none => none

/-- TokenStorageComposer returns token storage composer. -/
def PartialDatabaseComposer.TokenStorageComposer {A U T B V I : Type}
    (pc : PartialDatabaseComposer A U T B V I) : Option (Unit → Option T × Option Error) :=
  match pc.newTokenStorage with
  | some newTokenStorage => some (fun _ => newTokenStorage ())
  | none => none

/-- TokenBlacklistComposer returns token blacklist composer. -/
def PartialDatabaseComposer.TokenBlacklistComposer {A U T B V I : Type}
    (pc : PartialDatabaseComposer A U T B V I) : Option (Unit → Option B × Option Error) :=
  match pc.newTokenBlacklist with
  | some newTokenBlacklist => some (fun _ => newTokenBlacklist ())
  | none => none

/-- VerificationCodeStorageComposer returns verification code storage composer. -/
def PartialDatabaseComposer.VerificationCodeStorageComposer {A U T B V I : Type}
    (pc : PartialDatabaseComposer A U T B V I) : Option (Unit → Option V × Option Error) :=
  match pc.newVerificationCodeStorage with
  | some newVerificationCodeStorage => some (fun _ => newVerificationCodeStorage ())
  | none => none

/-- InviteStorageComposer returns invite storage composer. -/
def PartialDatabaseComposer.InviteStorageComposer {A U T B V I : Type}
    (pc : PartialDatabaseComposer A U T B V I) : Option (Unit → Option I × Option Error) :=
  match pc.newInviteStorage with
  | some newInviteStorage => some (fun _ => newInviteStorage ())
  | none => none

end fake

namespace boltdb

/-- PartialDatabaseComposer composes only BoltDB-supporting services; a constructor that is
not set is `none`. -/
structure PartialDatabaseComposer (DB A U T B V I : Type) where
  db : Option DB
  newAppStorage : Option (Option DB → Option A × Option Error)
  newUserStorage : Option (Option DB → Option U × Option Error)
  newTokenStorage : Option (Option DB → Option T × Option Error)
  newTokenBlacklist : Option (Option DB → Option B × Option Error)
  newVerificationCodeStorage : Option (Option DB → Option V × Option Error)
  newInviteStorage : Option (Option DB → Option I × Option Error)

/-- The composer and the database path after the six tests of `NewPartialComposer` on the
backend types: each BoltDB kind sets its constructor and overwrites `dbPath`. -/
def baseComposer {DB A U T B V I : Type} (bolt : DatabaseComposer DB A U T B V I)
    (settings : StorageSettings) : PartialDatabaseComposer DB A U T B V I × String :=
  let pc : PartialDatabaseComposer DB A U T B V I := ⟨none, none, none, none, none, none, none⟩
  let dbPath := ""
  let s := if settings.AppStorage.DBType = DatabaseType.DBTypeBoltDB then
    ({ pc with newAppStorage := some bolt.newAppStorage }, settings.AppStorage.Path)
    else (pc, dbPath)
  let s := if settings.UserStorage.DBType = DatabaseType.DBTypeBoltDB then
    ({ s.1 with newUserStorage := some bolt.newUserStorage }, settings.UserStorage.Path)
    else s
  let s := if settings.TokenStorage.DBType = DatabaseType.DBTypeBoltDB then
    ({ s.1 with newTokenStorage := some bolt.newTokenStorage }, settings.TokenStorage.Path)
    else s
  let s := if settings.TokenBlacklist.DBType = DatabaseType.DBTypeBoltDB then
    ({ s.1 with newTokenBlacklist := some bolt.newTokenBlacklist }, settings.TokenBlacklist.Path)
    else s
  let s := if settings.VerificationCodeStorage.DBType = DatabaseType.DBTypeBoltDB then
    ({ s.1 with newVerificationCodeStorage := some bolt.newVerificationCodeStorage },
      settings.VerificationCodeStorage.Path)
    else s
  if settings.InviteStorage.DBType = DatabaseType.DBTypeBoltDB then
    ({ s.1 with newInviteStorage := some bolt.newInviteStorage }, settings.InviteStorage.Path)
    else s

/-- A run of `NewPartialComposer` for BoltDB: what it returns, and the record of the options
it has invoked; `bolt` holds the six constructors of the BoltDB storage package and `InitDB`
is `boltdb.InitDB`. -/
def NewPartialComposerRun {DB A U T B V I : Type} (InitDB : String → Option DB × Option Error)
    (bolt : DatabaseComposer DB A U T B V I) (settings : StorageSettings)
    (options : List (PartialDatabaseComposer DB A U T B V I →
      PartialDatabaseComposer DB A U T B V I × Option Error)) :
    (Option (PartialDatabaseComposer DB A U T B V I) × Option Error) × List Nat :=
  let s := baseComposer bolt settings
  let db := InitDB s.2
  if db.2 ≠ none then
    ((none, db.2), [])
  else
    applyOptions { s.1 with db := db.1 } 0 options

/-- NewPartialComposer returns new partial composer with BoltDB support: the composer and the
error its run ends with. -/
def NewPartialComposer {DB A U T B V I : Type} (InitDB : String → Option DB × Option Error)
    (bolt : DatabaseComposer DB A U T B V I) (settings : StorageSettings)
    (options : List (PartialDatabaseComposer DB A U T B V I →
      PartialDatabaseComposer DB A U T B V I × Option Error)) :
    Option (PartialDatabaseComposer DB A U T B V I) × Option Error :=
  (NewPartialComposerRun InitDB bolt settings options).1

/-- AppStorageComposer returns app storage composer. -/
def PartialDatabaseComposer.AppStorageComposer {DB A U T B V I : Type}
    (pc : PartialDatabaseComposer DB A U T B V I) : Option (Unit → Option A × Option Error) :=
  match pc.newAppStorage with
  | some newAppStorage => some (fun _ => newAppStorage pc.db)
  | none => none

/-- UserStorageComposer returns user storage composer. -/
def PartialDatabaseComposer.UserStorageComposer {DB A U T B V I : Type}
    (pc : PartialDatabaseComposer DB A U T B V I) : Option (Unit → Option U × Option Error) :=
  match pc.newUserStorage with
  | some newUserStorage => some (fun _ => newUserStorage pc.db)
  | none => none

/-- TokenStorageComposer returns token storage composer. -/
def PartialDatabaseComposer.TokenStorageComposer {DB A U T B V I : Type}
    (pc : PartialDatabaseComposer DB A U T B V I) : Option (Unit → Option T × Option Error) :=
  match pc.newTokenStorage with
  | some newTokenStorage => some (fun _ => newTokenStorage pc.db)
  | none => none

/-- TokenBlacklistComposer returns token blacklist composer. -/
def PartialDatabaseComposer.TokenBlacklistComposer {DB A U T B V I : Type}
    (pc : PartialDatabaseComposer DB A U T B V I) : Option (Unit → Option B × Option Error) :=
  match pc.newTokenBlacklist with
  | some newTokenBlacklist => some (fun _ => newTokenBlacklist pc.db)
  | none => none

/-- VerificationCodeStorageComposer returns verification code storage composer. -/
def PartialDatabaseComposer.VerificationCodeStorageComposer {DB A U T B V I : Type}
    (pc : PartialDatabaseComposer DB A U T B V I) : Option (Unit → Option V × Option Error) :=
  match pc.newVerificationCodeStorage with
  | some newVerificationCodeStorage => some (fun _ => newVerificationCodeStorage pc.db)
  | none => none

/-- InviteStorageComposer returns invite storage composer. -/
def PartialDatabaseComposer.InviteStorageComposer {DB A U T B V I : Type}
    (pc : PartialDatabaseComposer DB A U T B V I) : Option (Unit → Option I × Option Error) :=
  match pc.newInviteStorage with
  | some newInviteStorage => some (fun _ => newInviteStorage pc.db)
  | none => none

end boltdb

/-- Storage settings with the users and the invites on BoltDB, the token blacklist in
memory and every other kind on another backend. -/
def mixedSettings : StorageSettings :=
  ⟨⟨DatabaseType.DBTypeOther, ""⟩, ⟨DatabaseType.DBTypeBoltDB, "users.db"⟩,
    ⟨DatabaseType.DBTypeOther, ""⟩, ⟨DatabaseType.DBTypeFake, ""⟩,
    ⟨DatabaseType.DBTypeOther, ""⟩, ⟨DatabaseType.DBTypeBoltDB, "db.bolt"⟩⟩

/-- An option that takes the invite storage off an in-memory partial composer, and
succeeds. -/
def withoutInvites (pc : fake.PartialDatabaseComposer Nat Nat Nat Nat Nat Nat) :
    fake.PartialDatabaseComposer Nat Nat Nat Nat Nat Nat × Option Error :=
  ({ pc with newInviteStorage := none }, none)

/-- An option that fails. -/
def failingOption (pc : fake.PartialDatabaseComposer Nat Nat Nat Nat Nat Nat) :
    fake.PartialDatabaseComposer Nat Nat Nat Nat Nat Nat × Option Error :=
  (pc, some (Error.external "bad option"))

/-! ## The MongoDB user storage -/

namespace mongo

/-- The data implementation of a stored user; `ID` is the `bson.ObjectId`, held as its
hexadecimal form `ID.Hex()`, and `Profile` is the profile map (`none` is the `nil` map). -/
structure userData where
  ID : String
  Name : String
  Pswd : String
  Profile : Option (List (String × String))
  Active : Bool
  FederatedIDs : List String
deriving DecidableEq, Repr

/-- The zero value of `userData`. -/
def userData.zero : userData := ⟨"", "", "", none, false, []⟩

/-- What the user storage calls outside the repository: `regexMatch pattern value` tells
whether MongoDB's `$regex` with `Options: "i"` matches a field value, `CompareHashAndPassword
hash password` tells whether `bcrypt.CompareHashAndPassword` returns nil, and
`GenerateFromPassword` is the hash `PasswordHash` stores. -/
structure Externals where
  regexMatch : String → String → Bool
  CompareHashAndPassword : String → String → Bool
  GenerateFromPassword : String → String

/-- The function `createStrictRegex`. -/
def createStrictRegex (str : String) : String := "^" ++ str ++ "$"

/-- A hexadecimal digit, as `hex.DecodeString` accepts it. -/
def isHexDigit (c : Char) : Bool :=
  ('0' ≤ c ∧ c ≤ '9') ∨ ('a' ≤ c ∧ c ≤ 'f') ∨ ('A' ≤ c ∧ c ≤ 'F')

/-- The function `bson.IsObjectIdHex`: 24 characters, all hexadecimal digits. -/
def IsObjectIdHex (s : String) : Bool := s.data.length = 24 ∧ s.data.all isHexDigit

/-- The method `UserStorage.UserByID`: it returns user by its ID.  `One` fails with the
driver's not-found error when no document has the ID. -/
def UserStorage.UserByID (users : List userData) (id : String) : Option userData × Option Error :=
  if IsObjectIdHex id = false then
    (none, some Error.ErrorWrongDataFormat)
  else
    match users.find? (fun u => u.ID.data = id.data.map Char.toLower) with
    | none => (none, some (Error.external "not found"))
    | some u => (some u, none)

/-- The method `UserStorage.CheckIfUserExistByName`: it checks if a user exists with the
presented name. -/
def UserStorage.CheckIfUserExistByName (ext : Externals) (users : List userData)
    (name : String) : Bool :=
  (users.find? (fun u => ext.regexMatch (createStrictRegex name) u.Name)).isSome

/-- The method `UserStorage.UserByNamePassword`: it returns user by name and password. -/
def UserStorage.UserByNamePassword (ext : Externals) (users : List userData)
    (name password : String) : Option userData × Option Error :=
  match users.find? (fun u => ext.regexMatch name u.Name) with
  | none => (none, some Error.ErrorNotFound)
  | some u =>
    if ext.CompareHashAndPassword u.Pswd password = false then
      (none, some Error.ErrorNotFound)
    else
      (some { u with Pswd := "" }, none)

/-- The method `UserStorage.AddNewUser`: it adds a new user.  `newObjectId` is what
`bson.NewObjectId()` returns and `insertErr` is the error of the driver's `Insert`; the
type assertion of the source on `usr` holds for every record of this storage. -/
def UserStorage.AddNewUser (ext : Externals) (newObjectId : String) (insertErr : Option Error)
    (users : List userData) (usr : userData) (password : String) :
    (Option userData × Option Error) × List userData :=
  let u := { usr with ID := newObjectId }
  let u := if password.utf8ByteSize > 0 then { u with Pswd := ext.GenerateFromPassword password }
    else u
  if insertErr ≠ none then
    ((none, insertErr), users)
  else
    ((some u, none), users ++ [u])

/-- The method `UserStorage.AddUserByNameAndPassword`: it registers a new user. -/
def UserStorage.AddUserByNameAndPassword (ext : Externals) (newObjectId : String)
    (insertErr : Option Error) (users : List userData) (name password : String)
    (profile : Option (List (String × String))) :
    (Option userData × Option Error) × List userData :=
  if (UserStorage.UserByID users name).2 = none then
    ((none, some Error.ErrorUserExists), users)
  else
    UserStorage.AddNewUser ext newObjectId insertErr users
      { userData.zero with Active := true, Name := name, Profile := profile } password

end mongo

/-- Two names are equal up to letter case. -/
def sameNameUpToCase (a b : String) : Bool :=
  a.data.map Char.toLower = b.data.map Char.toLower

/-- A search for a lower-cased pattern inside a lower-cased value, both lists of
characters. -/
def infixOf (pattern : List Char) (value : List Char) : Bool :=
  value.tails.any (fun t => pattern.isPrefixOf t)

/-- What MongoDB's `$regex` with option `i` does for a pattern made of plain letters and
digits, optionally between `^` and `$`: a case-insensitive search of the pattern anywhere in
the value, tied to the start by `^` and to the end by `$`. -/
def literalRegexMatch (pattern value : String) : Bool :=
  let p := pattern.data.map Char.toLower
  let v := value.data.map Char.toLower
  match p with
  | '^' :: body =>
    if body.getLast? = some '$' then body.dropLast = v else body.isPrefixOf v
  | _ =>
    if p.getLast? = some '$' then p.dropLast.isSuffixOf v else infixOf p v

/-- Externals for examples: the plain-pattern regular expressions above and a toy hash that
puts `h:` in front of the password. -/
def stubExternals : mongo.Externals where
  regexMatch := literalRegexMatch
  CompareHashAndPassword := fun hash password => hash = "h:" ++ password
  GenerateFromPassword := fun password => "h:" ++ password

/-- A stored user `alice0001` with the password `Secret1`. -/
def storedAlice : mongo.userData :=
  ⟨"5d1b6e2e9f1c2a3b4c5d6e7f", "alice0001", "h:Secret1", none, true, []⟩

/-- A stored user `alice0001x` with another password. -/
def storedOther : mongo.userData :=
  ⟨"5d1b6e2e9f1c2a3b4c5d6e70", "alice0001x", "h:Other99", none, true, []⟩

/-! ## Invites and the MongoDB invite storage -/

/-- Invite is a representation of the invite model; the Token field is required for proper
working. -/
structure Invite where
  ID : String
  AppID : String
  Token : String
  Archived : Bool
  Email : String
  Role : String
  CreatedBy : String
  CreatedAt : Time
  ExpiresAt : Time
deriving DecidableEq, Repr

/-- The zero value `model.Invite{}`. -/
def Invite.zero : Invite := ⟨"", "", "", false, "", "", "", 0, 0⟩

/-- The method `time.Time.IsZero`: instants are counted from the zero time instant. -/
def IsZero (t : Time) : Bool := t = 0

/-- Validate validates the Invite model. -/
def Invite.Validate (i : Invite) : Option Error :=
  if i.Email = "" then
    some Error.emailCannotBeEmpty
  else if IsZero i.ExpiresAt = true then
    some Error.expiresAtCannotBeZero
  else
    none

namespace mongo

/-- The invite that `InviteStorage.Save` builds from its arguments, from
`primitive.NewObjectID().String()` and from `time.Now()`. -/
def InviteStorage.newInvite (newObjectID : String) (now : Time)
    (email inviteToken role appID createdBy : String) (expiresAt : Time) : Invite :=
  { ID := newObjectID
    AppID := appID
    Token := inviteToken
    Archived := true
    Email := email
    Role := role
    CreatedBy := createdBy
    CreatedAt := now
    ExpiresAt := expiresAt }

/-- The method `InviteStorage.Save`: it creates and saves a new invite to a database.
`InsertOne` is the driver's insertion into the collection. -/
def InviteStorage.Save (InsertOne : List Invite → Invite → Option Error × List Invite)
    (newObjectID : String) (now : Time) (coll : List Invite)
    (email inviteToken role appID createdBy : String) (expiresAt : Time) :
    Option Error × List Invite :=
  if inviteToken.utf8ByteSize = 0 then
    (some Error.ErrorWrongDataFormat, coll)
  else
    let i := InviteStorage.newInvite newObjectID now email inviteToken role appID createdBy expiresAt
    if i.Validate ≠ none then
      (i.Validate, coll)
    else
      InsertOne coll i

/-- The method `InviteStorage.GetByEmail`: it returns a valid and not expired invite by
email.  The filter asks for the email, for `archived` false and for `expiresAt` under the
operator the source writes `$qt`: `qt` is the comparison the server runs for it, or `none`
when the server rejects the operator, and `FindOne` then fails with the server's error. -/
def InviteStorage.GetByEmail (qt : Option (Time → Time → Bool)) (now : Time)
    (coll : List Invite) (email : String) : Invite × Option Error :=
  match qt with
  | none => (Invite.zero, some (Error.external "unknown operator: $qt"))
  | some cmp =>
    match coll.find? (fun i => i.Email = email ∧ i.Archived = false ∧ cmp i.ExpiresAt now = true) with
    | none => (Invite.zero, some Error.ErrorNotFound)
    | some invite => (invite, none)

end mongo

/-- An insertion that succeeds and puts the invite at the end of the collection. -/
def appendInvite (coll : List Invite) (i : Invite) : Option Error × List Invite :=
  (none, coll ++ [i])

/-! ## Session durations and their JSON form -/

/-- The duration `time.Second`. -/
def Second : Int := 1000000000

/-- SessionDuration wraps `time.Duration`, a 64-bit count of nanoseconds, to implement custom
yaml and json encoding and decoding. -/
structure SessionDuration where
  Duration : Int
deriving DecidableEq, Repr

/-- A JSON document as the decoder of `encoding/json` sees it for an integer target: the
literal `null`, an integer literal, or anything else (another JSON value, or bytes that are
not JSON). -/
inductive JSONData where
  | null
  | integer (n : Int)
  | other (raw : String)
deriving DecidableEq, Repr

/-- The call `json.Unmarshal(data, &aux)` for `aux` of type `int`, returning the new value
of `aux` and the error: the literal `null` has no effect and is no error, an integer
literal in the range of `int` is stored, and everything else is an error that leaves
`aux` as it was. -/
def jsonUnmarshalInt (data : JSONData) (aux : Int) : Int × Option Error :=
  match data with
  | JSONData.null => (aux, none)
  | JSONData.integer n =>
    if inInt64 n then (n, none)
    else (aux, some (Error.external "json: cannot unmarshal number into Go value of type int"))
  | JSONData.other _ =>
    (aux, some (Error.external "json: cannot unmarshal into Go value of type int"))

/-- MarshalJSON implements json.Marshaller: `json.Marshal` of the quotient, an integer,
writes an integer literal. -/
def SessionDuration.MarshalJSON (sd : SessionDuration) : JSONData × Option Error :=
  (JSONData.integer (sd.Duration.tdiv Second), none)

/-- UnmarshalJSON implements json.Unmarshaller.  The receiver is a pointer, `none` when it
is `nil`; the result is what the receiver points to afterwards, and the error. -/
def SessionDuration.UnmarshalJSON (sd : Option SessionDuration) (data : JSONData) :
    Option SessionDuration × Option Error :=
  match sd with
  | none => (none, none)
  | some cur =>
    let aux := jsonUnmarshalInt data 0
    if aux.2 ≠ none then
      (some cur, aux.2)
    else
      (some { cur with Duration := wrapInt64 (Second * aux.1) }, none)

/-! ## The steps of the login flow -/

/-- The payload lookup of `loginFlow` started in `w`: `getTokenPayloadForApp`, run in the
world that the scope negotiation leaves. -/
def payloadStep {σ π τ : Type} (ar : Router σ π τ) (app : AppData) (user : User)
    (scopes : List String) (w : World σ π) : (TokenPayload × Option Error) × World σ π :=
  getTokenPayloadForApp ar app user
    (w.call (Call.RequestScopes user.ID scopes) (ar.userStorage.RequestScopes user.ID scopes)).2

/-- The token issuance of `loginFlow` started in `w`: `loginUser`, run in the world that the
payload lookup leaves, on the negotiated scopes, with the `require2FA` answer of `check2FA`
and the payload found. -/
def issuanceStep {σ π τ : Type} (ar : Router σ π τ) (app : AppData) (user : User)
    (scopes : List String) (w : World σ π) : (String × String × Option Error) × World σ π :=
  loginUser ar user (negotiated ar user scopes w) app
    (contains (negotiated ar user scopes w) OfflineScope)
    (check2FA app.TFAStatus ar.tfaType user).1
    (payloadStep ar app user scopes w).1.1 (payloadStep ar app user scopes w).2

/-! ## Users at the ends of the counter range -/

/-- The user `alice0001` with TFA on, whose counter is the largest `int`. -/
def aliceAtMax : User :=
  ⟨"alice0001", "alice@example.com", "+15550001", "hash", "user",
    ⟨true, 9223372036854775807, 0, "s3cr3t"⟩⟩

/-- The user `alice0001` with TFA on, as stored once the counter has reached 10. -/
def aliceAhead : User :=
  ⟨"alice0001", "alice@example.com", "+15550001", "hash", "user", ⟨true, 10, 0, "s3cr3t"⟩⟩

/-! ## Theorems: the two-factor decision table -/

/-- C1 (counterexample): an enabled user with an empty secret, at an Optional app, gets the
very error `errPleaseEnableTFA` that a user with TFA off gets at a Mandatory app; the
secret-empty row has no error kind of its own. -/
theorem check2FA_enroll_is_enable :
    check2FA TFAStatus.Optional TFAType.App
        ⟨"u1", "a@b.c", "+1", "", "", ⟨true, 0, 0, ""⟩⟩
      = (true, false, some Error.errPleaseEnableTFA)
    ∧ check2FA TFAStatus.Mandatory TFAType.App
        ⟨"u1", "a@b.c", "+1", "", "", ⟨false, 0, 0, "s3cr3t"⟩⟩
      = (true, false, some Error.errPleaseEnableTFA) := by
  constructor <;> decide

/-- C1 (amended): `check2FA` follows the decision table read top to bottom, with four error
kinds: Mandatory and not enabled gives (true, false, must-enable); Disabled and enabled gives
(false, true, must-disable); non-Disabled and enabled gives (true, false, must-set-phone)
when the phone is empty and the server type is SMS, (true, false, must-set-email) when the
email is empty and the server type is Email, otherwise (true, false, must-enable) when the
secret is empty, otherwise (true, true, no error); not Mandatory and not enabled gives
(false, false, no error). -/
theorem check2FA_table (appTFAStatus : TFAStatus) (serverTFAType : TFAType) (user : User) :
    (appTFAStatus = TFAStatus.Mandatory → user.TFAInfo.IsEnabled = false →
      check2FA appTFAStatus serverTFAType user = (true, false, some Error.errPleaseEnableTFA))
    ∧ (appTFAStatus = TFAStatus.Disabled → user.TFAInfo.IsEnabled = true →
      check2FA appTFAStatus serverTFAType user = (false, true, some Error.errPleaseDisableTFA))
    ∧ (appTFAStatus ≠ TFAStatus.Disabled → user.TFAInfo.IsEnabled = true →
      user.Phone = "" → serverTFAType = TFAType.SMS →
      check2FA appTFAStatus serverTFAType user = (true, false, some Error.errPleaseSetPhoneTFA))
    ∧ (appTFAStatus ≠ TFAStatus.Disabled → user.TFAInfo.IsEnabled = true →
      user.Email = "" → serverTFAType = TFAType.Email →
      check2FA appTFAStatus serverTFAType user = (true, false, some Error.errPleaseSetEmailTFA))
    ∧ (appTFAStatus ≠ TFAStatus.Disabled → user.TFAInfo.IsEnabled = true →
      ¬ (user.Phone = "" ∧ serverTFAType = TFAType.SMS) →
      ¬ (user.Email = "" ∧ serverTFAType = TFAType.Email) →
      user.TFAInfo.Secret = "" →
      check2FA appTFAStatus serverTFAType user = (true, false, some Error.errPleaseEnableTFA))
    ∧ (appTFAStatus ≠ TFAStatus.Disabled → user.TFAInfo.IsEnabled = true →
      ¬ (user.Phone = "" ∧ serverTFAType = TFAType.SMS) →
      ¬ (user.Email = "" ∧ serverTFAType = TFAType.Email) →
      user.TFAInfo.Secret ≠ "" →
      check2FA appTFAStatus serverTFAType user = (true, true, none))
    ∧ (appTFAStatus ≠ TFAStatus.Mandatory → user.TFAInfo.IsEnabled = false →
      check2FA appTFAStatus serverTFAType user = (false, false, none)) := by
  refine ⟨?_, ?_, ?_, ?_, ?_, ?_, ?_⟩
  · intro hs he
    simp [check2FA, hs, he]
  · intro hs he
    simp [check2FA, hs, he]
  · intro hs he hp ht
    simp [check2FA, hs, he, hp, ht]
  · intro hs he hm ht
    simp [check2FA, hs, he, hm, ht]
  · intro hs he hp hm hsec
    simp only [check2FA, hs, he, hsec, if_neg hp, if_neg hm]
    simp [hs]
  · intro hs he hp hm hsec
    simp only [check2FA, hs, he, hsec, if_neg hp, if_neg hm]
    simp [hs]
  · intro hs he
    simp [check2FA, hs, he]

/-- C1 (witness): the seven rows at one concrete status, server type and user; the user has
TFA enabled, a phone, an email and a secret, so the sixth row fires. -/
theorem check2FA_table_witness :
    check2FA TFAStatus.Optional TFAType.SMS
        ⟨"u1", "a@b.c", "+1", "", "", ⟨true, 0, 0, "s3cr3t"⟩⟩ = (true, true, none) :=
  (check2FA_table TFAStatus.Optional TFAType.SMS
      ⟨"u1", "a@b.c", "+1", "", "", ⟨true, 0, 0, "s3cr3t"⟩⟩).2.2.2.2.2.1
    (by decide) (by decide) (by decide) (by decide) (by decide)


/-! ## Lemmas on the call log -/

@[simp] theorem World.call_log {σ π α : Type} (w : World σ π) (c : Call) (f : σ → α × σ) :
    (w.call c f).2.log = w.log ++ [c] := rfl

@[simp] theorem World.call_fst {σ π α : Type} (w : World σ π) (c : Call) (f : σ → α × σ) :
    (w.call c f).1 = (f w.st).1 := rfl

@[simp] theorem World.call_st {σ π α : Type} (w : World σ π) (c : Call) (f : σ → α × σ) :
    (w.call c f).2.st = (f w.st).2 := rfl

@[simp] theorem World.run_log {σ π : Type} (w : World σ π) (c : Call) (f : σ → σ) :
    (w.run c f).log = w.log ++ [c] := rfl

@[simp] theorem World.fresh_log {σ π : Type} (st : σ) (cache : List (String × π)) :
    (World.fresh st cache).log = [] := rfl

@[simp] theorem World.fresh_st {σ π : Type} (st : σ) (cache : List (String × π)) :
    (World.fresh st cache).st = st := rfl

/-- The calls `getTokenPayloadForApp` adds to the log all go to the payload provider. -/
theorem getTokenPayloadForApp_log {σ π τ : Type} (ar : Router σ π τ) (app : AppData)
    (user : User) (w : World σ π) :
    ∃ l, (getTokenPayloadForApp ar app user w).2.log = w.log ++ l
      ∧ ∀ c ∈ l, c.isPayloadProvider = true := by
  unfold getTokenPayloadForApp
  split_ifs with h
  · split
    · exact ⟨_, World.call_log _ _ _, by simp [Call.isPayloadProvider]⟩
    · simp only []
      split_ifs with h2
      · exact ⟨_, World.call_log _ _ _, by simp [Call.isPayloadProvider]⟩
      · refine ⟨[Call.NewTokenPayloadProvider app.TokenPayloadServiceHttpSettings.Secret
            app.TokenPayloadServiceHttpSettings.URL,
          Call.TokenPayloadForApp app.ID app.Name user.ID], ?_, ?_⟩
        · simp
        · simp [Call.isPayloadProvider]
  · exact ⟨[], by simp, by simp⟩

/-- The calls `loginUser` adds to the log: first `NewAccessToken` with the arguments it was
given, then only serialisations and at most the minting of a refresh token. -/
theorem loginUser_log {σ π τ : Type} (ar : Router σ π τ) (user : User) (scopes : List String)
    (app : AppData) (createRefreshToken require2FA : Bool) (tokenPayload : TokenPayload)
    (w : World σ π) :
    ∃ l, (loginUser ar user scopes app createRefreshToken require2FA tokenPayload w).2.log
        = w.log ++ Call.NewAccessToken user scopes app require2FA tokenPayload :: l
      ∧ (∀ c ∈ l, c = Call.TokenString ∨ c = Call.NewRefreshToken user scopes app)
      ∧ (createRefreshToken = false ∨ require2FA = true → ∀ c ∈ l, c = Call.TokenString)
      ∧ ((loginUser ar user scopes app createRefreshToken require2FA tokenPayload w).1.2.2 = none →
          createRefreshToken = true → require2FA = false →
          Call.NewRefreshToken user scopes app ∈ l) := by
  unfold loginUser
  simp only []
  split_ifs with h1 h2 h3 h4
  · exact ⟨[], by simp, by simp, by simp, by intro h; exact absurd h h1⟩
  · exact ⟨[Call.TokenString], by simp, by simp, by simp, by intro h; exact absurd h h2⟩
  · refine ⟨[Call.TokenString], by simp, by simp, by simp, ?_⟩
    intro _ hc hr
    rcases h3 with h3 | h3
    · simp [hc] at h3
    · simp [hr] at h3
  · refine ⟨[Call.TokenString, Call.NewRefreshToken user scopes app], by simp, by simp, ?_, ?_⟩
    · intro h; exact absurd h h3
    · intro h; exact absurd h h4
  · refine ⟨[Call.TokenString, Call.NewRefreshToken user scopes app, Call.TokenString],
      by simp, by simp, ?_, by simp⟩
    intro h; exact absurd h h3

/-- Without `createRefreshToken`, or with `require2FA`, `loginUser` returns an empty refresh
token string. -/
theorem loginUser_refresh_empty {σ π τ : Type} (ar : Router σ π τ) (user : User)
    (scopes : List String) (app : AppData) (createRefreshToken require2FA : Bool)
    (tokenPayload : TokenPayload) (w : World σ π)
    (h : createRefreshToken = false ∨ require2FA = true) :
    (loginUser ar user scopes app createRefreshToken require2FA tokenPayload w).1.2.1 = "" := by
  unfold loginUser
  simp only []
  split_ifs <;> rfl

/-- The log after `sendTFACodeInSMS`: nothing is added for an empty phone, else one `SendSMS`
carrying the code. -/
theorem sendTFACodeInSMS_log {σ π τ : Type} (ar : Router σ π τ) (phone otp : String)
    (w : World σ π) :
    (sendTFACodeInSMS ar phone otp w).2.log
      = w.log ++ (if phone = "" then [] else [Call.SendSMS phone (smsTFACode otp)]) := by
  unfold sendTFACodeInSMS
  simp only []
  split_ifs
  · simp
  · split <;> simp

/-- The log after `sendTFACodeOnEmail`: nothing is added for an empty address, else one
`SendTFAEmail` carrying the code. -/
theorem sendTFACodeOnEmail_log {σ π τ : Type} (ar : Router σ π τ) (email otp : String)
    (w : World σ π) :
    (sendTFACodeOnEmail ar email otp w).2.log
      = w.log ++ (if email = "" then [] else [Call.SendTFAEmail "One-time password" email otp]) := by
  unfold sendTFACodeOnEmail
  simp only []
  split_ifs
  · simp
  · split <;> simp

/-- The calls `sendOTPCode` adds to the log are storage updates and sends. -/
theorem sendOTPCode_log {σ π τ : Type} (ar : Router σ π τ) (user : User) (w : World σ π) :
    ∃ l, (sendOTPCode ar user w).2.log = w.log ++ l
      ∧ ∀ c ∈ l, c.isUpdateUser = true ∨ c.isSend = true := by
  unfold sendOTPCode
  simp only []
  split_ifs with h1 h2
  · exact ⟨[_], World.call_log _ _ _, by simp [Call.isUpdateUser]⟩
  · split
    · rw [sendTFACodeInSMS_log]
      split_ifs <;> simp only [World.call_log, List.append_assoc, List.append_nil]
      · exact ⟨_, rfl, by simp [Call.isUpdateUser]⟩
      · exact ⟨_, rfl, by simp [Call.isUpdateUser, Call.isSend]⟩
    · rw [sendTFACodeOnEmail_log]
      split_ifs <;> simp only [World.call_log, List.append_assoc, List.append_nil]
      · exact ⟨_, rfl, by simp [Call.isUpdateUser]⟩
      · exact ⟨_, rfl, by simp [Call.isUpdateUser, Call.isSend]⟩
    · exact ⟨[_], World.call_log _ _ _, by simp [Call.isUpdateUser]⟩
  · exact ⟨[], by simp, by simp⟩

/-- The shape of every run of `loginFlow`: which calls are logged on each of its paths, and
what is returned there.  `p` is the token payload, `lp` the calls of the payload lookup,
`lu` the calls of `loginUser` after `NewAccessToken`, `lo` the calls of `sendOTPCode`. -/
theorem loginFlow_spec {σ π τ : Type} (ar : Router σ π τ) (app : AppData) (user : User)
    (scopes : List String) (w : World σ π) :
    ∃ (p : TokenPayload) (lp lu lo : List Call),
      (∀ c ∈ lp, c.isPayloadProvider = true)
      ∧ (∀ c ∈ lu, c = Call.TokenString
          ∨ c = Call.NewRefreshToken user (negotiated ar user scopes w) app)
      ∧ (contains (negotiated ar user scopes w) OfflineScope = false
          ∨ (check2FA app.TFAStatus ar.tfaType user).1 = true → ∀ c ∈ lu, c = Call.TokenString)
      ∧ (∀ c ∈ lo, c.isUpdateUser = true ∨ c.isSend = true)
      ∧ (((loginFlow ar app user scopes w).1.2 ≠ none
            ∧ (loginFlow ar app user scopes w).1.1 = AuthResponse.zero
            ∧ ((loginFlow ar app user scopes w).2.log
                  = w.log ++ Call.RequestScopes user.ID scopes :: lp
              ∨ (loginFlow ar app user scopes w).2.log
                  = w.log ++ [Call.RequestScopes user.ID scopes]
              ∨ (loginFlow ar app user scopes w).2.log
                  = w.log ++ Call.RequestScopes user.ID scopes :: (lp ++
                      Call.NewAccessToken user (negotiated ar user scopes w) app
                        (check2FA app.TFAStatus ar.tfaType user).1 p :: lu)
              ∨ ((check2FA app.TFAStatus ar.tfaType user).1 = true
                ∧ (check2FA app.TFAStatus ar.tfaType user).2.1 = true
                ∧ (loginFlow ar app user scopes w).2.log
                  = w.log ++ Call.RequestScopes user.ID scopes :: (lp ++
                      Call.NewAccessToken user (negotiated ar user scopes w) app
                        (check2FA app.TFAStatus ar.tfaType user).1 p :: (lu ++ lo)))))
        ∨ ((loginFlow ar app user scopes w).1.2 = none
            ∧ (check2FA app.TFAStatus ar.tfaType user).1 = true
            ∧ (check2FA app.TFAStatus ar.tfaType user).2.1 = true
            ∧ (∃ a, (loginFlow ar app user scopes w).1.1 = ⟨a, "", user.Sanitized, true, true⟩)
            ∧ (loginFlow ar app user scopes w).2.log
                  = w.log ++ Call.RequestScopes user.ID scopes :: (lp ++
                      Call.NewAccessToken user (negotiated ar user scopes w) app
                        (check2FA app.TFAStatus ar.tfaType user).1 p :: (lu ++ lo)))
        ∨ ((loginFlow ar app user scopes w).1.2 = none
            ∧ ¬ ((check2FA app.TFAStatus ar.tfaType user).1 = true
                ∧ (check2FA app.TFAStatus ar.tfaType user).2.1 = true)
            ∧ (∃ a r, (loginFlow ar app user scopes w).1.1
                  = ⟨a, r, user.Sanitized, (check2FA app.TFAStatus ar.tfaType user).1,
                      (check2FA app.TFAStatus ar.tfaType user).2.1⟩
                ∧ (contains (negotiated ar user scopes w) OfflineScope = false
                    ∨ (check2FA app.TFAStatus ar.tfaType user).1 = true → r = ""))
            ∧ (contains (negotiated ar user scopes w) OfflineScope = true →
                (check2FA app.TFAStatus ar.tfaType user).1 = false →
                Call.NewRefreshToken user (negotiated ar user scopes w) app ∈ lu)
            ∧ (loginFlow ar app user scopes w).2.log
                  = w.log ++ Call.RequestScopes user.ID scopes :: (lp ++
                      Call.NewAccessToken user (negotiated ar user scopes w) app
                        (check2FA app.TFAStatus ar.tfaType user).1 p ::
                          (lu ++ [Call.UpdateLoginMetadata user.ID])))) := by
  unfold loginFlow negotiated
  simp only []
  set w1 := (w.call (Call.RequestScopes user.ID scopes)
    (ar.userStorage.RequestScopes user.ID scopes)).2 with hw1
  have hw1log : w1.log = w.log ++ [Call.RequestScopes user.ID scopes] := rfl
  set sc := (ar.userStorage.RequestScopes user.ID scopes w.st).1.1 with hsc
  set chk := check2FA app.TFAStatus ar.tfaType user with hchk
  set tp := getTokenPayloadForApp ar app user w1 with htp
  obtain ⟨lp, hlp, hpp⟩ := getTokenPayloadForApp_log ar app user w1
  set lu := loginUser ar user sc app (contains sc OfflineScope) chk.1 tp.1.1 tp.2 with hlu
  obtain ⟨lu', hlu', hluc, hlut, hlur⟩ :=
    loginUser_log ar user sc app (contains sc OfflineScope) chk.1 tp.1.1 tp.2
  have hempty := loginUser_refresh_empty ar user sc app (contains sc OfflineScope) chk.1 tp.1.1 tp.2
  obtain ⟨lo, hlo, hso⟩ := sendOTPCode_log ar user lu.2
  refine ⟨tp.1.1, lp, lu', lo, hpp, hluc, hlut, hso, ?_⟩
  rw [← htp, hw1log] at hlp
  rw [← hlu, hlp] at hlu'
  rw [hlu'] at hlo
  simp only [World.call_fst]
  split_ifs with h1 h2 h3 h4 h5 h6
  · left
    exact ⟨h1, rfl, Or.inr (Or.inl hw1log)⟩
  · left
    exact ⟨h2.2.2, rfl, Or.inr (Or.inl hw1log)⟩
  · left
    refine ⟨h3, rfl, Or.inl ?_⟩
    rw [hlp]; simp
  · left
    refine ⟨h4, rfl, Or.inr (Or.inr (Or.inl ?_))⟩
    rw [hlu']; simp
  · left
    refine ⟨h6, rfl, Or.inr (Or.inr (Or.inr ⟨h5.1, h5.2, ?_⟩))⟩
    rw [hlo]; simp
  · right; left
    refine ⟨rfl, h5.1, h5.2, ⟨lu.1.1, ?_⟩, ?_⟩
    · have he : lu.1.2.1 = "" := hempty (Or.inr h5.1)
      show (⟨lu.1.1, lu.1.2.1, user.Sanitized, chk.1, chk.2.1⟩ : AuthResponse) = _
      rw [he, h5.1, h5.2]
    · rw [hlo]; simp
  · right; right
    refine ⟨rfl, h5, ⟨lu.1.1, lu.1.2.1, rfl, hempty⟩, ?_, ?_⟩
    · intro ho hr
      exact hlur (by simpa using h4) ho hr
    · rw [World.run_log, hlu']; simp

/-! ## Lemmas on runs in which the collaborators succeed -/

/-- With succeeding collaborators the payload lookup returns a nil error. -/
theorem getTokenPayloadForApp_ok {σ π τ : Type} (ar : Router σ π τ) (app : AppData)
    (user : User) (w : World σ π) (hi : ar.issuanceSucceeds) :
    (getTokenPayloadForApp ar app user w).1.2 = none := by
  obtain ⟨_, hnew, hfor, _⟩ := hi
  unfold getTokenPayloadForApp
  split_ifs with h
  · split
    · exact hfor _ _ _ _ _
    · simp only []
      split_ifs with h2
      · exact absurd (hnew _ _ _) h2
      · exact hfor _ _ _ _ _
  · rfl

/-- With succeeding collaborators `loginUser` returns a nil error and a non-empty access
token string. -/
theorem loginUser_ok {σ π τ : Type} (ar : Router σ π τ) (user : User) (scopes : List String)
    (app : AppData) (createRefreshToken require2FA : Bool) (tokenPayload : TokenPayload)
    (w : World σ π) (hi : ar.issuanceSucceeds) :
    (loginUser ar user scopes app createRefreshToken require2FA tokenPayload w).1.2.2 = none
    ∧ (loginUser ar user scopes app createRefreshToken require2FA tokenPayload w).1.1 ≠ "" := by
  obtain ⟨_, _, _, hacc, href, hstr⟩ := hi
  unfold loginUser
  simp only []
  split_ifs with h1 h2 h3 h4
  · exact absurd (hacc _ _ _ _ _ _) h1
  · exact absurd (hstr _ _).1 h2
  · exact ⟨rfl, (hstr _ _).2⟩
  · exact absurd (href _ _ _ _) h4
  · exact ⟨(hstr _ _).1, (hstr _ _).2⟩

/-- When `check2FA` answers required and ready, the user has what the server type needs. -/
theorem check2FA_ready {appTFAStatus : TFAStatus} {serverTFAType : TFAType} {user : User}
    (hreq : (check2FA appTFAStatus serverTFAType user).1 = true)
    (hready : (check2FA appTFAStatus serverTFAType user).2.1 = true) :
    (serverTFAType = TFAType.SMS → user.Phone ≠ "")
    ∧ (serverTFAType = TFAType.Email → user.Email ≠ "")
    ∧ (check2FA appTFAStatus serverTFAType user).2.2 = none := by
  unfold check2FA at hreq hready ⊢
  split_ifs at hreq hready ⊢ with h1 h2 h3 h4 h5 h6
  simp_all
  tauto

/-- The log after `sendOTPCode` for the server type SMS, when the storage update succeeds. -/
theorem sendOTPCode_log_sms {σ π τ : Type} (ar : Router σ π τ) (user : User) (w : World σ π)
    (ht : ar.tfaType = TFAType.SMS)
    (hu : (ar.userStorage.UpdateUser user.ID (bumpHOTP user (ar.now w.st)) w.st).1.2 = none) :
    (sendOTPCode ar user w).2.log
      = w.log ++ Call.UpdateUser user.ID (bumpHOTP user (ar.now w.st)) ::
          (if user.Phone = "" then []
            else [Call.SendSMS user.Phone
              (smsTFACode (ar.hotpAt user.TFAInfo.Secret (wrapInt64 (user.TFAInfo.HOTPCounter + 1))))]) := by
  unfold sendOTPCode
  have hid : (bumpHOTP user (ar.now w.st)).ID = user.ID := rfl
  have hph : (bumpHOTP user (ar.now w.st)).Phone = user.Phone := rfl
  simp only [ht, hid, hph]
  rw [if_pos (by decide), if_neg (by simpa using hu), sendTFACodeInSMS_log]
  simp

/-- The log after `sendOTPCode` for the server type Email, when the storage update
succeeds. -/
theorem sendOTPCode_log_email {σ π τ : Type} (ar : Router σ π τ) (user : User) (w : World σ π)
    (ht : ar.tfaType = TFAType.Email)
    (hu : (ar.userStorage.UpdateUser user.ID (bumpHOTP user (ar.now w.st)) w.st).1.2 = none) :
    (sendOTPCode ar user w).2.log
      = w.log ++ Call.UpdateUser user.ID (bumpHOTP user (ar.now w.st)) ::
          (if user.Email = "" then []
            else [Call.SendTFAEmail "One-time password" user.Email
              (ar.hotpAt user.TFAInfo.Secret (wrapInt64 (user.TFAInfo.HOTPCounter + 1)))]) := by
  unfold sendOTPCode
  have hid : (bumpHOTP user (ar.now w.st)).ID = user.ID := rfl
  have hph : (bumpHOTP user (ar.now w.st)).Email = user.Email := rfl
  simp only [ht, hid, hph]
  rw [if_pos (by decide), if_neg (by simpa using hu), sendTFACodeOnEmail_log]
  simp

theorem Call.payload_kinds {c : Call} (h : c.isPayloadProvider = true) :
    c.isNewRefreshToken = false ∧ c.isUpdateLoginMetadata = false
      ∧ c.isNewAccessToken = false := by
  cases c <;> simp_all [Call.isPayloadProvider, Call.isNewRefreshToken,
    Call.isUpdateLoginMetadata, Call.isNewAccessToken]

theorem Call.delivery_kinds {c : Call} (h : c.isUpdateUser = true ∨ c.isSend = true) :
    c.isNewRefreshToken = false ∧ c.isUpdateLoginMetadata = false
      ∧ c.isNewAccessToken = false := by
  cases c <;> simp_all [Call.isUpdateUser, Call.isSend, Call.isNewRefreshToken,
    Call.isUpdateLoginMetadata, Call.isNewAccessToken]

theorem Call.issuance_kinds {c : Call} {u : User} {sc : List String} {a : AppData}
    (h : c = Call.TokenString ∨ c = Call.NewRefreshToken u sc a) :
    c.isUpdateLoginMetadata = false ∧ c.isNewAccessToken = false := by
  rcases h with h | h <;> subst h <;> simp [Call.isUpdateLoginMetadata, Call.isNewAccessToken]

/-- A refresh-token call in the log of a run of `loginFlow` lies among the calls of
`loginUser`. -/
theorem mem_refresh_of_log {c rs nat : Call} {lp lu : List Call} (tail : List Call)
    (hrs : rs.isNewRefreshToken = false) (hnat : nat.isNewRefreshToken = false)
    (hlp : ∀ c ∈ lp, c.isPayloadProvider = true)
    (htail : ∀ c ∈ tail, c.isNewRefreshToken = false)
    (hc : c ∈ rs :: (lp ++ nat :: (lu ++ tail))) (hr : c.isNewRefreshToken = true) :
    c ∈ lu := by
  simp only [List.mem_cons, List.mem_append] at hc
  rcases hc with rfl | hc | rfl | hc | hc
  · rw [hrs] at hr; exact absurd hr (by decide)
  · rw [(Call.payload_kinds (hlp c hc)).1] at hr; exact absurd hr (by decide)
  · rw [hnat] at hr; exact absurd hr (by decide)
  · exact hc
  · rw [htail c hc] at hr; exact absurd hr (by decide)

/-- C3: on every successful run of `loginFlow` an access token is minted, on the negotiated
scopes, and a refresh token is minted if and only if the negotiated scopes contain the
offline-access scope and `require2FA` is false; and `loginUser`, whenever
`createRefreshToken` is false or `require2FA` is true, never calls `NewRefreshToken` and
returns an empty refresh token string. -/
theorem loginFlow_token_issuance {σ π τ : Type} (ar : Router σ π τ) (app : AppData)
    (user : User) (scopes : List String) (st : σ) (cache : List (String × π)) :
    ((loginFlow ar app user scopes (World.fresh st cache)).1.2 = none →
      (∃ p, Call.NewAccessToken user (negotiated ar user scopes (World.fresh st cache)) app
          (check2FA app.TFAStatus ar.tfaType user).1 p
          ∈ (loginFlow ar app user scopes (World.fresh st cache)).2.log)
      ∧ ((∃ c ∈ (loginFlow ar app user scopes (World.fresh st cache)).2.log,
            c.isNewRefreshToken = true)
          ↔ (contains (negotiated ar user scopes (World.fresh st cache)) OfflineScope = true
              ∧ (check2FA app.TFAStatus ar.tfaType user).1 = false)))
    ∧ (∀ (u : User) (sc : List String) (a : AppData) (createRefreshToken require2FA : Bool)
        (tokenPayload : TokenPayload) (w : World σ π),
        createRefreshToken = false ∨ require2FA = true →
        (loginUser ar u sc a createRefreshToken require2FA tokenPayload w).1.2.1 = ""
        ∧ ∃ l, (loginUser ar u sc a createRefreshToken require2FA tokenPayload w).2.log
              = w.log ++ l
            ∧ ∀ c ∈ l, c.isNewRefreshToken = false) := by
  constructor
  · intro hnone
    obtain ⟨p, lp, lu, lo, hlp, hlu, hlut, hlo, hspec⟩ :=
      loginFlow_spec ar app user scopes (World.fresh st cache)
    rcases hspec with ⟨h, _⟩ | ⟨_, h1, _, _, hlog⟩ | ⟨_, hn, _, hmint, hlog⟩
    · exact absurd hnone h
    · rw [hlog, World.fresh_log, List.nil_append]
      refine ⟨⟨p, by simp⟩, ?_⟩
      constructor
      · rintro ⟨c, hc, hr⟩
        have hmem := mem_refresh_of_log lo (by rfl) (by rfl) hlp
          (fun c hc => (Call.delivery_kinds (hlo c hc)).1) hc hr
        rw [hlut (Or.inr h1) c hmem] at hr
        exact absurd hr (by decide)
      · rintro ⟨_, h2⟩
        rw [h1] at h2
        exact absurd h2 (by decide)
    · rw [hlog, World.fresh_log, List.nil_append]
      refine ⟨⟨p, by simp⟩, ?_⟩
      constructor
      · rintro ⟨c, hc, hr⟩
        have hmem := mem_refresh_of_log [Call.UpdateLoginMetadata user.ID]
          (by rfl) (by rfl) hlp (by simp [Call.isNewRefreshToken]) hc hr
        by_contra hcon
        have hor : contains (negotiated ar user scopes (World.fresh st cache)) OfflineScope = false
            ∨ (check2FA app.TFAStatus ar.tfaType user).1 = true := by
          by_cases ho : contains (negotiated ar user scopes (World.fresh st cache)) OfflineScope = true
          · right
            by_contra hr2
            exact hcon ⟨ho, by simpa using hr2⟩
          · left
            simpa using ho
        rw [hlut hor c hmem] at hr
        exact absurd hr (by decide)
      · rintro ⟨ho, hr⟩
        exact ⟨Call.NewRefreshToken user (negotiated ar user scopes (World.fresh st cache)) app,
          by simp [hmint ho hr], rfl⟩
  · intro u sc a cr r2 tp w h
    refine ⟨loginUser_refresh_empty ar u sc a cr r2 tp w h, ?_⟩
    obtain ⟨l, hl, _, hts, _⟩ := loginUser_log ar u sc a cr r2 tp w
    refine ⟨_, hl, ?_⟩
    intro c hc
    simp only [List.mem_cons] at hc
    rcases hc with rfl | hc
    · rfl
    · rw [hts h c hc]; rfl

/-- C3 (witness): a user with TFA off at an Optional app asks for the offline scope and gets
a refresh token. -/
theorem loginFlow_token_issuance_witness :
    (∃ c ∈ (loginFlow (stubRouter TFAType.SMS none none) (stubApp TFAStatus.Optional) alice
        ["offline"] (World.fresh () [])).2.log, c.isNewRefreshToken = true)
      ↔ (contains (negotiated (stubRouter TFAType.SMS none none) alice ["offline"]
            (World.fresh () [])) OfflineScope = true
          ∧ (check2FA (stubApp TFAStatus.Optional).TFAStatus
              (stubRouter TFAType.SMS none none).tfaType alice).1 = false) :=
  ((loginFlow_token_issuance (stubRouter TFAType.SMS none none) (stubApp TFAStatus.Optional)
      alice ["offline"] () []).1 (by decide)).2

/-! ## Theorems: the metadata update -/

/-- The number of metadata updates in a log of the shape `loginFlow` produces is the number
in its tail. -/
theorem countP_metadata_log (rs nat : Call) {u : User} {sc : List String} {a : AppData}
    {lp lu : List Call} (tail : List Call)
    (hrs : rs.isUpdateLoginMetadata = false) (hnat : nat.isUpdateLoginMetadata = false)
    (hlp : ∀ c ∈ lp, c.isPayloadProvider = true)
    (hlu : ∀ c ∈ lu, c = Call.TokenString ∨ c = Call.NewRefreshToken u sc a) :
    List.countP Call.isUpdateLoginMetadata (rs :: (lp ++ nat :: (lu ++ tail)))
      = List.countP Call.isUpdateLoginMetadata tail := by
  have h1 : List.countP Call.isUpdateLoginMetadata lp = 0 := by
    rw [List.countP_eq_zero]
    intro c hc
    rw [(Call.payload_kinds (hlp c hc)).2.1]
    decide
  have h2 : List.countP Call.isUpdateLoginMetadata lu = 0 := by
    rw [List.countP_eq_zero]
    intro c hc
    rw [(Call.issuance_kinds (hlu c hc)).1]
    decide
  simp [List.countP_cons, List.countP_append, h1, h2, hrs, hnat]

/-- A log holds no metadata update when it counts none. -/
theorem no_metadata_of_countP {l : List Call}
    (h : List.countP Call.isUpdateLoginMetadata l = 0) :
    ∀ c ∈ l, c.isUpdateLoginMetadata = false := by
  rw [List.countP_eq_zero] at h
  intro c hc
  simpa using h c hc

/-- The number of metadata updates in the log of a run of `loginFlow`: one on the
successful path that sends no code, none elsewhere. -/
theorem loginFlow_countP_metadata {σ π τ : Type} (ar : Router σ π τ) (app : AppData)
    (user : User) (scopes : List String) (st : σ) (cache : List (String × π)) :
    List.countP Call.isUpdateLoginMetadata
        (loginFlow ar app user scopes (World.fresh st cache)).2.log
      = if (loginFlow ar app user scopes (World.fresh st cache)).1.2 = none
          ∧ ¬ ((check2FA app.TFAStatus ar.tfaType user).1 = true
            ∧ (check2FA app.TFAStatus ar.tfaType user).2.1 = true) then 1 else 0 := by
  obtain ⟨p, lp, lu, lo, hlp, hlu, hlut, hlo, hspec⟩ :=
    loginFlow_spec ar app user scopes (World.fresh st cache)
  have hlo0 : List.countP Call.isUpdateLoginMetadata lo = 0 := by
    rw [List.countP_eq_zero]
    intro c hc
    rw [(Call.delivery_kinds (hlo c hc)).2.1]
    decide
  have hlp0 : List.countP Call.isUpdateLoginMetadata lp = 0 := by
    rw [List.countP_eq_zero]
    intro c hc
    rw [(Call.payload_kinds (hlp c hc)).2.1]
    decide
  have hshape : ∀ tail : List Call,
      List.countP Call.isUpdateLoginMetadata (Call.RequestScopes user.ID scopes :: (lp ++
        Call.NewAccessToken user (negotiated ar user scopes (World.fresh st cache)) app
          (check2FA app.TFAStatus ar.tfaType user).1 p :: (lu ++ tail)))
        = List.countP Call.isUpdateLoginMetadata tail :=
    fun tail => countP_metadata_log _ _ tail rfl rfl hlp hlu
  rcases hspec with ⟨herr, _, h | h | h | ⟨_, _, h⟩⟩ | ⟨hnone, h1, h2, _, h⟩ | ⟨hnone, hn, _, _, h⟩
  · rw [if_neg (fun hc => herr hc.1), h, World.fresh_log, List.nil_append]
    simp [List.countP_cons, hlp0, Call.isUpdateLoginMetadata]
  · rw [if_neg (fun hc => herr hc.1), h, World.fresh_log, List.nil_append]
    simp [List.countP_cons, Call.isUpdateLoginMetadata]
  · rw [if_neg (fun hc => herr hc.1), h, World.fresh_log, List.nil_append]
    have := hshape []
    rw [List.append_nil] at this
    rw [this]
    rfl
  · rw [if_neg (fun hc => herr hc.1), h, World.fresh_log, List.nil_append,
      hshape, hlo0]
  · rw [if_neg (fun hc => hc.2 ⟨h1, h2⟩), h, World.fresh_log, List.nil_append,
      hshape, hlo0]
  · rw [if_pos ⟨hnone, hn⟩, h, World.fresh_log, List.nil_append,
      hshape]
    rfl

/-- C5 (counterexample): at a Mandatory app and a user with TFA off, `loginFlow` calls
`UpdateLoginMetadata` although the response it returns has `Require2FA = true`. -/
theorem loginFlow_metadata_when_required :
    Call.UpdateLoginMetadata "alice0001"
      ∈ (loginFlow (stubRouter TFAType.SMS none none) (stubApp TFAStatus.Mandatory) alice
          [] (World.fresh () [])).2.log
    ∧ (loginFlow (stubRouter TFAType.SMS none none) (stubApp TFAStatus.Mandatory) alice
          [] (World.fresh () [])).1.1.Require2FA = true
    ∧ (check2FA TFAStatus.Mandatory TFAType.SMS alice).1 = true := by
  refine ⟨by decide, by decide, by decide⟩

/-- C5 (amended): `loginFlow` calls `UpdateLoginMetadata` only on the successful path on
which no one-time code is sent: it is called at most once; if it is called then `loginFlow`
returns a nil error and a response that does not have both `Require2FA` and `Enabled2FA`;
on every path where 2FA is required and ready, or where `loginFlow` returns an error, it is
never called; and on a successful run that is not required-and-ready it is called exactly
once. -/
theorem loginFlow_metadata {σ π τ : Type} (ar : Router σ π τ) (app : AppData)
    (user : User) (scopes : List String) (st : σ) (cache : List (String × π)) :
    List.countP Call.isUpdateLoginMetadata
        (loginFlow ar app user scopes (World.fresh st cache)).2.log ≤ 1
    ∧ ((∃ c ∈ (loginFlow ar app user scopes (World.fresh st cache)).2.log,
          c.isUpdateLoginMetadata = true) →
        (loginFlow ar app user scopes (World.fresh st cache)).1.2 = none
        ∧ ¬ ((loginFlow ar app user scopes (World.fresh st cache)).1.1.Require2FA = true
          ∧ (loginFlow ar app user scopes (World.fresh st cache)).1.1.Enabled2FA = true))
    ∧ ((check2FA app.TFAStatus ar.tfaType user).1 = true
          ∧ (check2FA app.TFAStatus ar.tfaType user).2.1 = true →
        ∀ c ∈ (loginFlow ar app user scopes (World.fresh st cache)).2.log,
          c.isUpdateLoginMetadata = false)
    ∧ ((loginFlow ar app user scopes (World.fresh st cache)).1.2 ≠ none →
        ∀ c ∈ (loginFlow ar app user scopes (World.fresh st cache)).2.log,
          c.isUpdateLoginMetadata = false)
    ∧ ((loginFlow ar app user scopes (World.fresh st cache)).1.2 = none →
        ¬ ((check2FA app.TFAStatus ar.tfaType user).1 = true
          ∧ (check2FA app.TFAStatus ar.tfaType user).2.1 = true) →
        List.countP Call.isUpdateLoginMetadata
          (loginFlow ar app user scopes (World.fresh st cache)).2.log = 1) := by
  have hcount := loginFlow_countP_metadata ar app user scopes st cache
  refine ⟨?_, ?_, ?_, ?_, ?_⟩
  · rw [hcount]; split_ifs <;> omega
  · rintro ⟨c, hc, hm⟩
    by_cases hcond : (loginFlow ar app user scopes (World.fresh st cache)).1.2 = none
        ∧ ¬ ((check2FA app.TFAStatus ar.tfaType user).1 = true
          ∧ (check2FA app.TFAStatus ar.tfaType user).2.1 = true)
    · refine ⟨hcond.1, ?_⟩
      obtain ⟨p, lp, lu, lo, _, _, _, _, hspec⟩ :=
        loginFlow_spec ar app user scopes (World.fresh st cache)
      rcases hspec with ⟨herr, _⟩ | ⟨_, h1, h2, _⟩ | ⟨_, _, ⟨a, r, h, _⟩, _⟩
      · exact absurd hcond.1 herr
      · exact absurd ⟨h1, h2⟩ hcond.2
      · rw [h]; exact hcond.2
    · rw [if_neg hcond] at hcount
      have := no_metadata_of_countP hcount c hc
      rw [this] at hm
      exact absurd hm (by decide)
  · intro hrr
    rw [if_neg (fun hc => hc.2 hrr)] at hcount
    exact no_metadata_of_countP hcount
  · intro herr
    rw [if_neg (fun hc => herr hc.1)] at hcount
    exact no_metadata_of_countP hcount
  · intro hnone hn
    rw [hcount, if_pos ⟨hnone, hn⟩]

/-- C5 (witness): a user with TFA off at an Optional app, where the metadata update is
called exactly once. -/
theorem loginFlow_metadata_witness :
    List.countP Call.isUpdateLoginMetadata
      (loginFlow (stubRouter TFAType.SMS none none) (stubApp TFAStatus.Optional) alice
        ["offline"] (World.fresh () [])).2.log = 1 :=
  (loginFlow_metadata (stubRouter TFAType.SMS none none) (stubApp TFAStatus.Optional) alice
    ["offline"] () []).2.2.2.2 (by decide) (by decide)

/-! ## Theorems: the Optional app and the enrolled user -/

/-- C7 (counterexample): a username of three characters, outside 6..130, passes `validate`
because it is six bytes long, and `LoginWithPassword` calls `UserByNamePassword` with it. -/
theorem validate_counts_bytes :
    "ééé".length = 3
    ∧ loginData.validate ⟨"ééé", "Secret1", "", []⟩ = none
    ∧ Call.UserByNamePassword "ééé" "Secret1"
        ∈ (LoginWithPassword (stubRouter TFAType.SMS none none)
            ⟨some ⟨"ééé", "Secret1", "", []⟩, stubApp TFAStatus.Optional, "/login", "POST"⟩
            (World.fresh () [])).2.log := by
  refine ⟨by decide, by decide, by decide⟩

/-- C7 (amended): with lengths counted in bytes, `validate` returns nil exactly when the
username length and the password length both lie in 6..130; and for a request whose body
fails `validate`, `LoginWithPassword` makes no call at all (the world, its call log
included, is unchanged), and when login with username is supported it answers with the
validation failure: `ErrorAPIRequestBodyParamsInvalid`, status 400, carrying the error of
`validate`. -/
theorem LoginWithPassword_validate {σ π τ : Type} (ar : Router σ π τ) (r : Request)
    (ld : loginData) (w : World σ π) (hbody : r.body = some ld) :
    (ld.validate = none ↔
      (6 ≤ ld.Username.utf8ByteSize ∧ ld.Username.utf8ByteSize ≤ 130
        ∧ 6 ≤ ld.Password.utf8ByteSize ∧ ld.Password.utf8ByteSize ≤ 130))
    ∧ (ld.validate ≠ none →
        (LoginWithPassword ar r w).2 = w
        ∧ (ar.SupportedLoginWays.Username = true →
            ∃ err, ld.validate = some err
              ∧ LoginWithPassword ar r w
                = (Response.Error APIErrorCode.ErrorAPIRequestBodyParamsInvalid StatusBadRequest
                    (Message.ofError err) "LoginWithPassword.validate", w))) := by
  constructor
  · unfold loginData.validate
    simp only []
    split_ifs with h1 h2
    · constructor
      · intro h; exact absurd h (by simp)
      · intro h; omega
    · constructor
      · intro h; exact absurd h (by simp)
      · intro h; omega
    · constructor
      · intro _; omega
      · intro _; rfl
  · intro hv
    cases hval : ld.validate with
    | none => exact absurd hval hv
    | some err =>
      unfold LoginWithPassword
      simp only [hbody, hval]
      constructor
      · split_ifs <;> rfl
      · intro hs
        refine ⟨err, rfl, ?_⟩
        rw [if_neg (by simp [hs])]

/-- C7 (witness): a five-byte username is rejected without any call. -/
theorem LoginWithPassword_validate_witness :
    (LoginWithPassword (stubRouter TFAType.SMS none none)
        ⟨some ⟨"alice", "Secret1", "", []⟩, stubApp TFAStatus.Optional, "/login", "POST"⟩
        (World.fresh () [])).2 = World.fresh () [] :=
  ((LoginWithPassword_validate (stubRouter TFAType.SMS none none)
      ⟨some ⟨"alice", "Secret1", "", []⟩, stubApp TFAStatus.Optional, "/login", "POST"⟩
      ⟨"alice", "Secret1", "", []⟩ (World.fresh () []) rfl).2 (by decide)).1

/-! ## Lemmas on the stored records and on the sends of a one-time code -/

/-- The records stored after `sendOTPCode`, for a server type other than App, are those
stored right after its `UpdateUser` call. -/
theorem sendOTPCode_records {σ π τ : Type} (ar : Router σ π τ)
    (UserByID : σ → String → Option User) (laws : UserRecords ar UserByID) (user : User)
    (w : World σ π) (ht : ar.tfaType ≠ TFAType.App) :
    UserByID (sendOTPCode ar user w).2.st
      = UserByID (ar.userStorage.UpdateUser user.ID (bumpHOTP user (ar.now w.st)) w.st).2 := by
  unfold sendOTPCode
  simp only []
  have hid : (bumpHOTP user (ar.now w.st)).ID = user.ID := rfl
  rw [if_pos ht, hid]
  split_ifs with h
  · rfl
  · split
    · unfold sendTFACodeInSMS
      simp only []
      split_ifs
      · rfl
      · split <;> exact laws.sms _ _ _
    · unfold sendTFACodeOnEmail
      simp only []
      split_ifs
      · rfl
      · split <;> exact laws.email _ _ _ _
    · rfl

/-- The in-memory router keeps the contract of the stored user records. -/
theorem memRouter_records (t : TFAType) : UserRecords (memRouter t) memUserByID where
  update_ok := by
    intro id u s _
    simp [memRouter, memUserByID, List.lookup]
  update_failed := by
    intro id u s h
    exact absurd rfl h
  sms := fun _ _ _ => rfl
  email := fun _ _ _ _ => rfl

/-- For a server type other than App, `sendOTPCode` logs its `UpdateUser` call and then
only sends of the code computed at the counter it read, incremented as an `int`. -/
theorem sendOTPCode_sends {σ π τ : Type} (ar : Router σ π τ) (user : User) (w : World σ π)
    (ht : ar.tfaType ≠ TFAType.App) :
    ∃ sends,
      (sendOTPCode ar user w).2.log
        = w.log ++ Call.UpdateUser user.ID (bumpHOTP user (ar.now w.st)) :: sends
      ∧ ∀ c ∈ sends,
          c = Call.SendSMS user.Phone
            (smsTFACode (ar.hotpAt user.TFAInfo.Secret (wrapInt64 (user.TFAInfo.HOTPCounter + 1))))
          ∨ c = Call.SendTFAEmail "One-time password" user.Email
            (ar.hotpAt user.TFAInfo.Secret (wrapInt64 (user.TFAInfo.HOTPCounter + 1))) := by
  unfold sendOTPCode
  simp only []
  have hid : (bumpHOTP user (ar.now w.st)).ID = user.ID := rfl
  have hph : (bumpHOTP user (ar.now w.st)).Phone = user.Phone := rfl
  have hem : (bumpHOTP user (ar.now w.st)).Email = user.Email := rfl
  rw [if_pos ht, hid, hph, hem]
  split_ifs with h
  · exact ⟨[], by simp, by simp⟩
  · split
    · rw [sendTFACodeInSMS_log, World.call_log, List.append_assoc, List.singleton_append]
      exact ⟨_, rfl, by intro c hc; split_ifs at hc <;> simp_all⟩
    · rw [sendTFACodeOnEmail_log, World.call_log, List.append_assoc, List.singleton_append]
      exact ⟨_, rfl, by intro c hc; split_ifs at hc <;> simp_all⟩
    · exact ⟨[], by simp, by simp⟩

/-! ## Theorems: the uniform composers are all-or-nothing -/

/-- The in-memory `Compose` returns the first error of its constructors. -/
theorem fake_Compose_err {A U T B V I : Type} (dc : fake.DatabaseComposer A U T B V I) :
    dc.Compose.err = firstError (fakeErrors dc) := by
  unfold fake.DatabaseComposer.Compose fakeErrors
  simp only []
  split_ifs with h1 h2 h3 h4 h5 h6
  · cases h : (dc.newAppStorage ()).2 with
    | none => exact absurd h h1
    | some e => simp [Composed.failed, firstError, h]
  · cases h : (dc.newUserStorage ()).2 with
    | none => exact absurd h h2
    | some e => simp_all [Composed.failed, firstError]
  · cases h : (dc.newTokenStorage ()).2 with
    | none => exact absurd h h3
    | some e => simp_all [Composed.failed, firstError]
  · cases h : (dc.newTokenBlacklist ()).2 with
    | none => exact absurd h h4
    | some e => simp_all [Composed.failed, firstError]
  · cases h : (dc.newVerificationCodeStorage ()).2 with
    | none => exact absurd h h5
    | some e => simp_all [Composed.failed, firstError]
  · cases h : (dc.newInviteStorage ()).2 with
    | none => exact absurd h h6
    | some e => simp_all [Composed.failed, firstError]
  · simp_all [firstError]

/-- The in-memory `Compose` returns either no handle at all, or its constructors' six
handles and a nil error. -/
theorem fake_Compose_cases {A U T B V I : Type} (dc : fake.DatabaseComposer A U T B V I) :
    (dc.Compose.err ≠ none ∧ dc.Compose = Composed.failed dc.Compose.err)
    ∨ (dc.Compose.err = none
        ∧ dc.Compose = ⟨(dc.newAppStorage ()).1, (dc.newUserStorage ()).1,
            (dc.newTokenStorage ()).1, (dc.newTokenBlacklist ()).1,
            (dc.newVerificationCodeStorage ()).1, (dc.newInviteStorage ()).1, none⟩) := by
  unfold fake.DatabaseComposer.Compose
  simp only []
  split_ifs with h1 h2 h3 h4 h5 h6
  · exact Or.inl ⟨h1, rfl⟩
  · exact Or.inl ⟨h2, rfl⟩
  · exact Or.inl ⟨h3, rfl⟩
  · exact Or.inl ⟨h4, rfl⟩
  · exact Or.inl ⟨h5, rfl⟩
  · exact Or.inl ⟨h6, rfl⟩
  · exact Or.inr ⟨rfl, rfl⟩

/-- The BoltDB `Compose` returns the first error among the database initialisation and its
constructors. -/
theorem bolt_Compose_err {DB A U T B V I : Type} (InitDB : String → Option DB × Option Error)
    (dc : boltdb.DatabaseComposer DB A U T B V I) :
    (dc.Compose InitDB).err = firstError (boltErrors InitDB dc) := by
  unfold boltdb.DatabaseComposer.Compose boltErrors
  simp only []
  split_ifs with h0 h1 h2 h3 h4 h5 h6
  · cases h : (InitDB dc.path).2 with
    | none => exact absurd h h0
    | some e => simp [Composed.failed, firstError, h]
  · cases h : (dc.newAppStorage (InitDB dc.path).1).2 with
    | none => exact absurd h h1
    | some e => simp_all [Composed.failed, firstError]
  · cases h : (dc.newUserStorage (InitDB dc.path).1).2 with
    | none => exact absurd h h2
    | some e => simp_all [Composed.failed, firstError]
  · cases h : (dc.newTokenStorage (InitDB dc.path).1).2 with
    | none => exact absurd h h3
    | some e => simp_all [Composed.failed, firstError]
  · cases h : (dc.newTokenBlacklist (InitDB dc.path).1).2 with
    | none => exact absurd h h4
    | some e => simp_all [Composed.failed, firstError]
  · cases h : (dc.newVerificationCodeStorage (InitDB dc.path).1).2 with
    | none => exact absurd h h5
    | some e => simp_all [Composed.failed, firstError]
  · cases h : (dc.newInviteStorage (InitDB dc.path).1).2 with
    | none => exact absurd h h6
    | some e => simp_all [Composed.failed, firstError]
  · simp_all [firstError]

/-- The BoltDB `Compose` returns either no handle at all, or its constructors' six handles
and a nil error. -/
theorem bolt_Compose_cases {DB A U T B V I : Type}
    (InitDB : String → Option DB × Option Error)
    (dc : boltdb.DatabaseComposer DB A U T B V I) :
    ((dc.Compose InitDB).err ≠ none
        ∧ dc.Compose InitDB = Composed.failed (dc.Compose InitDB).err)
    ∨ ((dc.Compose InitDB).err = none
        ∧ dc.Compose InitDB = ⟨(dc.newAppStorage (InitDB dc.path).1).1,
            (dc.newUserStorage (InitDB dc.path).1).1,
            (dc.newTokenStorage (InitDB dc.path).1).1,
            (dc.newTokenBlacklist (InitDB dc.path).1).1,
            (dc.newVerificationCodeStorage (InitDB dc.path).1).1,
            (dc.newInviteStorage (InitDB dc.path).1).1, none⟩) := by
  unfold boltdb.DatabaseComposer.Compose
  simp only []
  split_ifs with h0 h1 h2 h3 h4 h5 h6
  · exact Or.inl ⟨h0, rfl⟩
  · exact Or.inl ⟨h1, rfl⟩
  · exact Or.inl ⟨h2, rfl⟩
  · exact Or.inl ⟨h3, rfl⟩
  · exact Or.inl ⟨h4, rfl⟩
  · exact Or.inl ⟨h5, rfl⟩
  · exact Or.inl ⟨h6, rfl⟩
  · exact Or.inr ⟨rfl, rfl⟩

/-- The first error of a list is nil exactly when every error of the list is nil. -/
theorem firstError_eq_none (l : List (Option Error)) :
    firstError l = none ↔ ∀ e ∈ l, e = none := by
  induction l with
  | nil => simp [firstError]
  | cons a rest ih =>
    cases a with
    | none => simp [firstError, ih]
    | some e => simp [firstError]

/-- The first error of a list, when there is one, is an error of the list. -/
theorem firstError_mem (l : List (Option Error)) (e : Error) (h : firstError l = some e) :
    some e ∈ l := by
  induction l with
  | nil => simp [firstError] at h
  | cons a rest ih =>
    cases a with
    | none =>
      simp only [firstError] at h
      exact List.mem_cons_of_mem _ (ih h)
    | some e' =>
      simp only [firstError] at h
      rw [h]
      exact List.mem_cons_self _ _

/-- C10: the in-memory and the BoltDB `Compose` are all-or-nothing.  Each returns the first
error met among (for BoltDB) the database initialisation and the six constructors, in
calling order; if any of them returns an error, `Compose` returns an error, which is one of
theirs, together with nil for all six handles; and `Compose` returns a nil error, with the
six handles its constructors returned, exactly when all of them succeed. -/
theorem Compose_all_or_nothing {DB A U T B V I : Type}
    (fdc : fake.DatabaseComposer A U T B V I)
    (InitDB : String → Option DB × Option Error)
    (bdc : boltdb.DatabaseComposer DB A U T B V I) :
    (fdc.Compose.err = firstError (fakeErrors fdc)
      ∧ ((∃ e ∈ fakeErrors fdc, e ≠ none) →
          fdc.Compose.err ≠ none ∧ fdc.Compose.err ∈ fakeErrors fdc
          ∧ fdc.Compose = ⟨none, none, none, none, none, none, fdc.Compose.err⟩)
      ∧ ((∀ e ∈ fakeErrors fdc, e = none) →
          fdc.Compose = ⟨(fdc.newAppStorage ()).1, (fdc.newUserStorage ()).1,
            (fdc.newTokenStorage ()).1, (fdc.newTokenBlacklist ()).1,
            (fdc.newVerificationCodeStorage ()).1, (fdc.newInviteStorage ()).1, none⟩)
      ∧ (fdc.Compose.err = none ↔ ∀ e ∈ fakeErrors fdc, e = none))
    ∧ ((bdc.Compose InitDB).err = firstError (boltErrors InitDB bdc)
      ∧ ((∃ e ∈ boltErrors InitDB bdc, e ≠ none) →
          (bdc.Compose InitDB).err ≠ none
          ∧ (bdc.Compose InitDB).err ∈ boltErrors InitDB bdc
          ∧ bdc.Compose InitDB
              = ⟨none, none, none, none, none, none, (bdc.Compose InitDB).err⟩)
      ∧ ((∀ e ∈ boltErrors InitDB bdc, e = none) →
          bdc.Compose InitDB = ⟨(bdc.newAppStorage (InitDB bdc.path).1).1,
            (bdc.newUserStorage (InitDB bdc.path).1).1,
            (bdc.newTokenStorage (InitDB bdc.path).1).1,
            (bdc.newTokenBlacklist (InitDB bdc.path).1).1,
            (bdc.newVerificationCodeStorage (InitDB bdc.path).1).1,
            (bdc.newInviteStorage (InitDB bdc.path).1).1, none⟩)
      ∧ ((bdc.Compose InitDB).err = none ↔ ∀ e ∈ boltErrors InitDB bdc, e = none)) := by
  have hf := fake_Compose_err fdc
  have hb := bolt_Compose_err InitDB bdc
  have hfn := firstError_eq_none (fakeErrors fdc)
  have hbn := firstError_eq_none (boltErrors InitDB bdc)
  refine ⟨⟨hf, ?_, ?_, by rw [hf]; exact hfn⟩, ⟨hb, ?_, ?_, by rw [hb]; exact hbn⟩⟩
  · rintro ⟨e, he, hne⟩
    have herr : fdc.Compose.err ≠ none := by
      rw [hf]
      intro hnone
      exact hne (hfn.1 hnone e he)
    refine ⟨herr, ?_, ?_⟩
    · cases hc : fdc.Compose.err with
      | none => exact absurd hc herr
      | some e' =>
        rw [hf] at hc
        exact firstError_mem _ _ hc
    · rcases fake_Compose_cases fdc with ⟨_, h⟩ | ⟨h, _⟩
      · exact h
      · exact absurd h herr
  · intro hall
    rcases fake_Compose_cases fdc with ⟨h, _⟩ | ⟨_, h⟩
    · rw [hf] at h
      exact absurd (hfn.2 hall) h
    · exact h
  · rintro ⟨e, he, hne⟩
    have herr : (bdc.Compose InitDB).err ≠ none := by
      rw [hb]
      intro hnone
      exact hne (hbn.1 hnone e he)
    refine ⟨herr, ?_, ?_⟩
    · cases hc : (bdc.Compose InitDB).err with
      | none => exact absurd hc herr
      | some e' =>
        rw [hb] at hc
        exact firstError_mem _ _ hc
    · rcases bolt_Compose_cases InitDB bdc with ⟨_, h⟩ | ⟨h, _⟩
      · exact h
      · exact absurd h herr
  · intro hall
    rcases bolt_Compose_cases InitDB bdc with ⟨h, _⟩ | ⟨_, h⟩
    · rw [hb] at h
      exact absurd (hbn.2 hall) h
    · exact h

/-- C10 (witness): composers whose fourth constructor, the token blacklist's, fails after
three have succeeded: no handle is returned, by either composer. -/
theorem Compose_all_or_nothing_witness :
    (stubFake (some (Error.external "no blacklist"))).Compose
        = ⟨none, none, none, none, none, none, some (Error.external "no blacklist")⟩
    ∧ (stubBolt (some (Error.external "no blacklist"))).Compose (stubInitDB none)
        = ⟨none, none, none, none, none, none, some (Error.external "no blacklist")⟩ := by
  have h := Compose_all_or_nothing (stubFake (some (Error.external "no blacklist")))
    (stubInitDB none) (stubBolt (some (Error.external "no blacklist")))
  have hf : (stubFake (some (Error.external "no blacklist"))).Compose.err
      = some (Error.external "no blacklist") := by rw [h.1.1]; rfl
  have hb : ((stubBolt (some (Error.external "no blacklist"))).Compose (stubInitDB none)).err
      = some (Error.external "no blacklist") := by rw [h.2.1]; rfl
  constructor
  · have := (h.1.2.1 ⟨some (Error.external "no blacklist"), by simp [fakeErrors, stubFake],
      by simp⟩).2.2
    rw [hf] at this
    exact this
  · have := (h.2.2.1 ⟨some (Error.external "no blacklist"), by simp [boltErrors, stubBolt],
      by simp⟩).2.2
    rw [hb] at this
    exact this

/-! ## Theorems: failures of the token payload provider -/

/-- When the payload lookup fails, `loginFlow` returns an error and the zero response, and
its log holds no minting call. -/
theorem loginFlow_of_payload_failure {σ π τ : Type} (ar : Router σ π τ) (app : AppData)
    (user : User) (scopes : List String) (w : World σ π)
    (hfail : (getTokenPayloadForApp ar app user
      (w.call (Call.RequestScopes user.ID scopes)
        (ar.userStorage.RequestScopes user.ID scopes)).2).1.2 ≠ none) :
    (loginFlow ar app user scopes w).1.2 ≠ none
    ∧ (loginFlow ar app user scopes w).1.1 = AuthResponse.zero
    ∧ ∃ l, (loginFlow ar app user scopes w).2.log = w.log ++ l
        ∧ ∀ c ∈ l, c.isNewAccessToken = false ∧ c.isNewRefreshToken = false := by
  obtain ⟨lp, hlp, hpp⟩ := getTokenPayloadForApp_log ar app user
    (w.call (Call.RequestScopes user.ID scopes) (ar.userStorage.RequestScopes user.ID scopes)).2
  unfold loginFlow
  simp only []
  split_ifs with h1 h2
  · exact ⟨h1, rfl, [Call.RequestScopes user.ID scopes], rfl, by simp [Call.isNewAccessToken,
      Call.isNewRefreshToken]⟩
  · exact ⟨h2.2.2, rfl, [Call.RequestScopes user.ID scopes], rfl, by simp [Call.isNewAccessToken,
      Call.isNewRefreshToken]⟩
  · refine ⟨hfail, rfl, Call.RequestScopes user.ID scopes :: lp, ?_, ?_⟩
    · rw [hlp]; simp
    · intro c hc
      simp only [List.mem_cons] at hc
      rcases hc with rfl | hc
      · exact ⟨rfl, rfl⟩
      · exact ⟨(Call.payload_kinds (hpp c hc)).2.2, (Call.payload_kinds (hpp c hc)).1⟩

/-- C18: for an app using the HTTP payload service whose provider is not cached, a failing
provider construction makes `getTokenPayloadForApp` return `(nil, that error)` after the
single construction call and leaves the cache as it was; after a successful construction a
failing `TokenPayloadForApp` makes it return that error; whenever the payload lookup of
`loginFlow` fails, `loginFlow` returns an error with the zero `AuthResponse` and calls
neither `NewAccessToken` nor `NewRefreshToken`, and the error is that of the lookup when
scope negotiation succeeded and the gate did not abort; and for an app not using the service,
`getTokenPayloadForApp` returns `(nil, nil)` and leaves the world, cache and call log
included, untouched. -/
theorem getTokenPayloadForApp_failures {σ π τ : Type} (ar : Router σ π τ) (app : AppData)
    (user : User) (scopes : List String) (w : World σ π) :
    (app.TokenPayloadServiceIsHttp = true → w.tokenPayloadServices.lookup app.ID = none →
      ∀ e, (ar.thp.NewTokenPayloadProvider app.TokenPayloadServiceHttpSettings.Secret
          app.TokenPayloadServiceHttpSettings.URL w.st).1.2 = some e →
        (getTokenPayloadForApp ar app user w).1 = (none, some e)
        ∧ (getTokenPayloadForApp ar app user w).2.tokenPayloadServices = w.tokenPayloadServices
        ∧ (getTokenPayloadForApp ar app user w).2.log
            = w.log ++ [Call.NewTokenPayloadProvider app.TokenPayloadServiceHttpSettings.Secret
                app.TokenPayloadServiceHttpSettings.URL])
    ∧ (app.TokenPayloadServiceIsHttp = true → w.tokenPayloadServices.lookup app.ID = none →
      (ar.thp.NewTokenPayloadProvider app.TokenPayloadServiceHttpSettings.Secret
          app.TokenPayloadServiceHttpSettings.URL w.st).1.2 = none →
      ∀ e, (ar.thp.TokenPayloadForApp
          (ar.thp.NewTokenPayloadProvider app.TokenPayloadServiceHttpSettings.Secret
            app.TokenPayloadServiceHttpSettings.URL w.st).1.1 app.ID app.Name user.ID
          (ar.thp.NewTokenPayloadProvider app.TokenPayloadServiceHttpSettings.Secret
            app.TokenPayloadServiceHttpSettings.URL w.st).2).1.2 = some e →
        (getTokenPayloadForApp ar app user w).1.2 = some e)
    ∧ (∀ e, (getTokenPayloadForApp ar app user
          (w.call (Call.RequestScopes user.ID scopes)
            (ar.userStorage.RequestScopes user.ID scopes)).2).1.2 = some e →
        (loginFlow ar app user scopes w).1.2 ≠ none
        ∧ (loginFlow ar app user scopes w).1.1 = AuthResponse.zero
        ∧ (∃ l, (loginFlow ar app user scopes w).2.log = w.log ++ l
            ∧ ∀ c ∈ l, c.isNewAccessToken = false ∧ c.isNewRefreshToken = false)
        ∧ ((ar.userStorage.RequestScopes user.ID scopes w.st).1.2 = none →
            ¬ ((check2FA app.TFAStatus ar.tfaType user).1 = false
              ∧ (check2FA app.TFAStatus ar.tfaType user).2.1 = true
              ∧ (check2FA app.TFAStatus ar.tfaType user).2.2 ≠ none) →
            (loginFlow ar app user scopes w).1 = (AuthResponse.zero, some e)))
    ∧ (app.TokenPayloadServiceIsHttp = false →
        getTokenPayloadForApp ar app user w = ((none, none), w)) := by
  refine ⟨?_, ?_, ?_, ?_⟩
  · intro hhttp hcache e he
    unfold getTokenPayloadForApp
    simp only [hhttp, hcache, if_true]
    rw [if_pos (by rw [World.call_fst, he]; simp)]
    exact ⟨by rw [World.call_fst, he], rfl, rfl⟩
  · intro hhttp hcache hok e he
    unfold getTokenPayloadForApp
    simp only [hhttp, hcache, if_true]
    rw [if_neg (by rw [World.call_fst, hok]; simp)]
    exact he
  · intro e he
    have hfail : (getTokenPayloadForApp ar app user
        (w.call (Call.RequestScopes user.ID scopes)
          (ar.userStorage.RequestScopes user.ID scopes)).2).1.2 ≠ none := by
      rw [he]; simp
    obtain ⟨herr, hzero, hlog⟩ := loginFlow_of_payload_failure ar app user scopes w hfail
    refine ⟨herr, hzero, hlog, ?_⟩
    intro hrs hgate
    unfold loginFlow
    simp only []
    rw [if_neg (by rw [World.call_fst, hrs]; simp), if_neg hgate, if_pos hfail, he]
  · intro hhttp
    unfold getTokenPayloadForApp
    rw [if_neg (by simp [hhttp])]

/-- C18 (witness): an app using the HTTP payload service, no cached provider, and a
provider construction that fails: the error comes back and the cache stays empty. -/
theorem getTokenPayloadForApp_failures_witness :
    (getTokenPayloadForApp payloadFailRouter httpApp alice (World.fresh () [])).1
        = (none, some (Error.external "no provider"))
    ∧ (getTokenPayloadForApp payloadFailRouter httpApp alice
        (World.fresh () [])).2.tokenPayloadServices = [] :=
  ⟨((getTokenPayloadForApp_failures payloadFailRouter httpApp alice []
      (World.fresh () [])).1 rfl rfl (Error.external "no provider") rfl).1,
    ((getTokenPayloadForApp_failures payloadFailRouter httpApp alice []
      (World.fresh () [])).1 rfl rfl (Error.external "no provider") rfl).2.1⟩

/-! ## Theorems: app-generated codes -/

/-- C19: for the server type App, `sendOTPCode` returns nil and leaves the world as it
was: the collaborator state, hence every stored user record with its counter and expiry,
and the call log, to which neither `UpdateUser` nor a send is added. -/
theorem sendOTPCode_app {σ π τ : Type} (ar : Router σ π τ) (user : User) (w : World σ π)
    (ht : ar.tfaType = TFAType.App) :
    sendOTPCode ar user w = (none, w)
    ∧ (sendOTPCode ar user w).2.st = w.st
    ∧ (sendOTPCode ar user w).2.log = w.log
    ∧ (∀ UserByID : σ → String → Option User,
        UserByID (sendOTPCode ar user w).2.st user.ID = UserByID w.st user.ID) := by
  have h : sendOTPCode ar user w = (none, w) := by
    unfold sendOTPCode
    rw [if_neg (by simp [ht])]
  refine ⟨h, by rw [h], by rw [h], fun _ => by rw [h]⟩

/-- C19 (witness): the enrolled user under the server type App, with one call already in
the log. -/
theorem sendOTPCode_app_witness :
    sendOTPCode (stubRouter TFAType.App none none) aliceTFA
        ⟨(), [], [Call.TokenString]⟩ = (none, ⟨(), [], [Call.TokenString]⟩) :=
  (sendOTPCode_app (stubRouter TFAType.App none none) aliceTFA ⟨(), [], [Call.TokenString]⟩
    rfl).1

/-! ## Theorems: the partial composers -/

/-- The constructors of the in-memory partial composer built with no options: each is set
exactly for a kind configured with `DBTypeFake`. -/
theorem fake_NewPartialComposer_fields {A U T B V I : Type}
    (mem : fake.DatabaseComposer A U T B V I) (settings : StorageSettings) :
    ∃ pc, fake.NewPartialComposer mem settings [] = (some pc, none)
      ∧ pc.newAppStorage = (if settings.AppStorage.DBType = DatabaseType.DBTypeFake
          then some mem.newAppStorage else none)
      ∧ pc.newUserStorage = (if settings.UserStorage.DBType = DatabaseType.DBTypeFake
          then some mem.newUserStorage else none)
      ∧ pc.newTokenStorage = (if settings.TokenStorage.DBType = DatabaseType.DBTypeFake
          then some mem.newTokenStorage else none)
      ∧ pc.newTokenBlacklist = (if settings.TokenBlacklist.DBType = DatabaseType.DBTypeFake
          then some mem.newTokenBlacklist else none)
      ∧ pc.newVerificationCodeStorage
          = (if settings.VerificationCodeStorage.DBType = DatabaseType.DBTypeFake
              then some mem.newVerificationCodeStorage else none)
      ∧ pc.newInviteStorage = (if settings.InviteStorage.DBType = DatabaseType.DBTypeFake
          then some mem.newInviteStorage else none) := by
  refine ⟨_, rfl, ?_, ?_, ?_, ?_, ?_, ?_⟩
  · simp only [apply_ite fake.PartialDatabaseComposer.newAppStorage, ite_self]
  · simp only [apply_ite fake.PartialDatabaseComposer.newUserStorage, ite_self]
  · simp only [apply_ite fake.PartialDatabaseComposer.newTokenStorage, ite_self]
  · simp only [apply_ite fake.PartialDatabaseComposer.newTokenBlacklist, ite_self]
  · simp only [apply_ite fake.PartialDatabaseComposer.newVerificationCodeStorage, ite_self]
  · simp only [apply_ite fake.PartialDatabaseComposer.newInviteStorage, ite_self]

/-- The constructors of the BoltDB composer after the six tests on the backend types: each
is set exactly for a kind configured with `DBTypeBoltDB`. -/
theorem bolt_baseComposer_fields {DB A U T B V I : Type}
    (bolt : boltdb.DatabaseComposer DB A U T B V I) (settings : StorageSettings) :
    (boltdb.baseComposer bolt settings).1.newAppStorage
        = (if settings.AppStorage.DBType = DatabaseType.DBTypeBoltDB
            then some bolt.newAppStorage else none)
    ∧ (boltdb.baseComposer bolt settings).1.newUserStorage
        = (if settings.UserStorage.DBType = DatabaseType.DBTypeBoltDB
            then some bolt.newUserStorage else none)
    ∧ (boltdb.baseComposer bolt settings).1.newTokenStorage
        = (if settings.TokenStorage.DBType = DatabaseType.DBTypeBoltDB
            then some bolt.newTokenStorage else none)
    ∧ (boltdb.baseComposer bolt settings).1.newTokenBlacklist
        = (if settings.TokenBlacklist.DBType = DatabaseType.DBTypeBoltDB
            then some bolt.newTokenBlacklist else none)
    ∧ (boltdb.baseComposer bolt settings).1.newVerificationCodeStorage
        = (if settings.VerificationCodeStorage.DBType = DatabaseType.DBTypeBoltDB
            then some bolt.newVerificationCodeStorage else none)
    ∧ (boltdb.baseComposer bolt settings).1.newInviteStorage
        = (if settings.InviteStorage.DBType = DatabaseType.DBTypeBoltDB
            then some bolt.newInviteStorage else none) := by
  unfold boltdb.baseComposer
  refine ⟨?_, ?_, ?_, ?_, ?_, ?_⟩
  · simp only [apply_ite Prod.fst, apply_ite boltdb.PartialDatabaseComposer.newAppStorage,
      ite_self]
  · simp only [apply_ite Prod.fst, apply_ite boltdb.PartialDatabaseComposer.newUserStorage,
      ite_self]
  · simp only [apply_ite Prod.fst, apply_ite boltdb.PartialDatabaseComposer.newTokenStorage,
      ite_self]
  · simp only [apply_ite Prod.fst, apply_ite boltdb.PartialDatabaseComposer.newTokenBlacklist,
      ite_self]
  · simp only [apply_ite Prod.fst,
      apply_ite boltdb.PartialDatabaseComposer.newVerificationCodeStorage, ite_self]
  · simp only [apply_ite Prod.fst, apply_ite boltdb.PartialDatabaseComposer.newInviteStorage,
      ite_self]

/-- C11: a partial composer built with no options answers, for each of the six storage
kinds, with a non-nil builder exactly when the backend type configured for that kind is the
composer's own: `DBTypeFake` for the in-memory composer, which is always built, and
`DBTypeBoltDB` for the BoltDB composer, which is built when `NewPartialComposer` returns a
nil error. -/
theorem NewPartialComposer_builders {DB A U T B V I : Type}
    (mem : fake.DatabaseComposer A U T B V I) (InitDB : String → Option DB × Option Error)
    (bolt : boltdb.DatabaseComposer DB A U T B V I) (settings : StorageSettings) :
    (∃ pc, fake.NewPartialComposer mem settings [] = (some pc, none)
      ∧ (pc.AppStorageComposer.isSome = true
          ↔ settings.AppStorage.DBType = DatabaseType.DBTypeFake)
      ∧ (pc.UserStorageComposer.isSome = true
          ↔ settings.UserStorage.DBType = DatabaseType.DBTypeFake)
      ∧ (pc.TokenStorageComposer.isSome = true
          ↔ settings.TokenStorage.DBType = DatabaseType.DBTypeFake)
      ∧ (pc.TokenBlacklistComposer.isSome = true
          ↔ settings.TokenBlacklist.DBType = DatabaseType.DBTypeFake)
      ∧ (pc.VerificationCodeStorageComposer.isSome = true
          ↔ settings.VerificationCodeStorage.DBType = DatabaseType.DBTypeFake)
      ∧ (pc.InviteStorageComposer.isSome = true
          ↔ settings.InviteStorage.DBType = DatabaseType.DBTypeFake))
    ∧ ((boltdb.NewPartialComposer InitDB bolt settings []).2 = none →
      ∃ pc, boltdb.NewPartialComposer InitDB bolt settings [] = (some pc, none)
        ∧ (pc.AppStorageComposer.isSome = true
            ↔ settings.AppStorage.DBType = DatabaseType.DBTypeBoltDB)
        ∧ (pc.UserStorageComposer.isSome = true
            ↔ settings.UserStorage.DBType = DatabaseType.DBTypeBoltDB)
        ∧ (pc.TokenStorageComposer.isSome = true
            ↔ settings.TokenStorage.DBType = DatabaseType.DBTypeBoltDB)
        ∧ (pc.TokenBlacklistComposer.isSome = true
            ↔ settings.TokenBlacklist.DBType = DatabaseType.DBTypeBoltDB)
        ∧ (pc.VerificationCodeStorageComposer.isSome = true
            ↔ settings.VerificationCodeStorage.DBType = DatabaseType.DBTypeBoltDB)
        ∧ (pc.InviteStorageComposer.isSome = true
            ↔ settings.InviteStorage.DBType = DatabaseType.DBTypeBoltDB)) := by
  constructor
  · obtain ⟨pc, hpc, h1, h2, h3, h4, h5, h6⟩ := fake_NewPartialComposer_fields mem settings
    refine ⟨pc, hpc, ?_, ?_, ?_, ?_, ?_, ?_⟩
    · simp only [fake.PartialDatabaseComposer.AppStorageComposer, h1]
      split_ifs <;> simp_all
    · simp only [fake.PartialDatabaseComposer.UserStorageComposer, h2]
      split_ifs <;> simp_all
    · simp only [fake.PartialDatabaseComposer.TokenStorageComposer, h3]
      split_ifs <;> simp_all
    · simp only [fake.PartialDatabaseComposer.TokenBlacklistComposer, h4]
      split_ifs <;> simp_all
    · simp only [fake.PartialDatabaseComposer.VerificationCodeStorageComposer, h5]
      split_ifs <;> simp_all
    · simp only [fake.PartialDatabaseComposer.InviteStorageComposer, h6]
      split_ifs <;> simp_all
  · intro hnil
    obtain ⟨h1, h2, h3, h4, h5, h6⟩ := bolt_baseComposer_fields bolt settings
    unfold boltdb.NewPartialComposer boltdb.NewPartialComposerRun at hnil ⊢
    simp only [] at hnil ⊢
    split_ifs at hnil ⊢ with hdb
    · exact absurd hnil hdb
    · refine ⟨_, rfl, ?_, ?_, ?_, ?_, ?_, ?_⟩
      · simp only [boltdb.PartialDatabaseComposer.AppStorageComposer, h1]
        split_ifs <;> simp_all
      · simp only [boltdb.PartialDatabaseComposer.UserStorageComposer, h2]
        split_ifs <;> simp_all
      · simp only [boltdb.PartialDatabaseComposer.TokenStorageComposer, h3]
        split_ifs <;> simp_all
      · simp only [boltdb.PartialDatabaseComposer.TokenBlacklistComposer, h4]
        split_ifs <;> simp_all
      · simp only [boltdb.PartialDatabaseComposer.VerificationCodeStorageComposer, h5]
        split_ifs <;> simp_all
      · simp only [boltdb.PartialDatabaseComposer.InviteStorageComposer, h6]
        split_ifs <;> simp_all

/-- C11 (witness): with the users and the invites on BoltDB and the token blacklist in
memory, the BoltDB partial composer is built and has a builder for the users and none for
the token blacklist. -/
theorem NewPartialComposer_builders_witness :
    ∃ pc, boltdb.NewPartialComposer (stubInitDB none) (stubBolt none) mixedSettings []
        = (some pc, none)
      ∧ pc.UserStorageComposer.isSome = true
      ∧ pc.TokenBlacklistComposer.isSome = false := by
  obtain ⟨pc, hpc, _, h2, _, h4, _, _⟩ :=
    (NewPartialComposer_builders (stubFake none) (stubInitDB none) (stubBolt none)
      mixedSettings).2 rfl
  refine ⟨pc, hpc, h2.2 rfl, ?_⟩
  cases h : pc.TokenBlacklistComposer.isSome with
  | false => rfl
  | true => exact absurd (h4.1 h) (by decide)

/-! ## Theorems: the MongoDB user storage -/

/-- C13 (the code at the failing input): with `alice0001` stored under the password
`Secret1`, the name `alice`, which is only a part of that login name, authenticates with
that password as `alice0001`, while the strict existence check on the same name finds
nobody; and with `alice0001x` stored in front, the exact name `alice0001` with its right
password is answered with not-found, the first document the pattern meets being the other
user's. -/
theorem UserByNamePassword_partial_match :
    sameNameUpToCase "alice" storedAlice.Name = false
    ∧ mongo.UserStorage.UserByNamePassword stubExternals [storedAlice] "alice" "Secret1"
        = (some { storedAlice with Pswd := "" }, none)
    ∧ mongo.UserStorage.CheckIfUserExistByName stubExternals [storedAlice] "alice" = false
    ∧ sameNameUpToCase "alice0001" storedAlice.Name = true
    ∧ stubExternals.CompareHashAndPassword storedAlice.Pswd "Secret1" = true
    ∧ mongo.UserStorage.UserByNamePassword stubExternals [storedOther, storedAlice]
        "alice0001" "Secret1" = (none, some Error.ErrorNotFound) := by
  refine ⟨by decide, by decide, by decide, by decide, by decide, by decide⟩

/-- C14: whatever the stored users, `UserByNamePassword` answers a name that no document
matches and a password that does not verify with the same pair, a nil user and
`ErrorNotFound`, which is the only error it ever returns; and `LoginWithPassword` answers
every two requests whose credential check returns that error with the same response: the
code `ErrorAPIRequestIncorrectEmailOrPassword`, the status 401 and the message of the
error. -/
theorem UserByNamePassword_one_failure {σ π τ : Type} (ext : mongo.Externals)
    (users : List mongo.userData) (ar : Router σ π τ) :
    (∀ name password, users.find? (fun u => ext.regexMatch name u.Name) = none →
        mongo.UserStorage.UserByNamePassword ext users name password
          = (none, some Error.ErrorNotFound))
    ∧ (∀ name password u, users.find? (fun u => ext.regexMatch name u.Name) = some u →
        ext.CompareHashAndPassword u.Pswd password = false →
        mongo.UserStorage.UserByNamePassword ext users name password
          = (none, some Error.ErrorNotFound))
    ∧ (∀ name password,
        (mongo.UserStorage.UserByNamePassword ext users name password).2 ≠ none →
        mongo.UserStorage.UserByNamePassword ext users name password
          = (none, some Error.ErrorNotFound))
    ∧ (∀ (r1 r2 : Request) (ld1 ld2 : loginData) (w1 w2 : World σ π),
        ar.SupportedLoginWays.Username = true →
        r1.body = some ld1 → r2.body = some ld2 →
        ld1.validate = none → ld2.validate = none →
        (ar.userStorage.UserByNamePassword ld1.Username ld1.Password w1.st).1.2
          = some Error.ErrorNotFound →
        (ar.userStorage.UserByNamePassword ld2.Username ld2.Password w2.st).1.2
          = some Error.ErrorNotFound →
        (LoginWithPassword ar r1 w1).1
          = Response.Error APIErrorCode.ErrorAPIRequestIncorrectEmailOrPassword
              StatusUnauthorized (Message.ofError Error.ErrorNotFound)
              "LoginWithPassword.UserByNamePassword"
        ∧ (LoginWithPassword ar r2 w2).1 = (LoginWithPassword ar r1 w1).1) := by
  refine ⟨?_, ?_, ?_, ?_⟩
  · intro name password h
    simp only [mongo.UserStorage.UserByNamePassword, h]
  · intro name password u h hc
    simp only [mongo.UserStorage.UserByNamePassword, h, hc, if_true]
  · intro name password hne
    cases hfind : users.find? (fun u => ext.regexMatch name u.Name) with
    | none => simp only [mongo.UserStorage.UserByNamePassword, hfind]
    | some u =>
      simp only [mongo.UserStorage.UserByNamePassword, hfind] at hne ⊢
      split_ifs at hne ⊢ with hc
      · rfl
      · exact absurd rfl hne
  · intro r1 r2 ld1 ld2 w1 w2 hs hb1 hb2 hv1 hv2 he1 he2
    have key : ∀ (r : Request) (ld : loginData) (w : World σ π), r.body = some ld →
        ld.validate = none →
        (ar.userStorage.UserByNamePassword ld.Username ld.Password w.st).1.2
          = some Error.ErrorNotFound →
        (LoginWithPassword ar r w).1
          = Response.Error APIErrorCode.ErrorAPIRequestIncorrectEmailOrPassword
              StatusUnauthorized (Message.ofError Error.ErrorNotFound)
              "LoginWithPassword.UserByNamePassword" := by
      intro r ld w hb hv he
      unfold LoginWithPassword
      simp only [hb, hv, World.call_fst, he]
      rw [if_neg (by simp [hs])]
    rw [key r2 ld2 w2 hb2 hv2 he2, key r1 ld1 w1 hb1 hv1 he1]
    exact ⟨rfl, rfl⟩

/-- C14 (witness): an unknown name and a wrong password against the stored `alice0001`. -/
theorem UserByNamePassword_one_failure_witness :
    mongo.UserStorage.UserByNamePassword stubExternals [storedAlice] "bob00001" "Secret1"
      = (none, some Error.ErrorNotFound)
    ∧ mongo.UserStorage.UserByNamePassword stubExternals [storedAlice] "alice0001" "Wrong99"
      = (none, some Error.ErrorNotFound) :=
  ⟨(UserByNamePassword_one_failure stubExternals [storedAlice]
      (stubRouter TFAType.SMS none none)).1 "bob00001" "Secret1" (by decide),
    (UserByNamePassword_one_failure stubExternals [storedAlice]
      (stubRouter TFAType.SMS none none)).2.1 "alice0001" "Wrong99" storedAlice (by decide)
      (by decide)⟩

/-- C17 (the code at the failing input): with `alice0001` stored, the lookup by ID that
`AddUserByNameAndPassword` runs on the name fails with `ErrorWrongDataFormat`, the name being
no object ID, so the call returns a nil error and the collection ends with two users named
`alice0001`. -/
theorem AddUserByNameAndPassword_duplicate_name :
    mongo.UserStorage.UserByID [storedAlice] "alice0001"
        = (none, some Error.ErrorWrongDataFormat)
    ∧ (mongo.UserStorage.AddUserByNameAndPassword stubExternals "5d1b6e2e9f1c2a3b4c5d6e80"
        none [storedAlice] "alice0001" "Secret2" none).1.2 = none
    ∧ (mongo.UserStorage.AddUserByNameAndPassword stubExternals "5d1b6e2e9f1c2a3b4c5d6e80"
        none [storedAlice] "alice0001" "Secret2" none).2.map (fun u => u.Name)
        = ["alice0001", "alice0001"] := by
  refine ⟨by decide, by decide, by decide⟩

/-! ## Theorems: the invite storage -/

/-- A Go string has length zero exactly when it is the empty string. -/
theorem utf8ByteSize_eq_zero (s : String) : s.utf8ByteSize = 0 ↔ s = "" := by
  constructor
  · intro h
    cases s with
    | mk cs =>
      cases cs with
      | nil => rfl
      | cons c cs =>
        simp only [String.utf8ByteSize_mk, String.utf8Len_cons] at h
        have := Char.utf8Size_pos c
        omega
  · intro h
    subst h
    rfl

/-- C15: `Save` returns `ErrorWrongDataFormat` for an empty token, and the error of
`Validate` for an empty email or a zero expiry, in each case without touching the
collection and whatever the insertion would do; `Validate` returns an error exactly when the
email is empty or the expiry is the zero time; and `Save` hands the invite to the insertion
exactly when the token is non-empty and `Validate` returns nil. -/
theorem Save_rejects_invalid (InsertOne : List Invite → Invite → Option Error × List Invite)
    (newObjectID : String) (now : Time) (coll : List Invite)
    (email inviteToken role appID createdBy : String) (expiresAt : Time) :
    (inviteToken = "" →
      mongo.InviteStorage.Save InsertOne newObjectID now coll email inviteToken role appID
        createdBy expiresAt = (some Error.ErrorWrongDataFormat, coll))
    ∧ (inviteToken = "" ∨ email = "" ∨ IsZero expiresAt = true →
      (mongo.InviteStorage.Save InsertOne newObjectID now coll email inviteToken role appID
        createdBy expiresAt).1 ≠ none
      ∧ (mongo.InviteStorage.Save InsertOne newObjectID now coll email inviteToken role appID
        createdBy expiresAt).2 = coll)
    ∧ (∀ i : Invite, i.Validate ≠ none ↔ (i.Email = "" ∨ IsZero i.ExpiresAt = true))
    ∧ (inviteToken ≠ "" →
      (mongo.InviteStorage.newInvite newObjectID now email inviteToken role appID createdBy
        expiresAt).Validate = none →
      mongo.InviteStorage.Save InsertOne newObjectID now coll email inviteToken role appID
        createdBy expiresAt
        = InsertOne coll (mongo.InviteStorage.newInvite newObjectID now email inviteToken role
            appID createdBy expiresAt)) := by
  have hval : ∀ i : Invite, i.Validate ≠ none ↔ (i.Email = "" ∨ IsZero i.ExpiresAt = true) := by
    intro i
    unfold Invite.Validate
    split_ifs with h1 h2
    · simp [h1]
    · simp [h2]
    · simp [h1, h2]
  refine ⟨?_, ?_, hval, ?_⟩
  · intro ht
    unfold mongo.InviteStorage.Save
    rw [if_pos ((utf8ByteSize_eq_zero _).2 ht)]
  · intro h
    unfold mongo.InviteStorage.Save
    simp only []
    split_ifs with h1 h2
    · exact ⟨by simp, rfl⟩
    · exact ⟨h2, rfl⟩
    · exfalso
      rcases h with h | h | h
      · exact h1 ((utf8ByteSize_eq_zero _).2 h)
      · exact h2 ((hval _).2 (Or.inl h))
      · exact h2 ((hval _).2 (Or.inr h))
  · intro ht hv
    unfold mongo.InviteStorage.Save
    simp only []
    rw [if_neg (fun h => ht ((utf8ByteSize_eq_zero _).1 h)), if_neg (by simp [hv])]

/-- C15 (witness): an empty token, and a valid invite handed to the insertion. -/
theorem Save_rejects_invalid_witness :
    mongo.InviteStorage.Save appendInvite "id1" 1000 [] "a@b.com" "" "admin" "app1" "creator1"
        5000 = (some Error.ErrorWrongDataFormat, [])
    ∧ mongo.InviteStorage.Save appendInvite "id1" 1000 [] "a@b.com" "tok123" "admin" "app1"
        "creator1" 5000
      = appendInvite [] (mongo.InviteStorage.newInvite "id1" 1000 "a@b.com" "tok123" "admin"
          "app1" "creator1" 5000) :=
  ⟨(Save_rejects_invalid appendInvite "id1" 1000 [] "a@b.com" "" "admin" "app1" "creator1"
      5000).1 rfl,
    (Save_rejects_invalid appendInvite "id1" 1000 [] "a@b.com" "tok123" "admin" "app1"
      "creator1" 5000).2.2.2 (by decide) (by decide)⟩

/-- C16 (the code at the failing input): `Save` of a valid invite on an empty collection
succeeds and stores the invite with `Archived = true`; `GetByEmail` for its email then
returns the zero invite and an error, whatever the server does with the operator `$qt` of
the filter. -/
theorem Save_then_GetByEmail_fails :
    mongo.InviteStorage.Save appendInvite "id1" 1000 [] "a@b.com" "tok123" "admin" "app1"
        "creator1" 5000
      = (none, [⟨"id1", "app1", "tok123", true, "a@b.com", "admin", "creator1", 1000, 5000⟩])
    ∧ ∀ qt : Option (Time → Time → Bool),
        (mongo.InviteStorage.GetByEmail qt 2000
          (mongo.InviteStorage.Save appendInvite "id1" 1000 [] "a@b.com" "tok123" "admin"
            "app1" "creator1" 5000).2 "a@b.com").1 = Invite.zero
        ∧ (mongo.InviteStorage.GetByEmail qt 2000
          (mongo.InviteStorage.Save appendInvite "id1" 1000 [] "a@b.com" "tok123" "admin"
            "app1" "creator1" 5000).2 "a@b.com").2 ≠ none := by
  have hsave : mongo.InviteStorage.Save appendInvite "id1" 1000 [] "a@b.com" "tok123" "admin"
      "app1" "creator1" 5000
      = (none, [⟨"id1", "app1", "tok123", true, "a@b.com", "admin", "creator1", 1000, 5000⟩]) := by
    decide
  refine ⟨hsave, ?_⟩
  intro qt
  rw [hsave]
  cases qt with
  | none => exact ⟨rfl, by simp [mongo.InviteStorage.GetByEmail]⟩
  | some cmp => exact ⟨by simp [mongo.InviteStorage.GetByEmail], by simp [mongo.InviteStorage.GetByEmail]⟩

/-! ## Theorems: which error of the gate ends the login flow -/

/-- The guard of `loginFlow` on the answer of `check2FA` holds exactly for a Disabled app
and a user with TFA enabled, and the error is then the must-disable one. -/
theorem check2FA_guard_iff (appTFAStatus : TFAStatus) (serverTFAType : TFAType) (user : User) :
    (((check2FA appTFAStatus serverTFAType user).1 = false
        ∧ (check2FA appTFAStatus serverTFAType user).2.1 = true
        ∧ (check2FA appTFAStatus serverTFAType user).2.2 ≠ none)
      ↔ (appTFAStatus = TFAStatus.Disabled ∧ user.TFAInfo.IsEnabled = true))
    ∧ (appTFAStatus = TFAStatus.Disabled → user.TFAInfo.IsEnabled = true →
        check2FA appTFAStatus serverTFAType user
          = (false, true, some Error.errPleaseDisableTFA))
    ∧ (∀ e, (check2FA appTFAStatus serverTFAType user).2.2 = some e →
        ¬ (appTFAStatus = TFAStatus.Disabled ∧ user.TFAInfo.IsEnabled = true) →
        (check2FA appTFAStatus serverTFAType user).1 = true
        ∧ (check2FA appTFAStatus serverTFAType user).2.1 = false
        ∧ (e = Error.errPleaseEnableTFA ∨ e = Error.errPleaseSetPhoneTFA
            ∨ e = Error.errPleaseSetEmailTFA)) := by
  refine ⟨?_, ?_, ?_⟩
  · unfold check2FA
    split_ifs <;> simp_all
  · intro hs he
    simp [check2FA, hs, he]
  · intro e he hn
    unfold check2FA at he ⊢
    split_ifs at he ⊢ <;> simp_all

/-- A payload lookup that fails has made a call. -/
theorem getTokenPayloadForApp_fail_calls {σ π τ : Type} (ar : Router σ π τ) (app : AppData)
    (user : User) (w : World σ π) (h : (getTokenPayloadForApp ar app user w).1.2 ≠ none) :
    w.log.length + 1 ≤ (getTokenPayloadForApp ar app user w).2.log.length := by
  unfold getTokenPayloadForApp at h ⊢
  split_ifs at h ⊢ with hhttp
  · cases hl : w.tokenPayloadServices.lookup app.ID with
    | some ps => simp
    | none =>
      simp only [hl] at h ⊢
      split_ifs with h2
      · simp
      · simp
  · exact absurd rfl h

/-- Past the gate, `loginFlow` makes at least one call after `RequestScopes`. -/
theorem loginFlow_log_length {σ π τ : Type} (ar : Router σ π τ) (app : AppData) (user : User)
    (scopes : List String) (w : World σ π)
    (hrs : (ar.userStorage.RequestScopes user.ID scopes w.st).1.2 = none)
    (hgate : ¬ ((check2FA app.TFAStatus ar.tfaType user).1 = false
      ∧ (check2FA app.TFAStatus ar.tfaType user).2.1 = true
      ∧ (check2FA app.TFAStatus ar.tfaType user).2.2 ≠ none)) :
    w.log.length + 2 ≤ (loginFlow ar app user scopes w).2.log.length := by
  have hlp := getTokenPayloadForApp_log ar app user
    (w.call (Call.RequestScopes user.ID scopes) (ar.userStorage.RequestScopes user.ID scopes)).2
  obtain ⟨lp, hlp, -⟩ := hlp
  have hlen1 : (w.call (Call.RequestScopes user.ID scopes)
      (ar.userStorage.RequestScopes user.ID scopes)).2.log.length = w.log.length + 1 := by
    simp
  unfold loginFlow
  simp only []
  rw [if_neg (by rw [World.call_fst, hrs]; simp), if_neg hgate]
  split_ifs with h3 h4 h5 h6
  · have := getTokenPayloadForApp_fail_calls ar app user _ h3
    simp only [World.call_log, List.length_append, List.length_singleton] at this ⊢
    omega
  · obtain ⟨lu, hlu, -⟩ := loginUser_log ar user
      (w.call (Call.RequestScopes user.ID scopes)
        (ar.userStorage.RequestScopes user.ID scopes)).1.1 app
      (contains (w.call (Call.RequestScopes user.ID scopes)
        (ar.userStorage.RequestScopes user.ID scopes)).1.1 OfflineScope)
      (check2FA app.TFAStatus ar.tfaType user).1 _ _
    rw [hlu, hlp]
    simp only [List.length_append, List.length_cons, World.call_log, List.length_nil]
    omega
  · obtain ⟨lu, hlu, -⟩ := loginUser_log ar user
      (w.call (Call.RequestScopes user.ID scopes)
        (ar.userStorage.RequestScopes user.ID scopes)).1.1 app
      (contains (w.call (Call.RequestScopes user.ID scopes)
        (ar.userStorage.RequestScopes user.ID scopes)).1.1 OfflineScope)
      (check2FA app.TFAStatus ar.tfaType user).1 _ _
    obtain ⟨lo, hlo, -⟩ := sendOTPCode_log ar user _
    rw [hlo, hlu, hlp]
    simp only [List.length_append, List.length_cons, World.call_log, List.length_nil]
    omega
  · obtain ⟨lu, hlu, -⟩ := loginUser_log ar user
      (w.call (Call.RequestScopes user.ID scopes)
        (ar.userStorage.RequestScopes user.ID scopes)).1.1 app
      (contains (w.call (Call.RequestScopes user.ID scopes)
        (ar.userStorage.RequestScopes user.ID scopes)).1.1 OfflineScope)
      (check2FA app.TFAStatus ar.tfaType user).1 _ _
    obtain ⟨lo, hlo, -⟩ := sendOTPCode_log ar user _
    rw [hlo, hlu, hlp]
    simp only [List.length_append, List.length_cons, World.call_log, List.length_nil]
    omega
  · obtain ⟨lu, hlu, -⟩ := loginUser_log ar user
      (w.call (Call.RequestScopes user.ID scopes)
        (ar.userStorage.RequestScopes user.ID scopes)).1.1 app
      (contains (w.call (Call.RequestScopes user.ID scopes)
        (ar.userStorage.RequestScopes user.ID scopes)).1.1 OfflineScope)
      (check2FA app.TFAStatus ar.tfaType user).1 _ _
    rw [World.run_log, hlu, hlp]
    simp only [List.length_append, List.length_cons, World.call_log, List.length_nil]
    omega

/-- C21: when `RequestScopes` succeeds, `loginFlow` returns the error of `check2FA` at its
gate exactly for a Disabled app and a user with TFA enabled: it then returns the
must-disable error and the zero response right after `RequestScopes`, with no other call in
the log, and in every other case its log goes on past `RequestScopes`.  Every other error
of `check2FA` (must-enable, must-set-phone, must-set-email) comes with required and not
ready and is discarded: the flow goes on to the payload lookup and, when that succeeds, to
`NewAccessToken` with `require2FA = true`, and returns a nil error when scope negotiation,
the payload provider and the token service succeed. -/
theorem loginFlow_gate {σ π τ : Type} (ar : Router σ π τ) (app : AppData) (user : User)
    (scopes : List String) (w : World σ π)
    (hrs : (ar.userStorage.RequestScopes user.ID scopes w.st).1.2 = none) :
    (app.TFAStatus = TFAStatus.Disabled → user.TFAInfo.IsEnabled = true →
      loginFlow ar app user scopes w
        = ((AuthResponse.zero, some Error.errPleaseDisableTFA),
            (w.call (Call.RequestScopes user.ID scopes)
              (ar.userStorage.RequestScopes user.ID scopes)).2))
    ∧ ((loginFlow ar app user scopes w).2.log = w.log ++ [Call.RequestScopes user.ID scopes]
        ↔ (app.TFAStatus = TFAStatus.Disabled ∧ user.TFAInfo.IsEnabled = true))
    ∧ (∀ e, (check2FA app.TFAStatus ar.tfaType user).2.2 = some e →
        ¬ (app.TFAStatus = TFAStatus.Disabled ∧ user.TFAInfo.IsEnabled = true) →
        (e = Error.errPleaseEnableTFA ∨ e = Error.errPleaseSetPhoneTFA
          ∨ e = Error.errPleaseSetEmailTFA)
        ∧ ((getTokenPayloadForApp ar app user
              (w.call (Call.RequestScopes user.ID scopes)
                (ar.userStorage.RequestScopes user.ID scopes)).2).1.2 = none →
            ∃ p l, (loginFlow ar app user scopes w).2.log
                = w.log ++ Call.RequestScopes user.ID scopes :: l
              ∧ Call.NewAccessToken user (negotiated ar user scopes w) app true p ∈ l)
        ∧ (ar.issuanceSucceeds → (loginFlow ar app user scopes w).1.2 = none)) := by
  obtain ⟨hguard, hdisable, hother⟩ := check2FA_guard_iff app.TFAStatus ar.tfaType user
  have habort : app.TFAStatus = TFAStatus.Disabled → user.TFAInfo.IsEnabled = true →
      loginFlow ar app user scopes w
        = ((AuthResponse.zero, some Error.errPleaseDisableTFA),
            (w.call (Call.RequestScopes user.ID scopes)
              (ar.userStorage.RequestScopes user.ID scopes)).2) := by
    intro hs he
    unfold loginFlow
    simp only []
    rw [if_neg (by rw [World.call_fst, hrs]; simp), if_pos (hguard.2 ⟨hs, he⟩),
      hdisable hs he]
  refine ⟨habort, ?_, ?_⟩
  · constructor
    · intro hlog
      by_contra hn
      have hlen := loginFlow_log_length ar app user scopes w hrs (fun h => hn (hguard.1 h))
      rw [hlog] at hlen
      simp at hlen
    · rintro ⟨hs, he⟩
      rw [habort hs he]
      rfl
  · intro e he hn
    obtain ⟨hreq, hnot, hkind⟩ := hother e he hn
    have hgate : ¬ ((check2FA app.TFAStatus ar.tfaType user).1 = false
        ∧ (check2FA app.TFAStatus ar.tfaType user).2.1 = true
        ∧ (check2FA app.TFAStatus ar.tfaType user).2.2 ≠ none) := fun h => hn (hguard.1 h)
    refine ⟨hkind, ?_, ?_⟩
    · intro htp
      obtain ⟨lp, hlp, -⟩ := getTokenPayloadForApp_log ar app user
        (w.call (Call.RequestScopes user.ID scopes)
          (ar.userStorage.RequestScopes user.ID scopes)).2
      obtain ⟨lu, hlu, -⟩ := loginUser_log ar user (negotiated ar user scopes w) app
        (contains (negotiated ar user scopes w) OfflineScope)
        (check2FA app.TFAStatus ar.tfaType user).1
        (getTokenPayloadForApp ar app user
          (w.call (Call.RequestScopes user.ID scopes)
            (ar.userStorage.RequestScopes user.ID scopes)).2).1.1
        (getTokenPayloadForApp ar app user
          (w.call (Call.RequestScopes user.ID scopes)
            (ar.userStorage.RequestScopes user.ID scopes)).2).2
      rw [hlp, World.call_log] at hlu
      unfold loginFlow
      simp only []
      rw [if_neg (by rw [World.call_fst, hrs]; simp), if_neg hgate,
        if_neg (by simp [htp])]
      have hnp : ¬ ((check2FA app.TFAStatus ar.tfaType user).1 = true
          ∧ (check2FA app.TFAStatus ar.tfaType user).2.1 = true) := by
        rw [hnot]; simp
      rw [if_neg hnp]
      split_ifs with h4
      · refine ⟨(getTokenPayloadForApp ar app user
            (w.call (Call.RequestScopes user.ID scopes)
              (ar.userStorage.RequestScopes user.ID scopes)).2).1.1,
          lp ++ Call.NewAccessToken user (negotiated ar user scopes w) app true
            (getTokenPayloadForApp ar app user
              (w.call (Call.RequestScopes user.ID scopes)
                (ar.userStorage.RequestScopes user.ID scopes)).2).1.1 :: lu, ?_, by simp⟩
        show (loginUser ar user (negotiated ar user scopes w) app
          (contains (negotiated ar user scopes w) OfflineScope)
          (check2FA app.TFAStatus ar.tfaType user).1 _ _).2.log = _
        rw [hlu, hreq]
        simp
      · refine ⟨(getTokenPayloadForApp ar app user
            (w.call (Call.RequestScopes user.ID scopes)
              (ar.userStorage.RequestScopes user.ID scopes)).2).1.1,
          lp ++ Call.NewAccessToken user (negotiated ar user scopes w) app true
            (getTokenPayloadForApp ar app user
              (w.call (Call.RequestScopes user.ID scopes)
                (ar.userStorage.RequestScopes user.ID scopes)).2).1.1 ::
            (lu ++ [Call.UpdateLoginMetadata user.ID]), ?_, by simp⟩
        show (loginUser ar user (negotiated ar user scopes w) app
          (contains (negotiated ar user scopes w) OfflineScope)
          (check2FA app.TFAStatus ar.tfaType user).1 _ _).2.log
            ++ [Call.UpdateLoginMetadata user.ID] = _
        rw [hlu, hreq]
        simp
    · intro hi
      have hnp : ¬ ((check2FA app.TFAStatus ar.tfaType user).1 = true
          ∧ (check2FA app.TFAStatus ar.tfaType user).2.1 = true) := by
        rw [hnot]; simp
      unfold loginFlow
      simp only []
      rw [if_neg (by rw [World.call_fst, hrs]; simp), if_neg hgate,
        if_neg (by simpa using getTokenPayloadForApp_ok ar app user _ hi),
        if_neg (by simpa using (loginUser_ok ar user _ app _ _ _ _ hi).1), if_neg hnp]

/-- C21 (witness): the user with TFA on at a Disabled app: `loginFlow` stops with the
must-disable error after `RequestScopes`. -/
theorem loginFlow_gate_witness :
    loginFlow (stubRouter TFAType.SMS none none) (stubApp TFAStatus.Disabled) aliceTFA
        ["offline"] (World.fresh () [])
      = ((AuthResponse.zero, some Error.errPleaseDisableTFA),
          ⟨(), [], [Call.RequestScopes "alice0001" ["offline"]]⟩) :=
  (loginFlow_gate (stubRouter TFAType.SMS none none) (stubApp TFAStatus.Disabled) aliceTFA
    ["offline"] (World.fresh () []) rfl).1 rfl rfl

/-! ## Theorems: the JSON form of a session duration -/

/-- A value in the 64-bit range wraps to itself. -/
theorem wrapInt64_of_inInt64 (x : Int) (h : inInt64 x) : wrapInt64 x = x := by
  obtain ⟨h1, h2⟩ := h
  unfold wrapInt64
  omega

/-- The whole seconds of a duration, counted back in nanoseconds, stay between zero and the
duration. -/
theorem tdiv_Second_bounds (d : Int) :
    (0 ≤ d → 0 ≤ d.tdiv 1000000000 * 1000000000 ∧ d.tdiv 1000000000 * 1000000000 ≤ d)
    ∧ (d ≤ 0 → d ≤ d.tdiv 1000000000 * 1000000000 ∧ d.tdiv 1000000000 * 1000000000 ≤ 0) := by
  constructor
  · intro h
    rw [Int.tdiv_eq_ediv h (by decide)]
    omega
  · intro h
    have hneg : d.tdiv 1000000000 = -((-d).tdiv 1000000000) := by
      rw [Int.neg_tdiv, neg_neg]
    rw [hneg, Int.tdiv_eq_ediv (by omega) (by decide)]
    omega

/-- C22 (counterexample): on the literal `null`, which is no integer, `UnmarshalJSON`
returns a nil error and changes a duration of five seconds to zero. -/
theorem UnmarshalJSON_null_resets :
    SessionDuration.UnmarshalJSON (some ⟨5000000000⟩) JSONData.null = (some ⟨0⟩, none) := by
  decide

/-- C22 (amended): for every 64-bit duration `d`, `MarshalJSON` writes the integer `d`
divided by one second, truncated toward zero, and `UnmarshalJSON` on that output leaves
exactly that many seconds; so decoding undoes encoding exactly when `d` is a whole multiple
of one second, and encoding the decoded duration gives the same output again.
`UnmarshalJSON` on a nil receiver returns nil and changes nothing; on an input the decoder
rejects (anything that is neither `null` nor an integer literal in the range of `int`) it
returns the decoder's error and leaves the duration unchanged; and on the literal `null` it
returns nil and sets the duration to zero. -/
theorem SessionDuration_json (d : Int) (hd : inInt64 d) (cur : SessionDuration) :
    SessionDuration.MarshalJSON ⟨d⟩ = (JSONData.integer (d.tdiv 1000000000), none)
    ∧ SessionDuration.UnmarshalJSON (some cur) (SessionDuration.MarshalJSON ⟨d⟩).1
        = (some ⟨d.tdiv 1000000000 * 1000000000⟩, none)
    ∧ (SessionDuration.UnmarshalJSON (some cur) (SessionDuration.MarshalJSON ⟨d⟩).1
          = (some ⟨d⟩, none) ↔ (1000000000 : Int) ∣ d)
    ∧ SessionDuration.MarshalJSON ⟨d.tdiv 1000000000 * 1000000000⟩
        = SessionDuration.MarshalJSON ⟨d⟩
    ∧ (∀ data, SessionDuration.UnmarshalJSON none data = (none, none))
    ∧ (∀ raw, ∃ e, SessionDuration.UnmarshalJSON (some cur) (JSONData.other raw)
        = (some cur, some e))
    ∧ (∀ n, ¬ inInt64 n →
        ∃ e, SessionDuration.UnmarshalJSON (some cur) (JSONData.integer n) = (some cur, some e))
    ∧ SessionDuration.UnmarshalJSON (some cur) JSONData.null = (some ⟨0⟩, none) := by
  have hq : inInt64 (d.tdiv 1000000000) := by
    obtain ⟨h1, h2⟩ := hd
    obtain ⟨hpos, hneg⟩ := tdiv_Second_bounds d
    constructor
    · rcases le_total 0 d with h | h
      · have := hpos h; omega
      · have := hneg h; omega
    · rcases le_total 0 d with h | h
      · have := hpos h; omega
      · have := hneg h; omega
  have hprod : inInt64 (1000000000 * d.tdiv 1000000000) := by
    obtain ⟨h1, h2⟩ := hd
    obtain ⟨hpos, hneg⟩ := tdiv_Second_bounds d
    constructor
    · rcases le_total 0 d with h | h
      · have := hpos h; omega
      · have := hneg h; omega
    · rcases le_total 0 d with h | h
      · have := hpos h; omega
      · have := hneg h; omega
  have hdec : SessionDuration.UnmarshalJSON (some cur) (SessionDuration.MarshalJSON ⟨d⟩).1
      = (some ⟨d.tdiv 1000000000 * 1000000000⟩, none) := by
    simp only [SessionDuration.UnmarshalJSON, SessionDuration.MarshalJSON, jsonUnmarshalInt,
      Second, if_pos hq]
    rw [if_neg (by simp), wrapInt64_of_inInt64 _ hprod, mul_comm]
  refine ⟨rfl, hdec, ?_, ?_, fun _ => rfl, ?_, ?_, ?_⟩
  · rw [hdec]
    simp only [Prod.mk.injEq, Option.some.injEq, SessionDuration.mk.injEq, and_true]
    constructor
    · intro h
      exact ⟨d.tdiv 1000000000, by rw [mul_comm]; exact h.symm⟩
    · intro h
      exact Int.tdiv_mul_cancel h
  · simp only [SessionDuration.MarshalJSON, Second]
    rw [Int.mul_tdiv_cancel _ (by decide)]
  · intro raw
    exact ⟨_, rfl⟩
  · intro n hn
    refine ⟨Error.external "json: cannot unmarshal number into Go value of type int", ?_⟩
    simp only [SessionDuration.UnmarshalJSON, jsonUnmarshalInt, if_neg hn]
    rw [if_pos (by simp)]
  · simp only [SessionDuration.UnmarshalJSON, jsonUnmarshalInt]
    rw [if_neg (by simp)]
    simp [wrapInt64, Second]

/-- C22 (witness): a duration of one second and a half is written as `1` and read back as
one second. -/
theorem SessionDuration_json_witness :
    SessionDuration.MarshalJSON ⟨1500000000⟩ = (JSONData.integer 1, none)
    ∧ SessionDuration.UnmarshalJSON (some ⟨7⟩) (SessionDuration.MarshalJSON ⟨1500000000⟩).1
        = (some ⟨1000000000⟩, none) := by
  have h := SessionDuration_json 1500000000 (by decide) ⟨7⟩
  exact ⟨by rw [h.1]; decide, by rw [h.2.1]; decide⟩

/-! ## Lemmas on the steps of the login flow -/

/-- On the required-and-ready path, once scope negotiation, the payload lookup and the token
issuance have returned nil errors, `loginFlow` ends with `sendOTPCode`, run in the world the
issuance leaves: the error of `sendOTPCode` is returned with the zero response, and without
one the response carries the access token of the issuance. -/
theorem loginFlow_pending_run {σ π τ : Type} (ar : Router σ π τ) (app : AppData) (user : User)
    (scopes : List String) (w : World σ π)
    (hreq : (check2FA app.TFAStatus ar.tfaType user).1 = true)
    (hready : (check2FA app.TFAStatus ar.tfaType user).2.1 = true)
    (hrs : (ar.userStorage.RequestScopes user.ID scopes w.st).1.2 = none)
    (htp : (payloadStep ar app user scopes w).1.2 = none)
    (hlu : (issuanceStep ar app user scopes w).1.2.2 = none) :
    loginFlow ar app user scopes w
      = if (sendOTPCode ar user (issuanceStep ar app user scopes w).2).1 ≠ none then
          ((AuthResponse.zero, (sendOTPCode ar user (issuanceStep ar app user scopes w).2).1),
            (sendOTPCode ar user (issuanceStep ar app user scopes w).2).2)
        else
          ((⟨(issuanceStep ar app user scopes w).1.1, (issuanceStep ar app user scopes w).1.2.1,
              user.Sanitized, true, true⟩, none),
            (sendOTPCode ar user (issuanceStep ar app user scopes w).2).2) := by
  unfold issuanceStep payloadStep negotiated at *
  unfold loginFlow
  simp only []
  rw [if_neg (by simpa using hrs), if_neg (by rw [hreq]; simp), if_neg (by simpa using htp),
    if_neg (by simpa using hlu), if_pos ⟨hreq, hready⟩]
  simp only [World.call_fst, hreq, hready]

/-! ## Theorems: the pending path -/

/-- Below the largest `int`, the increment of a counter does not wrap. -/
theorem wrapInt64_succ (c : Int) (hlo : -9223372036854775808 ≤ c)
    (hhi : c < 9223372036854775807) : wrapInt64 (c + 1) = c + 1 :=
  wrapInt64_of_inInt64 _ ⟨by omega, by omega⟩

/-- C8 (counterexample): for the user whose counter is the largest `int`, with SMS delivery,
the record handed to `UpdateUser` carries the counter `-9223372036854775808`, which is not
the counter read plus one, and the code that is sent is the one at that wrapped counter (no
stroke). -/
theorem sendOTPCode_counter_wraps :
    (sendOTPCode (stubRouter TFAType.SMS none none) aliceAtMax (World.fresh () [])).2.log
        = [Call.UpdateUser "alice0001"
            ⟨"alice0001", "alice@example.com", "+15550001", "hash", "user",
              ⟨true, -9223372036854775808, 43200000001000, "s3cr3t"⟩⟩,
          Call.SendSMS "+15550001" " is your one-time password!"]
    ∧ aliceAtMax.TFAInfo.HOTPCounter + 1 = 9223372036854775808 := by
  decide

/-- C8 (amended): for the server types SMS and Email, `sendOTPCode` first calls `UpdateUser`
with the user record whose counter is `next`, the counter it read incremented as a Go `int`
(the counter plus one below the largest `int`, the smallest `int` at the largest), and
whose expiry is now plus twelve hours, all other fields untouched; every call that follows
is a send of the code computed at `next`; if `UpdateUser` fails, `sendOTPCode` returns that
error and nothing is sent; if it succeeds and the user has the phone (or email), the code
is sent once. -/
theorem sendOTPCode_persists_before_sending {σ π τ : Type} (ar : Router σ π τ) (user : User)
    (w : World σ π) (ht : ar.tfaType = TFAType.SMS ∨ ar.tfaType = TFAType.Email) :
    ∃ next sends,
      next = wrapInt64 (user.TFAInfo.HOTPCounter + 1)
      ∧ (-9223372036854775808 ≤ user.TFAInfo.HOTPCounter →
          user.TFAInfo.HOTPCounter < 9223372036854775807 →
          next = user.TFAInfo.HOTPCounter + 1)
      ∧ (user.TFAInfo.HOTPCounter = 9223372036854775807 → next = -9223372036854775808)
      ∧ (sendOTPCode ar user w).2.log
        = w.log ++ Call.UpdateUser user.ID
            { user with TFAInfo :=
                { user.TFAInfo with
                  HOTPCounter := next
                  HOTPExpiredAt := ar.now w.st + 12 * (3600 * 1000000000) } } :: sends
      ∧ (∀ c ∈ sends,
          (ar.tfaType = TFAType.SMS ∧ c = Call.SendSMS user.Phone
            (ar.hotpAt user.TFAInfo.Secret next ++ " is your one-time password!"))
          ∨ (ar.tfaType = TFAType.Email ∧ c = Call.SendTFAEmail "One-time password" user.Email
            (ar.hotpAt user.TFAInfo.Secret next)))
      ∧ (∀ e, (ar.userStorage.UpdateUser user.ID
              { user with TFAInfo :=
                  { user.TFAInfo with
                    HOTPCounter := next
                    HOTPExpiredAt := ar.now w.st + 12 * (3600 * 1000000000) } } w.st).1.2 = some e →
          (sendOTPCode ar user w).1 = some e ∧ sends = [])
      ∧ ((ar.userStorage.UpdateUser user.ID
              { user with TFAInfo :=
                  { user.TFAInfo with
                    HOTPCounter := next
                    HOTPExpiredAt := ar.now w.st + 12 * (3600 * 1000000000) } } w.st).1.2 = none →
          (ar.tfaType = TFAType.SMS → user.Phone ≠ "" → sends = [Call.SendSMS user.Phone
            (ar.hotpAt user.TFAInfo.Secret next ++ " is your one-time password!")])
          ∧ (ar.tfaType = TFAType.Email → user.Email ≠ "" →
              sends = [Call.SendTFAEmail "One-time password" user.Email
                (ar.hotpAt user.TFAInfo.Secret next)])) := by
  have hbump : { user with TFAInfo :=
            { user.TFAInfo with
              HOTPCounter := wrapInt64 (user.TFAInfo.HOTPCounter + 1)
              HOTPExpiredAt := ar.now w.st + 12 * (3600 * 1000000000) } }
        = bumpHOTP user (ar.now w.st) := by
    simp [bumpHOTP, Hour, hotpLifespanHours, mul_comm]
  have hmax : user.TFAInfo.HOTPCounter = 9223372036854775807 →
      wrapInt64 (user.TFAInfo.HOTPCounter + 1) = -9223372036854775808 := by
    intro h
    rw [h]
    decide
  refine ⟨wrapInt64 (user.TFAInfo.HOTPCounter + 1), ?_⟩
  rw [hbump]
  have happ : ar.tfaType ≠ TFAType.App := by
    rcases ht with ht | ht <;> rw [ht] <;> decide
  cases hupd : (ar.userStorage.UpdateUser user.ID (bumpHOTP user (ar.now w.st)) w.st).1.2 with
  | some e =>
    have hrun : sendOTPCode ar user w
        = (some e, (w.call (Call.UpdateUser user.ID (bumpHOTP user (ar.now w.st)))
            (ar.userStorage.UpdateUser user.ID (bumpHOTP user (ar.now w.st)))).2) := by
      unfold sendOTPCode
      simp only []
      rw [if_pos happ]
      have hid : (bumpHOTP user (ar.now w.st)).ID = user.ID := rfl
      rw [hid, if_pos (by rw [World.call_fst, hupd]; simp), World.call_fst, hupd]
    refine ⟨[], rfl, wrapInt64_succ _, hmax, by rw [hrun, World.call_log], by simp, ?_,
      by intro h; simp at h⟩
    intro e' he'
    rw [hrun]
    exact ⟨by simpa using he', rfl⟩
  | none =>
    rcases ht with ht | ht
    · have hlog := sendOTPCode_log_sms ar user w ht hupd
      refine ⟨_, rfl, wrapInt64_succ _, hmax, hlog, ?_, by intro e he; simp at he, ?_⟩
      · intro c hc
        left
        split_ifs at hc with hp
        · simp at hc
        · exact ⟨ht, by simpa using hc⟩
      · intro _
        refine ⟨fun _ hp => by rw [if_neg hp]; rfl, fun ht' => ?_⟩
        rw [ht] at ht'
        exact absurd ht' (by decide)
    · have hlog := sendOTPCode_log_email ar user w ht hupd
      refine ⟨_, rfl, wrapInt64_succ _, hmax, hlog, ?_, by intro e he; simp at he, ?_⟩
      · intro c hc
        right
        split_ifs at hc with hp
        · simp at hc
        · exact ⟨ht, by simpa using hc⟩
      · intro _
        refine ⟨fun ht' => ?_, fun _ hp => by rw [if_neg hp]⟩
        rw [ht] at ht'
        exact absurd ht' (by decide)

/-- C8 (witness): with SMS delivery and a storage update that fails, for the user with the
counter 4: the only call is the update, with the counter 5, and its error is returned. -/
theorem sendOTPCode_persists_before_sending_witness :
    ∃ sends,
      (sendOTPCode (stubRouter TFAType.SMS (some (Error.external "storage down")) none)
          aliceTFA (World.fresh () [])).2.log
        = [] ++ Call.UpdateUser "alice0001"
            ⟨"alice0001", "alice@example.com", "+15550001", "hash", "user",
              ⟨true, 5, 43200000001000, "s3cr3t"⟩⟩ :: sends
      ∧ (sendOTPCode (stubRouter TFAType.SMS (some (Error.external "storage down")) none)
          aliceTFA (World.fresh () [])).1 = some (Error.external "storage down")
      ∧ sends = [] := by
  obtain ⟨next, sends, _, hnext, _, hlog, _, hfail, _⟩ :=
    sendOTPCode_persists_before_sending
      (stubRouter TFAType.SMS (some (Error.external "storage down")) none) aliceTFA
      (World.fresh () []) (Or.inl rfl)
  have h5 : next = 5 := hnext (by decide) (by decide)
  subst h5
  exact ⟨sends, hlog, (hfail _ rfl).1, (hfail _ rfl).2⟩

/-! ## Theorems: the HOTP counter -/

/-- C9 (counterexample): over the in-memory records, with SMS delivery and storage updates
that succeed.  First, the stored record has the counter 10 and `sendOTPCode` is given a
record of the same user read earlier, with the counter 4: the stored counter falls to 5.
Second, the stored record, at the largest `int`, is the one given: the stored counter falls
to `-9223372036854775808`, which is not one more than the counter read. -/
theorem sendOTPCode_counter_falls :
    (memUserByID [("alice0001", aliceAhead)] "alice0001" = some aliceAhead
      ∧ aliceAhead.TFAInfo.HOTPCounter = 10
      ∧ aliceTFA.TFAInfo.HOTPCounter = 4
      ∧ (Option.map (fun u => u.TFAInfo.HOTPCounter)
          (memUserByID (sendOTPCode (memRouter TFAType.SMS) aliceTFA
            (World.fresh [("alice0001", aliceAhead)] [])).2.st "alice0001")) = some 5)
    ∧ (memUserByID [("alice0001", aliceAtMax)] "alice0001" = some aliceAtMax
      ∧ aliceAtMax.TFAInfo.HOTPCounter = 9223372036854775807
      ∧ (Option.map (fun u => u.TFAInfo.HOTPCounter)
          (memUserByID (sendOTPCode (memRouter TFAType.SMS) aliceAtMax
            (World.fresh [("alice0001", aliceAtMax)] [])).2.st "alice0001"))
          = some (-9223372036854775808)) := by
  decide

/-- C9 (amended): for a server type other than App and a user whose counter is an `int`
below the largest one: when the storage update succeeds the stored counter is the one read
plus one and every code sent is computed at that stored counter; two calls in sequence
whose updates succeed, the second on the stored record (its counter again below the largest
`int`), store the counter read plus one and then plus two, and send codes computed at these
two distinct counters; and when the record given to `sendOTPCode` is the stored one, the
counter stored afterwards is never below the one stored before. -/
theorem sendOTPCode_counter_monotone {σ π τ : Type} (ar : Router σ π τ)
    (UserByID : σ → String → Option User) (laws : UserRecords ar UserByID) (user : User)
    (w : World σ π) (ht : ar.tfaType ≠ TFAType.App)
    (hlo : -9223372036854775808 ≤ user.TFAInfo.HOTPCounter)
    (hhi : user.TFAInfo.HOTPCounter < 9223372036854775807) :
    (UserByID w.st user.ID = some user →
      ∃ after, UserByID (sendOTPCode ar user w).2.st user.ID = some after
        ∧ user.TFAInfo.HOTPCounter ≤ after.TFAInfo.HOTPCounter)
    ∧ ((ar.userStorage.UpdateUser user.ID (bumpHOTP user (ar.now w.st)) w.st).1.2 = none →
        ∃ stored sends,
          UserByID (sendOTPCode ar user w).2.st user.ID = some stored
          ∧ stored.TFAInfo.HOTPCounter = user.TFAInfo.HOTPCounter + 1
          ∧ (sendOTPCode ar user w).2.log = w.log ++ Call.UpdateUser user.ID stored :: sends
          ∧ (∀ c ∈ sends,
              c = Call.SendSMS user.Phone
                (ar.hotpAt user.TFAInfo.Secret stored.TFAInfo.HOTPCounter
                  ++ " is your one-time password!")
              ∨ c = Call.SendTFAEmail "One-time password" user.Email
                (ar.hotpAt user.TFAInfo.Secret stored.TFAInfo.HOTPCounter))
          ∧ (stored.TFAInfo.HOTPCounter < 9223372036854775807 →
              (ar.userStorage.UpdateUser stored.ID
                (bumpHOTP stored (ar.now (sendOTPCode ar user w).2.st))
                (sendOTPCode ar user w).2.st).1.2 = none →
              ∃ stored2 sends2,
                UserByID (sendOTPCode ar stored (sendOTPCode ar user w).2).2.st user.ID
                  = some stored2
                ∧ stored2.TFAInfo.HOTPCounter = user.TFAInfo.HOTPCounter + 2
                ∧ stored2.TFAInfo.HOTPCounter ≠ stored.TFAInfo.HOTPCounter
                ∧ (sendOTPCode ar stored (sendOTPCode ar user w).2).2.log
                    = w.log ++ Call.UpdateUser user.ID stored :: sends
                        ++ Call.UpdateUser user.ID stored2 :: sends2
                ∧ (∀ c ∈ sends2,
                    c = Call.SendSMS user.Phone
                      (ar.hotpAt user.TFAInfo.Secret stored2.TFAInfo.HOTPCounter
                        ++ " is your one-time password!")
                    ∨ c = Call.SendTFAEmail "One-time password" user.Email
                      (ar.hotpAt user.TFAInfo.Secret stored2.TFAInfo.HOTPCounter)))) := by
  have hrec := sendOTPCode_records ar UserByID laws user w ht
  have hwrap := wrapInt64_succ _ hlo hhi
  have hcnt : (bumpHOTP user (ar.now w.st)).TFAInfo.HOTPCounter
      = user.TFAInfo.HOTPCounter + 1 := hwrap
  constructor
  · intro hstored
    rw [hrec]
    by_cases hupd : (ar.userStorage.UpdateUser user.ID (bumpHOTP user (ar.now w.st)) w.st).1.2
        = none
    · refine ⟨bumpHOTP user (ar.now w.st), laws.update_ok _ _ _ hupd, ?_⟩
      rw [hcnt]
      omega
    · refine ⟨user, ?_, le_refl _⟩
      rw [laws.update_failed _ _ _ hupd]
      exact hstored
  · intro hupd
    obtain ⟨sends, hlog, hsends⟩ := sendOTPCode_sends ar user w ht
    refine ⟨bumpHOTP user (ar.now w.st), sends, ?_, hcnt, hlog, ?_, ?_⟩
    · rw [hrec]
      exact laws.update_ok _ _ _ hupd
    · intro c hc
      rw [hcnt, ← hwrap]
      exact hsends c hc
    · intro hhi2 hupd2
      rw [hcnt] at hhi2
      have hwrap2 : wrapInt64 (user.TFAInfo.HOTPCounter + 1 + 1)
          = user.TFAInfo.HOTPCounter + 1 + 1 := wrapInt64_succ _ (by omega) hhi2
      have hcnt2 : (bumpHOTP (bumpHOTP user (ar.now w.st))
            (ar.now (sendOTPCode ar user w).2.st)).TFAInfo.HOTPCounter
          = user.TFAInfo.HOTPCounter + 2 := by
        show wrapInt64 ((bumpHOTP user (ar.now w.st)).TFAInfo.HOTPCounter + 1) = _
        rw [hcnt, hwrap2]
        omega
      obtain ⟨sends2, hlog2, hsends2⟩ :=
        sendOTPCode_sends ar (bumpHOTP user (ar.now w.st)) (sendOTPCode ar user w).2 ht
      refine ⟨bumpHOTP (bumpHOTP user (ar.now w.st)) (ar.now (sendOTPCode ar user w).2.st),
        sends2, ?_, hcnt2, ?_, ?_, ?_⟩
      · rw [sendOTPCode_records ar UserByID laws _ _ ht]
        exact laws.update_ok _ _ _ hupd2
      · rw [hcnt2, hcnt]
        omega
      · rw [hlog2, hlog]
        rfl
      · intro c hc
        have h := hsends2 c hc
        rw [hcnt, hwrap2] at h
        rw [hcnt2]
        have h2 : user.TFAInfo.HOTPCounter + 2 = user.TFAInfo.HOTPCounter + 1 + 1 := by omega
        rw [h2]
        exact h

/-- C9 (witness): over the in-memory records, on the stored user with counter 4: after one
call the stored counter is not below 4, and after two calls in sequence it is 6. -/
theorem sendOTPCode_counter_monotone_witness :
    (∃ after,
      memUserByID (sendOTPCode (memRouter TFAType.SMS) aliceTFA
          (World.fresh [("alice0001", aliceTFA)] [])).2.st "alice0001" = some after
      ∧ 4 ≤ after.TFAInfo.HOTPCounter)
    ∧ ∃ stored2,
      memUserByID
        (sendOTPCode (memRouter TFAType.SMS) (bumpHOTP aliceTFA 1000)
          (sendOTPCode (memRouter TFAType.SMS) aliceTFA
            (World.fresh [("alice0001", aliceTFA)] [])).2).2.st "alice0001" = some stored2
      ∧ stored2.TFAInfo.HOTPCounter = 6 := by
  refine ⟨(sendOTPCode_counter_monotone (memRouter TFAType.SMS) memUserByID
      (memRouter_records TFAType.SMS) aliceTFA (World.fresh [("alice0001", aliceTFA)] [])
      (by decide) (by decide) (by decide)).1 (by decide), ?_⟩
  obtain ⟨stored, sends, h1, h2, h3, h4, h5⟩ :=
    (sendOTPCode_counter_monotone (memRouter TFAType.SMS) memUserByID
      (memRouter_records TFAType.SMS) aliceTFA (World.fresh [("alice0001", aliceTFA)] [])
      (by decide) (by decide) (by decide)).2 rfl
  have hst : stored = bumpHOTP aliceTFA 1000 := by
    have : memUserByID (sendOTPCode (memRouter TFAType.SMS) aliceTFA
        (World.fresh [("alice0001", aliceTFA)] [])).2.st aliceTFA.ID
        = some (bumpHOTP aliceTFA 1000) := by decide
    rw [this] at h1
    exact (Option.some.inj h1).symm
  subst hst
  obtain ⟨stored2, _, g1, g2, _⟩ := h5 (by decide) rfl
  exact ⟨stored2, g1, g2⟩

/-! ## Theorems: notification failures -/

/-- The result of `sendOTPCode` for the server type SMS after a storage update that
succeeded: the error for a missing phone number, else what the one `SendSMS` call answers,
its error wrapped. -/
theorem sendOTPCode_sms_result {σ π τ : Type} (ar : Router σ π τ) (user : User) (w : World σ π)
    (ht : ar.tfaType = TFAType.SMS)
    (hu : (ar.userStorage.UpdateUser user.ID (bumpHOTP user (ar.now w.st)) w.st).1.2 = none) :
    (sendOTPCode ar user w).1
      = if user.Phone = "" then some Error.noPhoneNumber
        else
          match (ar.smsService.SendSMS user.Phone
            (ar.hotpAt user.TFAInfo.Secret (wrapInt64 (user.TFAInfo.HOTPCounter + 1))
              ++ " is your one-time password!")
            (ar.userStorage.UpdateUser user.ID (bumpHOTP user (ar.now w.st)) w.st).2).1 with
          | some err => some (Error.unableToSendSMS err)
          | none => none := by
  unfold sendOTPCode
  have hid : (bumpHOTP user (ar.now w.st)).ID = user.ID := rfl
  have hph : (bumpHOTP user (ar.now w.st)).Phone = user.Phone := rfl
  simp only [ht, hid, hph]
  rw [if_pos (by decide), if_neg (by simpa using hu)]
  unfold sendTFACodeInSMS smsTFACode
  simp only [World.call_fst, World.call_st]
  split_ifs
  · rfl
  · split <;> rename_i h <;> simp only [h]

/-- The result of `sendOTPCode` for the server type Email after a storage update that
succeeded: the error for a missing email, else what the one `SendTFAEmail` call answers, its
error wrapped. -/
theorem sendOTPCode_email_result {σ π τ : Type} (ar : Router σ π τ) (user : User)
    (w : World σ π) (ht : ar.tfaType = TFAType.Email)
    (hu : (ar.userStorage.UpdateUser user.ID (bumpHOTP user (ar.now w.st)) w.st).1.2 = none) :
    (sendOTPCode ar user w).1
      = if user.Email = "" then some Error.noEmail
        else
          match (ar.emailService.SendTFAEmail "One-time password" user.Email
            (ar.hotpAt user.TFAInfo.Secret (wrapInt64 (user.TFAInfo.HOTPCounter + 1)))
            (ar.userStorage.UpdateUser user.ID (bumpHOTP user (ar.now w.st)) w.st).2).1 with
          | some err => some (Error.unableToSendEmail err)
          | none => none := by
  unfold sendOTPCode
  have hid : (bumpHOTP user (ar.now w.st)).ID = user.ID := rfl
  have hph : (bumpHOTP user (ar.now w.st)).Email = user.Email := rfl
  simp only [ht, hid, hph]
  rw [if_pos (by decide), if_neg (by simpa using hu)]
  unfold sendTFACodeOnEmail
  simp only [World.call_fst, World.call_st]
  split_ifs
  · rfl
  · split <;> rename_i h <;> simp only [h]

/-- C20: a notification failure is returned, not swallowed.  In every world in which the
storage update of `sendOTPCode` succeeds: for the server type SMS, a user without a phone
gets the error `noPhoneNumber`, and when the `SendSMS` call that `sendOTPCode` makes (to the
user's phone, with the code, in the state the update leaves) answers an error, `sendOTPCode`
returns that error wrapped; likewise for Email.  And on the required-and-ready path of
`loginFlow`, once scope negotiation, the payload lookup and the token issuance have returned
nil errors, every error that `sendOTPCode` returns in the world the issuance leaves is
returned by `loginFlow` with the zero `AuthResponse`; so the error of the `SendSMS` (or
`SendTFAEmail`) call made there comes back wrapped, with no token and no user. -/
theorem loginFlow_delivery_failure {σ π τ : Type} (ar : Router σ π τ) (app : AppData)
    (user : User) (scopes : List String) (w : World σ π) :
    (∀ w' : World σ π, ar.tfaType = TFAType.SMS →
        (ar.userStorage.UpdateUser user.ID (bumpHOTP user (ar.now w'.st)) w'.st).1.2 = none →
        (user.Phone = "" → (sendOTPCode ar user w').1 = some Error.noPhoneNumber)
        ∧ (user.Phone ≠ "" → ∀ e,
            (ar.smsService.SendSMS user.Phone
              (ar.hotpAt user.TFAInfo.Secret (wrapInt64 (user.TFAInfo.HOTPCounter + 1))
                ++ " is your one-time password!")
              (ar.userStorage.UpdateUser user.ID (bumpHOTP user (ar.now w'.st)) w'.st).2).1
              = some e →
            (sendOTPCode ar user w').1 = some (Error.unableToSendSMS e)))
    ∧ (∀ w' : World σ π, ar.tfaType = TFAType.Email →
        (ar.userStorage.UpdateUser user.ID (bumpHOTP user (ar.now w'.st)) w'.st).1.2 = none →
        (user.Email = "" → (sendOTPCode ar user w').1 = some Error.noEmail)
        ∧ (user.Email ≠ "" → ∀ e,
            (ar.emailService.SendTFAEmail "One-time password" user.Email
              (ar.hotpAt user.TFAInfo.Secret (wrapInt64 (user.TFAInfo.HOTPCounter + 1)))
              (ar.userStorage.UpdateUser user.ID (bumpHOTP user (ar.now w'.st)) w'.st).2).1
              = some e →
            (sendOTPCode ar user w').1 = some (Error.unableToSendEmail e)))
    ∧ ((check2FA app.TFAStatus ar.tfaType user).1 = true →
        (check2FA app.TFAStatus ar.tfaType user).2.1 = true →
        (ar.userStorage.RequestScopes user.ID scopes w.st).1.2 = none →
        (payloadStep ar app user scopes w).1.2 = none →
        (issuanceStep ar app user scopes w).1.2.2 = none →
        (∀ e, (sendOTPCode ar user (issuanceStep ar app user scopes w).2).1 = some e →
          loginFlow ar app user scopes w
            = ((AuthResponse.zero, some e),
                (sendOTPCode ar user (issuanceStep ar app user scopes w).2).2))
        ∧ ((ar.userStorage.UpdateUser user.ID
              (bumpHOTP user (ar.now (issuanceStep ar app user scopes w).2.st))
              (issuanceStep ar app user scopes w).2.st).1.2 = none →
            (ar.tfaType = TFAType.SMS → ∀ e,
              (ar.smsService.SendSMS user.Phone
                (ar.hotpAt user.TFAInfo.Secret (wrapInt64 (user.TFAInfo.HOTPCounter + 1))
                  ++ " is your one-time password!")
                (ar.userStorage.UpdateUser user.ID
                  (bumpHOTP user (ar.now (issuanceStep ar app user scopes w).2.st))
                  (issuanceStep ar app user scopes w).2.st).2).1 = some e →
              (loginFlow ar app user scopes w).1
                = (AuthResponse.zero, some (Error.unableToSendSMS e)))
            ∧ (ar.tfaType = TFAType.Email → ∀ e,
              (ar.emailService.SendTFAEmail "One-time password" user.Email
                (ar.hotpAt user.TFAInfo.Secret (wrapInt64 (user.TFAInfo.HOTPCounter + 1)))
                (ar.userStorage.UpdateUser user.ID
                  (bumpHOTP user (ar.now (issuanceStep ar app user scopes w).2.st))
                  (issuanceStep ar app user scopes w).2.st).2).1 = some e →
              (loginFlow ar app user scopes w).1
                = (AuthResponse.zero, some (Error.unableToSendEmail e))))) := by
  have hsms : ∀ w' : World σ π, ar.tfaType = TFAType.SMS →
      (ar.userStorage.UpdateUser user.ID (bumpHOTP user (ar.now w'.st)) w'.st).1.2 = none →
      (user.Phone = "" → (sendOTPCode ar user w').1 = some Error.noPhoneNumber)
      ∧ (user.Phone ≠ "" → ∀ e,
          (ar.smsService.SendSMS user.Phone
            (ar.hotpAt user.TFAInfo.Secret (wrapInt64 (user.TFAInfo.HOTPCounter + 1))
              ++ " is your one-time password!")
            (ar.userStorage.UpdateUser user.ID (bumpHOTP user (ar.now w'.st)) w'.st).2).1
            = some e →
          (sendOTPCode ar user w').1 = some (Error.unableToSendSMS e)) := by
    intro w' ht hu
    rw [sendOTPCode_sms_result ar user w' ht hu]
    refine ⟨fun hp => by rw [if_pos hp], fun hp e he => ?_⟩
    rw [if_neg hp, he]
  have hmail : ∀ w' : World σ π, ar.tfaType = TFAType.Email →
      (ar.userStorage.UpdateUser user.ID (bumpHOTP user (ar.now w'.st)) w'.st).1.2 = none →
      (user.Email = "" → (sendOTPCode ar user w').1 = some Error.noEmail)
      ∧ (user.Email ≠ "" → ∀ e,
          (ar.emailService.SendTFAEmail "One-time password" user.Email
            (ar.hotpAt user.TFAInfo.Secret (wrapInt64 (user.TFAInfo.HOTPCounter + 1)))
            (ar.userStorage.UpdateUser user.ID (bumpHOTP user (ar.now w'.st)) w'.st).2).1
            = some e →
          (sendOTPCode ar user w').1 = some (Error.unableToSendEmail e)) := by
    intro w' ht hu
    rw [sendOTPCode_email_result ar user w' ht hu]
    refine ⟨fun hp => by rw [if_pos hp], fun hp e he => ?_⟩
    rw [if_neg hp, he]
  refine ⟨hsms, hmail, ?_⟩
  intro hreq hready hrs htp hlu
  obtain ⟨hphone, hemail, _⟩ := check2FA_ready hreq hready
  have hrun := loginFlow_pending_run ar app user scopes w hreq hready hrs htp hlu
  have hflow : ∀ e, (sendOTPCode ar user (issuanceStep ar app user scopes w).2).1 = some e →
      loginFlow ar app user scopes w
        = ((AuthResponse.zero, some e),
            (sendOTPCode ar user (issuanceStep ar app user scopes w).2).2) := by
    intro e he
    rw [hrun, if_pos (by rw [he]; simp), he]
  refine ⟨hflow, ?_⟩
  intro hu
  refine ⟨fun ht e he => ?_, fun ht e he => ?_⟩
  · rw [hflow _ ((hsms _ ht hu).2 (hphone ht) e he)]
  · rw [hflow _ ((hmail _ ht hu).2 (hemail ht) e he)]

/-- C20 (witness): the enrolled user at a Mandatory app with SMS delivery and an SMS sender
that fails: `loginFlow` returns the wrapped error of the sender and the zero response. -/
theorem loginFlow_delivery_failure_witness :
    (loginFlow (stubRouter TFAType.SMS none (some (Error.external "gateway down")))
        (stubApp TFAStatus.Mandatory) aliceTFA [] (World.fresh () [])).1
      = (AuthResponse.zero, some (Error.unableToSendSMS (Error.external "gateway down"))) :=
  ((loginFlow_delivery_failure (stubRouter TFAType.SMS none (some (Error.external "gateway down")))
      (stubApp TFAStatus.Mandatory) aliceTFA [] (World.fresh () [])).2.2
    (by decide) (by decide) (by decide) (by decide) (by decide)).2 (by decide) |>.1 rfl
    (Error.external "gateway down") (by decide)

/-! ## Theorems: the options of the partial composers -/

/-- The loop over the options stops at the first option that fails, with its error, having
invoked the options up to that one and none after it. -/
theorem applyOptions_fail {PC : Type} (pre : List (PC → PC × Option Error))
    (opt : PC → PC × Option Error) (rest : List (PC → PC × Option Error)) (base pc : PC)
    (index : Nat) (e : Error) (hpre : optionsSucceed base pre pc) (hfail : (opt pc).2 = some e) :
    applyOptions base index (pre ++ opt :: rest)
      = ((none, some e), List.range' index (pre.length + 1)) := by
  induction pre generalizing base index with
  | nil =>
    simp only [optionsSucceed] at hpre
    subst hpre
    simp [applyOptions, hfail, List.range']
  | cons o os ih =>
    obtain ⟨ho, hos⟩ := hpre
    simp only [List.cons_append, applyOptions]
    rw [if_neg (by simp [ho])]
    have h := ih (o base).1 (index + 1) hos
    simp only [List.append_eq] at h ⊢
    rw [h]
    simp [List.range']

/-- The loop over options that all succeed returns the composer they leave, having invoked
them all. -/
theorem applyOptions_ok {PC : Type} (options : List (PC → PC × Option Error)) (base pc : PC)
    (index : Nat) (h : optionsSucceed base options pc) :
    applyOptions base index options = ((some pc, none), List.range' index options.length) := by
  induction options generalizing base index with
  | nil =>
    simp only [optionsSucceed] at h
    subst h
    rfl
  | cons o os ih =>
    obtain ⟨ho, hos⟩ := h
    simp only [applyOptions]
    rw [if_neg (by simp [ho]), ih _ _ hos]
    simp [List.range']

/-- The in-memory partial composer as it stands when the options loop starts: the run with
no options returns it, and each constructor is set exactly for a kind configured with
`DBTypeFake`. -/
theorem fake_NewPartialComposerRun_base {A U T B V I : Type}
    (mem : fake.DatabaseComposer A U T B V I) (settings : StorageSettings) :
    ∃ base, (∀ options, fake.NewPartialComposerRun mem settings options
          = applyOptions base 0 options)
      ∧ base.newAppStorage = (if settings.AppStorage.DBType = DatabaseType.DBTypeFake
          then some mem.newAppStorage else none)
      ∧ base.newUserStorage = (if settings.UserStorage.DBType = DatabaseType.DBTypeFake
          then some mem.newUserStorage else none)
      ∧ base.newTokenStorage = (if settings.TokenStorage.DBType = DatabaseType.DBTypeFake
          then some mem.newTokenStorage else none)
      ∧ base.newTokenBlacklist = (if settings.TokenBlacklist.DBType = DatabaseType.DBTypeFake
          then some mem.newTokenBlacklist else none)
      ∧ base.newVerificationCodeStorage
          = (if settings.VerificationCodeStorage.DBType = DatabaseType.DBTypeFake
              then some mem.newVerificationCodeStorage else none)
      ∧ base.newInviteStorage = (if settings.InviteStorage.DBType = DatabaseType.DBTypeFake
          then some mem.newInviteStorage else none) := by
  refine ⟨_, fun _ => rfl, ?_, ?_, ?_, ?_, ?_, ?_⟩
  · simp only [apply_ite fake.PartialDatabaseComposer.newAppStorage, ite_self]
  · simp only [apply_ite fake.PartialDatabaseComposer.newUserStorage, ite_self]
  · simp only [apply_ite fake.PartialDatabaseComposer.newTokenStorage, ite_self]
  · simp only [apply_ite fake.PartialDatabaseComposer.newTokenBlacklist, ite_self]
  · simp only [apply_ite fake.PartialDatabaseComposer.newVerificationCodeStorage, ite_self]
  · simp only [apply_ite fake.PartialDatabaseComposer.newInviteStorage, ite_self]

/-- C12: both `NewPartialComposer` functions run the options loop on the composer `base`
whose six constructors have been set from the settings (each exactly for a kind of the
composer's own backend type; for BoltDB the database handle is set too), and apply the
options to it in list order.  If the options before the k-th succeed and the k-th returns an
error, the result is `(nil, that error)` and the options invoked are those at the positions
0 to k, in this order: none after the k-th.  If all succeed, the result is the composer they
leave, with a nil error, every option having been invoked once, in order.  The BoltDB
function does so once the database initialisation has succeeded; when it fails, it returns
`(nil, that error)` and invokes no option. -/
theorem NewPartialComposer_options {DB A U T B V I : Type}
    (mem : fake.DatabaseComposer A U T B V I) (InitDB : String → Option DB × Option Error)
    (bolt : boltdb.DatabaseComposer DB A U T B V I) (settings : StorageSettings) :
    (∃ base, fake.NewPartialComposerRun mem settings [] = ((some base, none), [])
      ∧ base.newAppStorage = (if settings.AppStorage.DBType = DatabaseType.DBTypeFake
          then some mem.newAppStorage else none)
      ∧ base.newUserStorage = (if settings.UserStorage.DBType = DatabaseType.DBTypeFake
          then some mem.newUserStorage else none)
      ∧ base.newTokenStorage = (if settings.TokenStorage.DBType = DatabaseType.DBTypeFake
          then some mem.newTokenStorage else none)
      ∧ base.newTokenBlacklist = (if settings.TokenBlacklist.DBType = DatabaseType.DBTypeFake
          then some mem.newTokenBlacklist else none)
      ∧ base.newVerificationCodeStorage
          = (if settings.VerificationCodeStorage.DBType = DatabaseType.DBTypeFake
              then some mem.newVerificationCodeStorage else none)
      ∧ base.newInviteStorage = (if settings.InviteStorage.DBType = DatabaseType.DBTypeFake
          then some mem.newInviteStorage else none)
      ∧ (∀ pre opt rest pc e, optionsSucceed base pre pc → (opt pc).2 = some e →
          fake.NewPartialComposer mem settings (pre ++ opt :: rest) = (none, some e)
          ∧ (fake.NewPartialComposerRun mem settings (pre ++ opt :: rest)).2
              = List.range (pre.length + 1))
      ∧ (∀ options pc, optionsSucceed base options pc →
          fake.NewPartialComposer mem settings options = (some pc, none)
          ∧ (fake.NewPartialComposerRun mem settings options).2
              = List.range options.length))
    ∧ ((InitDB (boltdb.baseComposer bolt settings).2).2 = none →
        ∃ base, boltdb.NewPartialComposerRun InitDB bolt settings [] = ((some base, none), [])
          ∧ base.db = (InitDB (boltdb.baseComposer bolt settings).2).1
          ∧ base.newAppStorage = (if settings.AppStorage.DBType = DatabaseType.DBTypeBoltDB
              then some bolt.newAppStorage else none)
          ∧ base.newUserStorage = (if settings.UserStorage.DBType = DatabaseType.DBTypeBoltDB
              then some bolt.newUserStorage else none)
          ∧ base.newTokenStorage = (if settings.TokenStorage.DBType = DatabaseType.DBTypeBoltDB
              then some bolt.newTokenStorage else none)
          ∧ base.newTokenBlacklist
              = (if settings.TokenBlacklist.DBType = DatabaseType.DBTypeBoltDB
                  then some bolt.newTokenBlacklist else none)
          ∧ base.newVerificationCodeStorage
              = (if settings.VerificationCodeStorage.DBType = DatabaseType.DBTypeBoltDB
                  then some bolt.newVerificationCodeStorage else none)
          ∧ base.newInviteStorage
              = (if settings.InviteStorage.DBType = DatabaseType.DBTypeBoltDB
                  then some bolt.newInviteStorage else none)
          ∧ (∀ pre opt rest pc e, optionsSucceed base pre pc → (opt pc).2 = some e →
              boltdb.NewPartialComposer InitDB bolt settings (pre ++ opt :: rest)
                = (none, some e)
              ∧ (boltdb.NewPartialComposerRun InitDB bolt settings (pre ++ opt :: rest)).2
                  = List.range (pre.length + 1))
          ∧ (∀ options pc, optionsSucceed base options pc →
              boltdb.NewPartialComposer InitDB bolt settings options = (some pc, none)
              ∧ (boltdb.NewPartialComposerRun InitDB bolt settings options).2
                  = List.range options.length))
    ∧ ((InitDB (boltdb.baseComposer bolt settings).2).2 ≠ none →
        ∀ options, boltdb.NewPartialComposerRun InitDB bolt settings options
          = ((none, (InitDB (boltdb.baseComposer bolt settings).2).2), [])) := by
  refine ⟨?_, ?_, ?_⟩
  · obtain ⟨base, hbase, h1, h2, h3, h4, h5, h6⟩ := fake_NewPartialComposerRun_base mem settings
    refine ⟨base, by rw [hbase]; rfl, h1, h2, h3, h4, h5, h6, ?_, ?_⟩
    · intro pre opt rest pc e hpre hfail
      unfold fake.NewPartialComposer
      rw [hbase, applyOptions_fail pre opt rest _ pc 0 e hpre hfail, List.range_eq_range']
      exact ⟨rfl, rfl⟩
    · intro options pc h
      unfold fake.NewPartialComposer
      rw [hbase, applyOptions_ok options _ pc 0 h, List.range_eq_range']
      exact ⟨rfl, rfl⟩
  · intro hdb
    obtain ⟨h1, h2, h3, h4, h5, h6⟩ := bolt_baseComposer_fields bolt settings
    have hrun : ∀ options, boltdb.NewPartialComposerRun InitDB bolt settings options
        = applyOptions { (boltdb.baseComposer bolt settings).1 with
            db := (InitDB (boltdb.baseComposer bolt settings).2).1 } 0 options := by
      intro options
      unfold boltdb.NewPartialComposerRun
      simp only []
      rw [if_neg (by simp [hdb])]
    refine ⟨{ (boltdb.baseComposer bolt settings).1 with
        db := (InitDB (boltdb.baseComposer bolt settings).2).1 }, by rw [hrun]; rfl, rfl,
      h1, h2, h3, h4, h5, h6, ?_, ?_⟩
    · intro pre opt rest pc e hpre hfail
      unfold boltdb.NewPartialComposer
      rw [hrun, applyOptions_fail pre opt rest _ pc 0 e hpre hfail, List.range_eq_range']
      exact ⟨rfl, rfl⟩
    · intro options pc h
      unfold boltdb.NewPartialComposer
      rw [hrun, applyOptions_ok options _ pc 0 h, List.range_eq_range']
      exact ⟨rfl, rfl⟩
  · intro hdb options
    unfold boltdb.NewPartialComposerRun
    simp only []
    rw [if_pos hdb]

/-- C12 (witness): three options on the in-memory composer, the second failing: its error
is returned and no composer, and the options invoked are the first and the second. -/
theorem NewPartialComposer_options_witness :
    fake.NewPartialComposer (stubFake none) mixedSettings
        [withoutInvites, failingOption, withoutInvites]
      = (none, some (Error.external "bad option"))
    ∧ (fake.NewPartialComposerRun (stubFake none) mixedSettings
        [withoutInvites, failingOption, withoutInvites]).2 = [0, 1] := by
  obtain ⟨base, _, _, _, _, _, _, _, hfail, _⟩ :=
    (NewPartialComposer_options (stubFake none) (stubInitDB none) (stubBolt none)
      mixedSettings).1
  exact hfail [withoutInvites] failingOption [withoutInvites] (withoutInvites base).1
    (Error.external "bad option") ⟨rfl, rfl⟩ rfl

end Identifo
